import Mathlib

/-!
MarlinFastJet, `FastJetUtil`.

A shallow embedding of `include/FastJetUtil.h`: the initialisation (`init`,
`initStrategy`, `initRecoScheme`, `initClusterMode`), the algorithm selector
(`initJetAlgo`, `isJetAlgo`), the clustering-mode dispatcher (`clusterJets`) and the
iterative radius search (`doIterativeInclusiveClustering`).

Conventions of the embedding.

* `double` values live in an arbitrary linearly ordered field `K`, and the arithmetic of
  the search on them is exact; the functions named `...Rounded` are the same code with the
  result of every `double` operation rounded by a function `rnd`, and `roundDouble` is the
  rounding of IEEE 754 binary64 on the rationals.  The constant
  `M_PI_4` of `<cmath>` and the C library functions `atof` and `atoi` are parameters;
  `atoiModel` is the conversion of `atoi` on the tokens of the examples.
* The FastJet library is a black box.  A `JetDefinition` value records which
  constructor was called with which arguments, and the clustering itself is a
  parameter `engine`: the `ClusterSequence` constructor, whose result answers the
  three queries used by the code.
* Exceptions are values of `Error`; functions that may throw return `Except`.
* Every construction of a `ClusterSequence`, every query on it, every `new`, every
  `delete` and every WARNING line is appended to a trace of `Event`s, so that the
  number of engine runs and the objects still allocated can be read off.
* The DEBUG line written in each iteration of the search (`iIter`, `R`,
  `jets.size()`, `nJets`) is kept as a list of `DebugLine`s.
* Container sizes are natural numbers: vectors are taken to hold fewer than `2^31`
  elements, so that `(int)v.size()` and `unsigned n = v.size()` do not wrap.  The
  field `_requestedNumberOfJets` is an `unsigned`, and its casts to `int` are explicit.
* The MESSAGE/ERROR/DEBUG text output other than the lines above is not modelled.
-/

namespace MarlinFastJet

/-! ## Data model -/

/-- Value of the preprocessor constant `ITERATIVE_INCLUSIVE_MAX_ITERATIONS`. -/
def ITERATIVE_INCLUSIVE_MAX_ITERATIONS : Nat := 20

/-- The two exception classes thrown by the code: the framework `Exception` with its
message, and `SkippedFixedNrJetException`. -/
inductive Error where
  | Exception (what : String)
  | SkippedFixedNrJetException
  deriving DecidableEq, Repr

/-- The enumeration `EClusterMode` (declared in `EClusterMode.h`). -/
inductive EClusterMode where
  | NONE
  | FJ_exclusive_yCut
  | FJ_exclusive_nJets
  | FJ_inclusive
  | OWN_inclusiveIteration
  deriving DecidableEq, Repr

/-- The values of `fastjet::JetAlgorithm` that the code names. -/
inductive JetAlgorithm where
  | kt_algorithm
  | cambridge_algorithm
  | antikt_algorithm
  | genkt_algorithm
  | cambridge_for_passive_algorithm
  | genkt_for_passive_algorithm
  | ee_kt_algorithm
  | ee_genkt_algorithm
  deriving DecidableEq, Repr

/-- The values of `fastjet::RecombinationScheme` that the code names. -/
inductive RecombinationScheme where
  | E_scheme
  | pt_scheme
  | pt2_scheme
  | Et_scheme
  | Et2_scheme
  | BIpt_scheme
  | BIpt2_scheme
  deriving DecidableEq, Repr

/-- The enumeration `fastjet::Strategy`: the value `Best`, and any other value by its
integer code. -/
inductive Strategy where
  | Best
  | other (code : Int)
  deriving DecidableEq, Repr

/-- A `fastjet::PseudoJet`: a four-vector with its user index. -/
structure PseudoJet (K : Type) where
  px : K
  py : K
  pz : K
  E : K
  user_index : Int
  deriving DecidableEq, Repr

/-- The plugin objects the code constructs, with their constructor arguments. -/
inductive Plugin (K : Type) where
  | SISConePlugin (R overlapThreshold : K)
  | SISConeSphericalPlugin (R overlapThreshold : K)
  | ValenciaPlugin (R beta gamma : K)
  deriving DecidableEq, Repr

/-- A `fastjet::JetDefinition`, as the record of the constructor that built it:
`JetDefinition(algo, R, scheme, strategy)`, `JetDefinition(algo, R, xtra, scheme, strategy)`,
`JetDefinition(algo, scheme, strategy)` and `JetDefinition(plugin)`. -/
inductive JetDefinition (K : Type) where
  | withR (algo : JetAlgorithm) (R : K) (scheme : RecombinationScheme) (strategy : Strategy)
  | withRXtra (algo : JetAlgorithm) (R xtra : K) (scheme : RecombinationScheme)
      (strategy : Strategy)
  | noParam (algo : JetAlgorithm) (scheme : RecombinationScheme) (strategy : Strategy)
  | ofPlugin (pl : Plugin K)
  deriving DecidableEq, Repr

/-- A `fastjet::ClusterSequence` after construction: the answers to the three queries
`inclusive_jets(ptmin)`, `exclusive_jets_ycut(ycut)` and `exclusive_jets(njets)`. -/
structure ClusterSequence (K : Type) where
  inclusive_jets : K → List (PseudoJet K)
  exclusive_jets_ycut : K → List (PseudoJet K)
  exclusive_jets : Int → List (PseudoJet K)

/-- The clustering engine: the constructor `ClusterSequence(pjList, jetDefinition)`,
which runs the clustering. -/
abbrev Engine (K : Type) := List (PseudoJet K) → JetDefinition K → ClusterSequence K

/-- An `LCCollection`, of which the code reads the number of elements (an `int`). -/
structure LCCollection where
  getNumberOfElements : Int
  deriving DecidableEq, Repr

/-- What the code does to the outside world, in order. -/
inductive Event (K : Type) where
  | newPlugin (pl : Plugin K)
  | newJetDefinition (jd : JetDefinition K)
  | clusterSequence (pjList : List (PseudoJet K)) (jd : JetDefinition K)
  | inclusive_jets (ptmin : K)
  | exclusive_jets_ycut (ycut : K)
  | exclusive_jets (njets : Int)
  | deletePlugin (pl : Plugin K)
  | deleteJetDefinition (jd : JetDefinition K)
  | warnNotEnoughElements (requested : Nat)
  | warnMaximumIterations
  deriving DecidableEq, Repr

/-- The data members of `FastJetUtil`. -/
structure FastJetUtil (K : Type) where
  _cs : Option (ClusterSequence K)
  _jetAlgoNameAndParams : List String
  _jetAlgoName : String
  _jetAlgo : Option (JetDefinition K)
  _jetAlgoType : JetAlgorithm
  _clusterModeNameAndParam : List String
  _clusterModeName : String
  _clusterMode : EClusterMode
  _jetRecoSchemeName : String
  _jetRecoScheme : RecombinationScheme
  _strategyName : String
  _strategy : Strategy
  _requestedNumberOfJets : Nat
  _yCut : K
  _minPt : K
  _minE : K

/-- The cast `(int)x` of an `unsigned` 32-bit value. -/
def castInt (x : Nat) : Int :=
  if x % 2 ^ 32 < 2 ^ 31 then ((x % 2 ^ 32 : Nat) : Int) else ((x % 2 ^ 32 : Nat) : Int) - 2 ^ 32

/-- Is the event the construction of a `ClusterSequence`, that is, a run of the engine? -/
def Event.isEngineRun {K : Type} : Event K → Bool
  | .clusterSequence _ _ => true
  | _ => false

/-- Is the event a query on a `ClusterSequence`? -/
def Event.isQuery {K : Type} : Event K → Bool
  | .inclusive_jets _ => true
  | .exclusive_jets_ycut _ => true
  | .exclusive_jets _ => true
  | _ => false

/-- The engine runs of a trace, in order. -/
def engineRunEvents {K : Type} (trace : List (Event K)) : List (Event K) :=
  trace.filter Event.isEngineRun

/-- Number of engine runs in a trace. -/
def engineRuns {K : Type} (trace : List (Event K)) : Nat :=
  (engineRunEvents trace).length

/-! ## The iterative search -/

section Search

variable {K : Type} [LinearOrderedField K]

/-- One DEBUG line of the search: `iIter`, `R`, `jets.size()`, `nJets`. -/
structure DebugLine (K : Type) where
  iIter : Nat
  R : K
  nAll : Nat
  nJets : Nat
  deriving DecidableEq, Repr

/-- The local variables of `doIterativeInclusiveClustering`, with the trace and the
DEBUG lines written so far. -/
structure IterState (K : Type) where
  R : K
  RDiff : K
  jets : List (PseudoJet K)
  jetsReturn : List (PseudoJet K)
  nJets : Nat
  iIter : Nat
  pluginSisCone : Option (Plugin K)
  pluginSisConeSph : Option (Plugin K)
  trace : List (Event K)
  debug : List (DebugLine K)

/-- The inner loop `for j: if (jets[j].E() > _minE) jetsReturn.push_back(jets[j])`,
started on an empty `jetsReturn`. -/
def pushAboveThreshold (minE : K) (jets : List (PseudoJet K)) : List (PseudoJet K) :=
  jets.foldl (fun acc j => if j.E > minE then acc ++ [j] else acc) []

/-- The head of the loop body: the per-iteration `JetDefinition` (and plugin) for the
current `R`. -/
def newIterationDefinition (u : FastJetUtil K) (useSisCone useSisConeSph : Bool)
    (sisConeOverlapThreshold : K) (s : IterState K) : IterState K × JetDefinition K :=
  if useSisCone then
    let pl := Plugin.SISConePlugin s.R sisConeOverlapThreshold
    let jd := JetDefinition.ofPlugin pl
    ({ s with pluginSisCone := some pl,
              trace := s.trace ++ [Event.newPlugin pl, Event.newJetDefinition jd] }, jd)
  else if useSisConeSph then
    let pl := Plugin.SISConeSphericalPlugin s.R sisConeOverlapThreshold
    let jd := JetDefinition.ofPlugin pl
    ({ s with pluginSisConeSph := some pl,
              trace := s.trace ++ [Event.newPlugin pl, Event.newJetDefinition jd] }, jd)
  else
    let jd := JetDefinition.withR u._jetAlgoType s.R u._jetRecoScheme u._strategy
    ({ s with trace := s.trace ++ [Event.newJetDefinition jd] }, jd)

/-- The `delete` of a plugin pointer: nothing happens on a null pointer. -/
def deletePluginEvents (p : Option (Plugin K)) : List (Event K) :=
  match p with
  | none => []
  | some pl => [Event.deletePlugin pl]

/-- One pass through the body of the `for` loop.  The boolean is `true` when the body
is left by `break`. -/
def iterationBody (engine : Engine K) (u : FastJetUtil K) (pjList : List (PseudoJet K))
    (useSisCone useSisConeSph : Bool) (sisConeOverlapThreshold : K) (s : IterState K) :
    IterState K × Bool :=
  let (s, jetDefinition) :=
    newIterationDefinition u useSisCone useSisConeSph sisConeOverlapThreshold s
  let cs := engine pjList jetDefinition
  let s := { s with trace := s.trace ++ [Event.clusterSequence pjList jetDefinition] }
  let s := { s with jets := cs.inclusive_jets 0, trace := s.trace ++ [Event.inclusive_jets 0] }
  let s := { s with jetsReturn := [] }
  let s := { s with nJets := 0 }
  let s := { s with jetsReturn := pushAboveThreshold u._minE s.jets }
  let s := { s with nJets := s.jetsReturn.length }
  let s := { s with debug := s.debug ++ [DebugLine.mk s.iIter s.R s.jets.length s.nJets] }
  if s.nJets = u._requestedNumberOfJets then
    (s, true)
  else
    let s :=
      if s.nJets < u._requestedNumberOfJets then { s with R := s.R - s.RDiff }
      else if s.nJets > u._requestedNumberOfJets then { s with R := s.R + s.RDiff }
      else s
    let s := { s with RDiff := s.RDiff / 2 }
    let s := { s with trace := s.trace ++ deletePluginEvents s.pluginSisCone,
                      pluginSisCone := none }
    let s := { s with trace := s.trace ++ deletePluginEvents s.pluginSisConeSph,
                      pluginSisConeSph := none }
    let s := { s with trace := s.trace ++ [Event.deleteJetDefinition jetDefinition] }
    (s, false)

/-- The loop `for (iIter=0; iIter<ITERATIVE_INCLUSIVE_MAX_ITERATIONS; iIter++)`, from
the state `s`.  The first argument bounds the number of passes; the loop condition is
tested on `iIter` as in the source. -/
def iterationLoop (engine : Engine K) (u : FastJetUtil K) (pjList : List (PseudoJet K))
    (useSisCone useSisConeSph : Bool) (sisConeOverlapThreshold : K) :
    Nat → IterState K → IterState K
  | 0, s => s
  | fuel + 1, s =>
    if s.iIter < ITERATIVE_INCLUSIVE_MAX_ITERATIONS then
      match iterationBody engine u pjList useSisCone useSisConeSph sisConeOverlapThreshold s with
      | (s1, true) => s1
      | (s1, false) =>
        iterationLoop engine u pjList useSisCone useSisConeSph sisConeOverlapThreshold fuel
          { s1 with iIter := s1.iIter + 1 }
    else s

/-- The locals of `doIterativeInclusiveClustering` before the loop. -/
def searchStart (M_PI_4 : K) : IterState K :=
  let R := M_PI_4
  let RDiff := R / 2
  { R := R, RDiff := RDiff, jets := [], jetsReturn := [], nJets := 0, iIter := 0,
    pluginSisCone := none, pluginSisConeSph := none, trace := [], debug := [] }

/-- The threshold `sisConeOverlapThreshold` computed before the loop. -/
def overlapThreshold (atof : String → K) (u : FastJetUtil K) : K :=
  if (u._jetAlgoName == "SISConePlugin") || (u._jetAlgoName == "SISConeSphericalPlugin") then
    atof (u._jetAlgoNameAndParams.getD 2 "")
  else 0

/-- The locals of `doIterativeInclusiveClustering` when the loop has been left. -/
def searchEnd (M_PI_4 : K) (atof : String → K) (engine : Engine K) (u : FastJetUtil K)
    (pjList : List (PseudoJet K)) : IterState K :=
  iterationLoop engine u pjList (u._jetAlgoName == "SISConePlugin")
    (u._jetAlgoName == "SISConeSphericalPlugin") (overlapThreshold atof u)
    ITERATIVE_INCLUSIVE_MAX_ITERATIONS (searchStart M_PI_4)

/-- The events of a whole call of `doIterativeInclusiveClustering`. -/
def searchTrace (M_PI_4 : K) (atof : String → K) (engine : Engine K) (u : FastJetUtil K)
    (pjList : List (PseudoJet K)) : List (Event K) :=
  let s := searchEnd M_PI_4 atof engine u pjList
  if s.iIter = ITERATIVE_INCLUSIVE_MAX_ITERATIONS then s.trace ++ [Event.warnMaximumIterations]
  else s.trace

/-- `FastJetUtil::doIterativeInclusiveClustering`: the returned jets, or the exception. -/
def doIterativeInclusiveClustering (M_PI_4 : K) (atof : String → K) (engine : Engine K)
    (u : FastJetUtil K) (pjList : List (PseudoJet K)) : Except Error (List (PseudoJet K)) :=
  let s := searchEnd M_PI_4 atof engine u pjList
  if s.iIter = ITERATIVE_INCLUSIVE_MAX_ITERATIONS then
    Except.error Error.SkippedFixedNrJetException
  else
    Except.ok s.jetsReturn

/-! ### The search in rounded arithmetic

The functions above compute `R - RDiff`, `R + RDiff` and `RDiff / 2` exactly.  In the source
these are operations on `double` values, each of which returns the exact result rounded to
a `double`.  The functions below are the same code with every such result passed through
a rounding function `rnd`; with `rnd` the identity they are the functions above. -/

/-- One pass through the body of the `for` loop, with `R -= RDiff` storing
`rnd (R - RDiff)`, `R += RDiff` storing `rnd (R + RDiff)` and `RDiff /= 2` storing
`rnd (RDiff / 2)`.  The boolean is `true` when the body is left by `break`. -/
def iterationBodyRounded (rnd : K → K) (engine : Engine K) (u : FastJetUtil K)
    (pjList : List (PseudoJet K)) (useSisCone useSisConeSph : Bool)
    (sisConeOverlapThreshold : K) (s : IterState K) : IterState K × Bool :=
  let (s, jetDefinition) :=
    newIterationDefinition u useSisCone useSisConeSph sisConeOverlapThreshold s
  let cs := engine pjList jetDefinition
  let s := { s with trace := s.trace ++ [Event.clusterSequence pjList jetDefinition] }
  let s := { s with jets := cs.inclusive_jets 0, trace := s.trace ++ [Event.inclusive_jets 0] }
  let s := { s with jetsReturn := [] }
  let s := { s with nJets := 0 }
  let s := { s with jetsReturn := pushAboveThreshold u._minE s.jets }
  let s := { s with nJets := s.jetsReturn.length }
  let s := { s with debug := s.debug ++ [DebugLine.mk s.iIter s.R s.jets.length s.nJets] }
  if s.nJets = u._requestedNumberOfJets then
    (s, true)
  else
    let s :=
      if s.nJets < u._requestedNumberOfJets then { s with R := rnd (s.R - s.RDiff) }
      else if s.nJets > u._requestedNumberOfJets then { s with R := rnd (s.R + s.RDiff) }
      else s
    let s := { s with RDiff := rnd (s.RDiff / 2) }
    let s := { s with trace := s.trace ++ deletePluginEvents s.pluginSisCone,
                      pluginSisCone := none }
    let s := { s with trace := s.trace ++ deletePluginEvents s.pluginSisConeSph,
                      pluginSisConeSph := none }
    let s := { s with trace := s.trace ++ [Event.deleteJetDefinition jetDefinition] }
    (s, false)

/-- The loop `for (iIter=0; iIter<ITERATIVE_INCLUSIVE_MAX_ITERATIONS; iIter++)` over
`iterationBodyRounded`. -/
def iterationLoopRounded (rnd : K → K) (engine : Engine K) (u : FastJetUtil K)
    (pjList : List (PseudoJet K)) (useSisCone useSisConeSph : Bool)
    (sisConeOverlapThreshold : K) : Nat → IterState K → IterState K
  | 0, s => s
  | fuel + 1, s =>
    if s.iIter < ITERATIVE_INCLUSIVE_MAX_ITERATIONS then
      match iterationBodyRounded rnd engine u pjList useSisCone useSisConeSph
          sisConeOverlapThreshold s with
      | (s1, true) => s1
      | (s1, false) =>
        iterationLoopRounded rnd engine u pjList useSisCone useSisConeSph
          sisConeOverlapThreshold fuel { s1 with iIter := s1.iIter + 1 }
    else s

/-- The locals before the loop: `double R = M_PI_4; double RDiff = R / 2;`. -/
def searchStartRounded (rnd : K → K) (M_PI_4 : K) : IterState K :=
  let R := M_PI_4
  let RDiff := rnd (R / 2)
  { R := R, RDiff := RDiff, jets := [], jetsReturn := [], nJets := 0, iIter := 0,
    pluginSisCone := none, pluginSisConeSph := none, trace := [], debug := [] }

/-- The locals of `doIterativeInclusiveClustering` when the loop has been left, in rounded
arithmetic. -/
def searchEndRounded (rnd : K → K) (M_PI_4 : K) (atof : String → K) (engine : Engine K)
    (u : FastJetUtil K) (pjList : List (PseudoJet K)) : IterState K :=
  iterationLoopRounded rnd engine u pjList (u._jetAlgoName == "SISConePlugin")
    (u._jetAlgoName == "SISConeSphericalPlugin") (overlapThreshold atof u)
    ITERATIVE_INCLUSIVE_MAX_ITERATIONS (searchStartRounded rnd M_PI_4)

/-- `FastJetUtil::doIterativeInclusiveClustering` in rounded arithmetic: the returned jets,
or the exception. -/
def doIterativeInclusiveClusteringRounded (rnd : K → K) (M_PI_4 : K) (atof : String → K)
    (engine : Engine K) (u : FastJetUtil K) (pjList : List (PseudoJet K)) :
    Except Error (List (PseudoJet K)) :=
  let s := searchEndRounded rnd M_PI_4 atof engine u pjList
  if s.iIter = ITERATIVE_INCLUSIVE_MAX_ITERATIONS then
    Except.error Error.SkippedFixedNrJetException
  else
    Except.ok s.jetsReturn

end Search

/-! ## The clustering-mode dispatcher -/

section Dispatch

variable {K : Type} [LinearOrderedField K]

/-- What a call of `clusterJets` leaves behind: the returned jets or the exception, the
object with `_cs` updated, and the events of the call. -/
structure Outcome (K : Type) where
  result : Except Error (List (PseudoJet K))
  util : FastJetUtil K
  trace : List (Event K)

/-- `FastJetUtil::clusterJets`.  The result is `none` when `_jetAlgo` is a null pointer
(the dereference `*_jetAlgo` has no defined behaviour). -/
def clusterJets (M_PI_4 : K) (atof : String → K) (engine : Engine K) (u : FastJetUtil K)
    (pjList : List (PseudoJet K)) (reconstructedPars : LCCollection) : Option (Outcome K) :=
  match u._jetAlgo with
  | none => none
  | some jetAlgo =>
    let cs := engine pjList jetAlgo
    let u := { u with _cs := some cs }
    let trace := [Event.clusterSequence pjList jetAlgo]
    if u._clusterMode = EClusterMode.FJ_inclusive then
      some { result := Except.ok (cs.inclusive_jets u._minPt), util := u,
             trace := trace ++ [Event.inclusive_jets u._minPt] }
    else if u._clusterMode = EClusterMode.FJ_exclusive_yCut then
      some { result := Except.ok (cs.exclusive_jets_ycut u._yCut), util := u,
             trace := trace ++ [Event.exclusive_jets_ycut u._yCut] }
    else if u._clusterMode = EClusterMode.FJ_exclusive_nJets then
      if reconstructedPars.getNumberOfElements < castInt u._requestedNumberOfJets then
        some { result := Except.error Error.SkippedFixedNrJetException, util := u,
               trace := trace ++ [Event.warnNotEnoughElements u._requestedNumberOfJets] }
      else
        some { result := Except.ok (cs.exclusive_jets (castInt u._requestedNumberOfJets)),
               util := u,
               trace := trace ++ [Event.exclusive_jets (castInt u._requestedNumberOfJets)] }
    else if u._clusterMode = EClusterMode.OWN_inclusiveIteration then
      if reconstructedPars.getNumberOfElements < castInt u._requestedNumberOfJets then
        some { result := Except.error Error.SkippedFixedNrJetException, util := u,
               trace := trace ++ [Event.warnNotEnoughElements u._requestedNumberOfJets] }
      else
        some { result := doIterativeInclusiveClustering M_PI_4 atof engine u pjList, util := u,
               trace := trace ++ searchTrace M_PI_4 atof engine u pjList }
    else
      some { result := Except.ok [], util := u, trace := trace }

end Dispatch

/-! ## The algorithm selector -/

section Selector

variable {K : Type}

/-- `FastJetUtil::isJetAlgo`.  The parameter `modeValue` gives the integer value of each
`EClusterMode` tag (the enumeration is declared in `EClusterMode.h`). -/
def isJetAlgo (modeValue : EClusterMode → Nat) (u : FastJetUtil K) (algo : String)
    (nrParams : Int) (supportedModes : Nat) : Except Error Bool :=
  if u._jetAlgoName ≠ algo then
    Except.ok false
  else if (u._jetAlgoNameAndParams.length : Int) - 1 ≠ nrParams then
    Except.error (Error.Exception
      "You have insufficient number of parameters for this algorithm! See log for more details.")
  else if supportedModes &&& modeValue u._clusterMode ≠ modeValue u._clusterMode then
    Except.error (Error.Exception "This algorithm is not capable of running in this mode")
  else
    Except.ok true

/-- The token `_jetAlgoNameAndParams[i]` converted by `atof`. -/
def algoParam (atof : String → K) (u : FastJetUtil K) (i : Nat) : K :=
  atof (u._jetAlgoNameAndParams.getD i "")

/-- The statement `if (isJetAlgo(algo, nrParams, supportedModes)) { body }`. -/
def ifJetAlgo (modeValue : EClusterMode → Nat) (algo : String) (nrParams : Int)
    (supportedModes : Nat) (body : FastJetUtil K → FastJetUtil K) (u : FastJetUtil K) :
    Except Error (FastJetUtil K) :=
  match isJetAlgo modeValue u algo nrParams supportedModes with
  | Except.error e => Except.error e
  | Except.ok true => Except.ok (body u)
  | Except.ok false => Except.ok u

/-- The final test of `initJetAlgo`: `if (!_jetAlgo) throw Exception(...)`. -/
def checkJetAlgo (u : FastJetUtil K) : Except Error (FastJetUtil K) :=
  if u._jetAlgo.isNone then
    Except.error (Error.Exception "Unknown FastJet algorithm.")
  else
    Except.ok u

/-- The body shared by the native algorithms with one parameter: set `_jetAlgoType`, then
build `JetDefinition(_jetAlgoType, atof(params[1]), _jetRecoScheme, _strategy)`. -/
def setAlgoWithR (atof : String → K) (algo : JetAlgorithm) (u : FastJetUtil K) :
    FastJetUtil K :=
  let u := { u with _jetAlgoType := algo }
  { u with _jetAlgo := some (JetDefinition.withR u._jetAlgoType (algoParam atof u 1)
                              u._jetRecoScheme u._strategy) }

/-- `FastJetUtil::initJetAlgo`: the sanity check, the eleven `if (isJetAlgo(...))`
statements in the order of the source, and the final test. -/
def initJetAlgo (modeValue : EClusterMode → Nat) (atof : String → K) (u : FastJetUtil K) :
    Except Error (FastJetUtil K) :=
  let FJ_inclusive := modeValue EClusterMode.FJ_inclusive
  let FJ_exclusive_nJets := modeValue EClusterMode.FJ_exclusive_nJets
  let FJ_exclusive_yCut := modeValue EClusterMode.FJ_exclusive_yCut
  let OWN_inclusiveIteration := modeValue EClusterMode.OWN_inclusiveIteration
  if u._jetAlgoNameAndParams.length < 1 then
    Except.error (Error.Exception "No Jet algorithm provided!")
  else
    let u := { u with _jetAlgoName := u._jetAlgoNameAndParams.getD 0 "" }
    let u := { u with _jetAlgo := none }
    ifJetAlgo modeValue "kt_algorithm" 1
        (FJ_inclusive ||| FJ_exclusive_nJets ||| FJ_exclusive_yCut ||| OWN_inclusiveIteration)
        (setAlgoWithR atof JetAlgorithm.kt_algorithm) u
    >>= ifJetAlgo modeValue "cambridge_algorithm" 1
        (FJ_inclusive ||| FJ_exclusive_nJets ||| FJ_exclusive_yCut ||| OWN_inclusiveIteration)
        (setAlgoWithR atof JetAlgorithm.cambridge_algorithm)
    >>= ifJetAlgo modeValue "antikt_algorithm" 1 (FJ_inclusive ||| OWN_inclusiveIteration)
        (setAlgoWithR atof JetAlgorithm.antikt_algorithm)
    >>= ifJetAlgo modeValue "genkt_algorithm" 2
        (FJ_inclusive ||| OWN_inclusiveIteration ||| FJ_exclusive_nJets ||| FJ_exclusive_yCut)
        (fun u =>
          let u := { u with _jetAlgoType := JetAlgorithm.genkt_algorithm }
          { u with _jetAlgo := some (JetDefinition.withRXtra u._jetAlgoType
              (algoParam atof u 1) (algoParam atof u 2) u._jetRecoScheme u._strategy) })
    >>= ifJetAlgo modeValue "cambridge_for_passive_algorithm" 1
        (FJ_inclusive ||| OWN_inclusiveIteration ||| FJ_exclusive_nJets ||| FJ_exclusive_yCut)
        (setAlgoWithR atof JetAlgorithm.cambridge_for_passive_algorithm)
    >>= ifJetAlgo modeValue "genkt_for_passive_algorithm" 1
        (FJ_inclusive ||| OWN_inclusiveIteration)
        (setAlgoWithR atof JetAlgorithm.genkt_for_passive_algorithm)
    >>= ifJetAlgo modeValue "ee_kt_algorithm" 0 (FJ_exclusive_nJets ||| FJ_exclusive_yCut)
        (fun u =>
          let u := { u with _jetAlgoType := JetAlgorithm.ee_kt_algorithm }
          { u with _jetAlgo := some (JetDefinition.noParam u._jetAlgoType
              u._jetRecoScheme u._strategy) })
    >>= ifJetAlgo modeValue "ee_genkt_algorithm" 1 (FJ_exclusive_nJets ||| FJ_exclusive_yCut)
        (setAlgoWithR atof JetAlgorithm.ee_genkt_algorithm)
    >>= ifJetAlgo modeValue "SISConePlugin" 2 (FJ_inclusive ||| OWN_inclusiveIteration)
        (fun u =>
          let pl := Plugin.SISConePlugin (algoParam atof u 1) (algoParam atof u 2)
          { u with _jetAlgo := some (JetDefinition.ofPlugin pl) })
    >>= ifJetAlgo modeValue "SISConeSphericalPlugin" 2 (FJ_inclusive ||| OWN_inclusiveIteration)
        (fun u =>
          let pl := Plugin.SISConeSphericalPlugin (algoParam atof u 1) (algoParam atof u 2)
          { u with _jetAlgo := some (JetDefinition.ofPlugin pl) })
    >>= ifJetAlgo modeValue "ValenciaPlugin" 3 (FJ_exclusive_nJets ||| FJ_exclusive_yCut)
        (fun u =>
          let pl := Plugin.ValenciaPlugin (algoParam atof u 1) (algoParam atof u 2)
            (algoParam atof u 3)
          { u with _jetAlgo := some (JetDefinition.ofPlugin pl) })
    >>= checkJetAlgo

end Selector

/-! ## Vocabulary of the specification -/

section Vocabulary

variable {K : Type} [LinearOrderedField K]

/-- The algorithm definition of one iteration of the search, as a function of the
radius: the SISCone plugins are rebuilt from the radius and the overlap threshold, every
other family through `JetDefinition(_jetAlgoType, R, _jetRecoScheme, _strategy)`. -/
def definitionAtRadius (atof : String → K) (u : FastJetUtil K) (R : K) : JetDefinition K :=
  if u._jetAlgoName = "SISConePlugin" then
    JetDefinition.ofPlugin (Plugin.SISConePlugin R (atof (u._jetAlgoNameAndParams.getD 2 "")))
  else if u._jetAlgoName = "SISConeSphericalPlugin" then
    JetDefinition.ofPlugin
      (Plugin.SISConeSphericalPlugin R (atof (u._jetAlgoNameAndParams.getD 2 "")))
  else
    JetDefinition.withR u._jetAlgoType R u._jetRecoScheme u._strategy

/-- The engine's `inclusive_jets(0)` result at radius `R`. -/
def inclusiveJetsAt (atof : String → K) (engine : Engine K) (u : FastJetUtil K)
    (pjList : List (PseudoJet K)) (R : K) : List (PseudoJet K) :=
  (engine pjList (definitionAtRadius atof u R)).inclusive_jets 0

/-- The survivors at radius `R`: the sub-list of the engine's `inclusive_jets(0)` result
whose energy is greater than `_minE`, in the engine's order. -/
def survivorsAt (atof : String → K) (engine : Engine K) (u : FastJetUtil K)
    (pjList : List (PseudoJet K)) (R : K) : List (PseudoJet K) :=
  (inclusiveJetsAt atof engine u pjList R).filter (fun j => decide (u._minE < j.E))

/-- The loop body of the search with the values that `doIterativeInclusiveClustering`
computes before the loop. -/
def searchBody (atof : String → K) (engine : Engine K) (u : FastJetUtil K)
    (pjList : List (PseudoJet K)) (s : IterState K) : IterState K × Bool :=
  iterationBody engine u pjList (u._jetAlgoName == "SISConePlugin")
    (u._jetAlgoName == "SISConeSphericalPlugin") (overlapThreshold atof u) s

/-- The loop of the search with the values that `doIterativeInclusiveClustering` computes
before the loop. -/
def searchLoop (atof : String → K) (engine : Engine K) (u : FastJetUtil K)
    (pjList : List (PseudoJet K)) (fuel : Nat) (s : IterState K) : IterState K :=
  iterationLoop engine u pjList (u._jetAlgoName == "SISConePlugin")
    (u._jetAlgoName == "SISConeSphericalPlugin") (overlapThreshold atof u) fuel s

/-- The loop body of the search in rounded arithmetic, with the values that
`doIterativeInclusiveClustering` computes before the loop. -/
def searchBodyRounded (rnd : K → K) (atof : String → K) (engine : Engine K)
    (u : FastJetUtil K) (pjList : List (PseudoJet K)) (s : IterState K) :
    IterState K × Bool :=
  iterationBodyRounded rnd engine u pjList (u._jetAlgoName == "SISConePlugin")
    (u._jetAlgoName == "SISConeSphericalPlugin") (overlapThreshold atof u) s

/-- The loop of the search in rounded arithmetic, with the values that
`doIterativeInclusiveClustering` computes before the loop. -/
def searchLoopRounded (rnd : K → K) (atof : String → K) (engine : Engine K)
    (u : FastJetUtil K) (pjList : List (PseudoJet K)) (fuel : Nat) (s : IterState K) :
    IterState K :=
  iterationLoopRounded rnd engine u pjList (u._jetAlgoName == "SISConePlugin")
    (u._jetAlgoName == "SISConeSphericalPlugin") (overlapThreshold atof u) fuel s

/-- The engine run of an iteration at radius `R`. -/
def engineRunAt (atof : String → K) (u : FastJetUtil K) (pjList : List (PseudoJet K))
    (R : K) : Event K :=
  Event.clusterSequence pjList (definitionAtRadius atof u R)

/-- The direction `s` of a step: `-1` when there are too few jets (`k < n`), `+1` when
there are too many (`k > n`). -/
def stepSign (n k : Nat) : K :=
  if k < n then -1 else if n < k then 1 else 0

/-- The DEBUG line of iteration `j` (counted from 1) at radius `R`. -/
def debugLineAt (atof : String → K) (engine : Engine K) (u : FastJetUtil K)
    (pjList : List (PseudoJet K)) (j : Nat) (R : K) : DebugLine K :=
  { iIter := j - 1, R := R, nAll := (inclusiveJetsAt atof engine u pjList R).length,
    nJets := (survivorsAt atof engine u pjList R).length }

/-- Is the event the WARNING line of the particle-count check? -/
def Event.isNotEnoughElements : Event K → Bool
  | .warnNotEnoughElements _ => true
  | _ => false

/-- The call ended in the `SkippedFixedNrJetException` of the particle-count check: the
exception was thrown and the WARNING line of that check was written. -/
def Outcome.notEnoughElements (o : Outcome K) : Prop :=
  o.result = Except.error Error.SkippedFixedNrJetException ∧
    o.trace.any Event.isNotEnoughElements = true

end Vocabulary

/-- The exception of `isJetAlgo` for a wrong number of parameters. -/
def wrongParameterCount : Error :=
  Error.Exception
    "You have insufficient number of parameters for this algorithm! See log for more details."

/-- The exception of `isJetAlgo` for a clustering mode the algorithm does not support. -/
def modeUnsupported : Error :=
  Error.Exception "This algorithm is not capable of running in this mode"

/-- The exception of `initJetAlgo` for an algorithm name it does not know. -/
def unknownAlgorithm : Error :=
  Error.Exception "Unknown FastJet algorithm."

/-- The exception of `initJetAlgo` for an empty parameter list. -/
def noAlgorithmProvided : Error :=
  Error.Exception "No Jet algorithm provided!"

/-- The mode tags are distinct single-bit flags: each tag other than `NONE` has the value
`2 ^ b` for a bit position `b` of its own. -/
def SingleBitFlags (modeValue : EClusterMode → Nat) : Prop :=
  ∃ bit : EClusterMode → Nat,
    (∀ m, m ≠ EClusterMode.NONE → modeValue m = 2 ^ bit m) ∧
    (∀ m m', m ≠ EClusterMode.NONE → m' ≠ EClusterMode.NONE → bit m = bit m' → m = m')

/-- The eleven families of the support table. -/
inductive Family where
  | kt_algorithm
  | cambridge_algorithm
  | antikt_algorithm
  | genkt_algorithm
  | cambridge_for_passive_algorithm
  | genkt_for_passive_algorithm
  | ee_kt_algorithm
  | ee_genkt_algorithm
  | SISConePlugin
  | SISConeSphericalPlugin
  | ValenciaPlugin
  deriving DecidableEq, Repr

/-- The family name as it is written in the configuration. -/
def Family.name : Family → String
  | .kt_algorithm => "kt_algorithm"
  | .cambridge_algorithm => "cambridge_algorithm"
  | .antikt_algorithm => "antikt_algorithm"
  | .genkt_algorithm => "genkt_algorithm"
  | .cambridge_for_passive_algorithm => "cambridge_for_passive_algorithm"
  | .genkt_for_passive_algorithm => "genkt_for_passive_algorithm"
  | .ee_kt_algorithm => "ee_kt_algorithm"
  | .ee_genkt_algorithm => "ee_genkt_algorithm"
  | .SISConePlugin => "SISConePlugin"
  | .SISConeSphericalPlugin => "SISConeSphericalPlugin"
  | .ValenciaPlugin => "ValenciaPlugin"

/-- The support table, first column: the required number of parameters. -/
def Family.nrParams : Family → Nat
  | .kt_algorithm => 1
  | .cambridge_algorithm => 1
  | .antikt_algorithm => 1
  | .genkt_algorithm => 2
  | .cambridge_for_passive_algorithm => 1
  | .genkt_for_passive_algorithm => 1
  | .ee_kt_algorithm => 0
  | .ee_genkt_algorithm => 1
  | .SISConePlugin => 2
  | .SISConeSphericalPlugin => 2
  | .ValenciaPlugin => 3

/-- The support table, second column: the clustering modes of a family, in the order in
which `initJetAlgo` writes them. -/
def Family.supportedModes : Family → List EClusterMode
  | .kt_algorithm | .cambridge_algorithm =>
    [EClusterMode.FJ_inclusive, EClusterMode.FJ_exclusive_nJets,
     EClusterMode.FJ_exclusive_yCut, EClusterMode.OWN_inclusiveIteration]
  | .genkt_algorithm | .cambridge_for_passive_algorithm =>
    [EClusterMode.FJ_inclusive, EClusterMode.OWN_inclusiveIteration,
     EClusterMode.FJ_exclusive_nJets, EClusterMode.FJ_exclusive_yCut]
  | .antikt_algorithm | .genkt_for_passive_algorithm | .SISConePlugin | .SISConeSphericalPlugin =>
    [EClusterMode.FJ_inclusive, EClusterMode.OWN_inclusiveIteration]
  | .ee_kt_algorithm | .ee_genkt_algorithm | .ValenciaPlugin =>
    [EClusterMode.FJ_exclusive_nJets, EClusterMode.FJ_exclusive_yCut]

/-- The bitset of a family: the bitwise OR of the values of its modes. -/
def Family.modeMask (modeValue : EClusterMode → Nat) (f : Family) : Nat :=
  (f.supportedModes.map modeValue).foldl (fun a b => a ||| b) 0

/-- The family of a native algorithm. -/
def JetAlgorithm.family : JetAlgorithm → Family
  | .kt_algorithm => Family.kt_algorithm
  | .cambridge_algorithm => Family.cambridge_algorithm
  | .antikt_algorithm => Family.antikt_algorithm
  | .genkt_algorithm => Family.genkt_algorithm
  | .cambridge_for_passive_algorithm => Family.cambridge_for_passive_algorithm
  | .genkt_for_passive_algorithm => Family.genkt_for_passive_algorithm
  | .ee_kt_algorithm => Family.ee_kt_algorithm
  | .ee_genkt_algorithm => Family.ee_genkt_algorithm

/-- The family of a jet definition. -/
def JetDefinition.family {K : Type} : JetDefinition K → Family
  | .withR algo _ _ _ => algo.family
  | .withRXtra algo _ _ _ _ => algo.family
  | .noParam algo _ _ => algo.family
  | .ofPlugin (.SISConePlugin _ _) => Family.SISConePlugin
  | .ofPlugin (.SISConeSphericalPlugin _ _) => Family.SISConeSphericalPlugin
  | .ofPlugin (.ValenciaPlugin _ _ _) => Family.ValenciaPlugin

/-- The numeric parameters of a jet definition, in the order of the configuration. -/
def JetDefinition.params {K : Type} : JetDefinition K → List K
  | .withR _ R _ _ => [R]
  | .withRXtra _ R xtra _ _ => [R, xtra]
  | .noParam _ _ _ => []
  | .ofPlugin (.SISConePlugin R t) => [R, t]
  | .ofPlugin (.SISConeSphericalPlugin R t) => [R, t]
  | .ofPlugin (.ValenciaPlugin R b g) => [R, b, g]

/-- The (family, mode) pairs that are absent from the support table. -/
def absentPairs : List (Family × EClusterMode) :=
  [(Family.antikt_algorithm, EClusterMode.FJ_exclusive_nJets),
   (Family.antikt_algorithm, EClusterMode.FJ_exclusive_yCut),
   (Family.genkt_for_passive_algorithm, EClusterMode.FJ_exclusive_nJets),
   (Family.genkt_for_passive_algorithm, EClusterMode.FJ_exclusive_yCut),
   (Family.SISConePlugin, EClusterMode.FJ_exclusive_nJets),
   (Family.SISConePlugin, EClusterMode.FJ_exclusive_yCut),
   (Family.SISConeSphericalPlugin, EClusterMode.FJ_exclusive_nJets),
   (Family.SISConeSphericalPlugin, EClusterMode.FJ_exclusive_yCut),
   (Family.ee_kt_algorithm, EClusterMode.FJ_inclusive),
   (Family.ee_kt_algorithm, EClusterMode.OWN_inclusiveIteration),
   (Family.ee_genkt_algorithm, EClusterMode.FJ_inclusive),
   (Family.ee_genkt_algorithm, EClusterMode.OWN_inclusiveIteration),
   (Family.ValenciaPlugin, EClusterMode.FJ_inclusive),
   (Family.ValenciaPlugin, EClusterMode.OWN_inclusiveIteration)]

/-! ## Example data -/

/-- A flag assignment for the examples: one bit per mode tag. -/
def flagValue : EClusterMode → Nat
  | .NONE => 0
  | .FJ_exclusive_yCut => 1
  | .FJ_exclusive_nJets => 2
  | .FJ_inclusive => 4
  | .OWN_inclusiveIteration => 8

/-- The radius of a jet definition, for the example engine. -/
def demoRadius : JetDefinition ℚ → ℚ
  | .withR _ R _ _ => R
  | .withRXtra _ R _ _ _ => R
  | .noParam _ _ _ => 0
  | .ofPlugin (.SISConePlugin R _) => R
  | .ofPlugin (.SISConeSphericalPlugin R _) => R
  | .ofPlugin (.ValenciaPlugin R _ _) => R

/-- A four-vector along the x axis. -/
def demoJet (pt e : ℚ) (i : Int) : PseudoJet ℚ :=
  { px := pt, py := 0, pz := 0, E := e, user_index := i }

/-- An example engine: one jet for a radius of at least 11/20, three for a radius of at
least 9/20, four below; the inclusive query keeps the jets with `px` at least `ptmin`. -/
def demoEngine : Engine ℚ := fun pjList jd =>
  { inclusive_jets := fun ptmin =>
      (if 11 / 20 ≤ demoRadius jd then [demoJet 40 45 0]
       else if 9 / 20 ≤ demoRadius jd then [demoJet 25 30 0, demoJet 12 15 1, demoJet 4 5 2]
       else [demoJet 25 30 0, demoJet 8 9 1, demoJet 5 6 2, demoJet 4 5 3]).filter
        (fun j => decide (ptmin ≤ j.px)),
    exclusive_jets_ycut := fun _ => pjList,
    exclusive_jets := fun n => pjList.take n.toNat }

/-- The value of the `double` constant `M_PI_4`, as a fraction. -/
def demo_M_PI_4 : ℚ := 7074237752028440 / 9007199254740992

/-- The conversions of the tokens used in the examples. -/
def demoAtof (s : String) : ℚ :=
  if s = "0.7" then 7 / 10 else if s = "10.0" then 10 else 0

/-- An event with four particles. -/
def demoEvent : List (PseudoJet ℚ) :=
  [demoJet 25 30 0, demoJet 8 9 1, demoJet 5 6 2, demoJet 4 5 3]

/-- An event with two particles. -/
def demoEventTwo : List (PseudoJet ℚ) :=
  [demoJet 25 30 0, demoJet 8 9 1]

/-- An object before `init`, with the configuration strings given. -/
def demoConfigured (algo mode : List String) : FastJetUtil ℚ :=
  { _cs := none, _jetAlgoNameAndParams := algo, _jetAlgoName := "", _jetAlgo := none,
    _jetAlgoType := JetAlgorithm.kt_algorithm,
    _clusterModeNameAndParam := mode, _clusterModeName := "",
    _clusterMode := EClusterMode.NONE,
    _jetRecoSchemeName := "E_scheme", _jetRecoScheme := RecombinationScheme.E_scheme,
    _strategyName := "", _strategy := Strategy.Best,
    _requestedNumberOfJets := 0, _yCut := 0, _minPt := 0, _minE := 0 }

/-- An object on which `initClusterMode` has set the mode, before `initJetAlgo`. -/
def demoBeforeInitJetAlgo (algo : List String) (mode : EClusterMode) : FastJetUtil ℚ :=
  { demoConfigured algo [] with _clusterMode := mode }

/-- Scenario A: `kt_algorithm 0.7` in mode `Inclusive 10.0`, after `init`. -/
def scenarioA : FastJetUtil ℚ :=
  { demoConfigured ["kt_algorithm", "0.7"] ["Inclusive", "10.0"] with
    _jetAlgoName := "kt_algorithm",
    _jetAlgo := some (JetDefinition.withR JetAlgorithm.kt_algorithm (7 / 10)
      RecombinationScheme.E_scheme Strategy.Best),
    _clusterModeName := "Inclusive", _clusterMode := EClusterMode.FJ_inclusive,
    _strategyName := "Best", _minPt := 10 }

/-- Scenario B: `ee_kt_algorithm` in mode `ExclusiveNJets 3`, after `init`. -/
def scenarioB : FastJetUtil ℚ :=
  { demoConfigured ["ee_kt_algorithm"] ["ExclusiveNJets", "3"] with
    _jetAlgoName := "ee_kt_algorithm",
    _jetAlgo := some (JetDefinition.noParam JetAlgorithm.ee_kt_algorithm
      RecombinationScheme.E_scheme Strategy.Best),
    _jetAlgoType := JetAlgorithm.ee_kt_algorithm,
    _clusterModeName := "ExclusiveNJets", _clusterMode := EClusterMode.FJ_exclusive_nJets,
    _strategyName := "Best", _requestedNumberOfJets := 3 }

/-- Scenario C: `kt_algorithm 0.7` in mode `InclusiveIterativeNJets 2 5.0`, after `init`. -/
def scenarioC : FastJetUtil ℚ :=
  { demoConfigured ["kt_algorithm", "0.7"] ["InclusiveIterativeNJets", "2", "5.0"] with
    _jetAlgoName := "kt_algorithm",
    _jetAlgo := some (JetDefinition.withR JetAlgorithm.kt_algorithm (7 / 10)
      RecombinationScheme.E_scheme Strategy.Best),
    _clusterModeName := "InclusiveIterativeNJets",
    _clusterMode := EClusterMode.OWN_inclusiveIteration,
    _strategyName := "Best", _requestedNumberOfJets := 2, _minE := 5 }

/-- The radii of scenario C, by iteration (counted from 1). -/
def scenarioCRadius (j : Nat) : ℚ :=
  if j = 1 then demo_M_PI_4
  else if j = 2 then demo_M_PI_4 / 2
  else if j = 3 then 3 * demo_M_PI_4 / 4
  else 5 * demo_M_PI_4 / 8

/-! ## Initialisation -/

/-- The exception of `initRecoScheme` for a name it does not know. -/
def unknownRecombinationScheme : Error :=
  Error.Exception "Unknown FastJet recombination scheme! See log for more details."

/-- The exception of `initClusterMode` for an empty mode list. -/
def clusterModeNotSpecified : Error :=
  Error.Exception "Cluster mode not specified"

/-- The exception of `initClusterMode` for a mode name it does not know. -/
def unknownClusterMode : Error :=
  Error.Exception "Unknown cluster mode."

/-- The exception of `initClusterMode` for a wrong number of mode parameters; `usage` is
the expected form of the mode list, which ends the message. -/
def wrongModeParameters (usage : String) : Error :=
  Error.Exception
    ("Wrong Parameter(s) for Clustering Mode. Expected:\n <parameter name=\"clusteringMode\" type=\"StringVec\"> "
      ++ usage ++ " </parameter>")

/-- The conversion of an `int` to `unsigned`: the value modulo `2^32`. -/
def toUnsigned (i : Int) : Nat :=
  (i % 2 ^ 32).toNat

section Init

variable {K : Type} [LinearOrderedField K]

/-- `FastJetUtil::initStrategy`. -/
def initStrategy (u : FastJetUtil K) : FastJetUtil K :=
  let u := { u with _strategy := Strategy.Best }
  { u with _strategyName := "Best" }

/-- `FastJetUtil::initRecoScheme`. -/
def initRecoScheme (u : FastJetUtil K) : Except Error (FastJetUtil K) :=
  if u._jetRecoSchemeName = "E_scheme" then
    Except.ok { u with _jetRecoScheme := RecombinationScheme.E_scheme }
  else if u._jetRecoSchemeName = "pt_scheme" then
    Except.ok { u with _jetRecoScheme := RecombinationScheme.pt_scheme }
  else if u._jetRecoSchemeName = "pt2_scheme" then
    Except.ok { u with _jetRecoScheme := RecombinationScheme.pt2_scheme }
  else if u._jetRecoSchemeName = "Et_scheme" then
    Except.ok { u with _jetRecoScheme := RecombinationScheme.Et_scheme }
  else if u._jetRecoSchemeName = "Et2_scheme" then
    Except.ok { u with _jetRecoScheme := RecombinationScheme.Et2_scheme }
  else if u._jetRecoSchemeName = "BIpt_scheme" then
    Except.ok { u with _jetRecoScheme := RecombinationScheme.BIpt_scheme }
  else if u._jetRecoSchemeName = "BIpt2_scheme" then
    Except.ok { u with _jetRecoScheme := RecombinationScheme.BIpt2_scheme }
  else
    Except.error unknownRecombinationScheme

/-- `FastJetUtil::initClusterMode`.  The C library functions `atof` and `atoi` are
parameters; the `int` returned by `atoi` is converted to `unsigned` for
`_requestedNumberOfJets` and to `double` for `_minE`. -/
def initClusterMode (atof : String → K) (atoi : String → Int) (u : FastJetUtil K) :
    Except Error (FastJetUtil K) :=
  if u._clusterModeNameAndParam.length = 0 then
    Except.error clusterModeNotSpecified
  else
    let u := { u with _clusterModeName := u._clusterModeNameAndParam.getD 0 "" }
    let u := { u with _clusterMode := EClusterMode.NONE }
    if u._clusterModeName = "Inclusive" then
      if u._clusterModeNameAndParam.length ≠ 2 then
        Except.error (wrongModeParameters "Inclusive <minPt>")
      else
        let u := { u with _minPt := atof (u._clusterModeNameAndParam.getD 1 "") }
        Except.ok { u with _clusterMode := EClusterMode.FJ_inclusive }
    else if u._clusterModeName = "InclusiveIterativeNJets" then
      if u._clusterModeNameAndParam.length ≠ 3 then
        Except.error (wrongModeParameters "InclusiveIterativeNJets <NJets> <minE>")
      else
        let u := { u with _requestedNumberOfJets :=
                            toUnsigned (atoi (u._clusterModeNameAndParam.getD 1 "")) }
        let u := { u with _minE := ((atoi (u._clusterModeNameAndParam.getD 2 "") : Int) : K) }
        Except.ok { u with _clusterMode := EClusterMode.OWN_inclusiveIteration }
    else if u._clusterModeName = "ExclusiveNJets" then
      if u._clusterModeNameAndParam.length ≠ 2 then
        Except.error (wrongModeParameters "ExclusiveNJets <NJets>")
      else
        let u := { u with _requestedNumberOfJets :=
                            toUnsigned (atoi (u._clusterModeNameAndParam.getD 1 "")) }
        Except.ok { u with _clusterMode := EClusterMode.FJ_exclusive_nJets }
    else if u._clusterModeName = "ExclusiveYCut" then
      if u._clusterModeNameAndParam.length ≠ 2 then
        Except.error (wrongModeParameters "ExclusiveYCut <yCut>")
      else
        let u := { u with _yCut := atof (u._clusterModeNameAndParam.getD 1 "") }
        Except.ok { u with _clusterMode := EClusterMode.FJ_exclusive_yCut }
    else
      Except.error unknownClusterMode

/-- `FastJetUtil::init`: `initStrategy`, `initRecoScheme`, `initClusterMode`,
`initJetAlgo`, in this order. -/
def init (modeValue : EClusterMode → Nat) (atof : String → K) (atoi : String → Int)
    (u : FastJetUtil K) : Except Error (FastJetUtil K) :=
  let u := initStrategy u
  initRecoScheme u >>= initClusterMode atof atoi >>= initJetAlgo modeValue atof

end Init

/-! ## Vocabulary of the specification, continued -/

/-- The name of a recombination scheme in the configuration. -/
def RecombinationScheme.name : RecombinationScheme → String
  | .E_scheme => "E_scheme"
  | .pt_scheme => "pt_scheme"
  | .pt2_scheme => "pt2_scheme"
  | .Et_scheme => "Et_scheme"
  | .Et2_scheme => "Et2_scheme"
  | .BIpt_scheme => "BIpt_scheme"
  | .BIpt2_scheme => "BIpt2_scheme"

/-- The mode lists with a known mode name and the number of parameters of that mode. -/
def AcceptedModeList (l : List String) : Prop :=
  (∃ p, l = ["Inclusive", p]) ∨ (∃ p q, l = ["InclusiveIterativeNJets", p, q]) ∨
    (∃ p, l = ["ExclusiveNJets", p]) ∨ (∃ p, l = ["ExclusiveYCut", p])

/-- The four clustering modes other than `NONE`. -/
def activeModes : List EClusterMode :=
  [EClusterMode.FJ_inclusive, EClusterMode.FJ_exclusive_yCut, EClusterMode.FJ_exclusive_nJets,
   EClusterMode.OWN_inclusiveIteration]

/-- The number written by a list of decimal digits. -/
def digitsValue (cs : List Char) : Nat :=
  cs.foldl (fun a c => 10 * a + (c.toNat - 48)) 0

/-- A decimal numeral `d...d` or `d...d.d...d` read as the number written by all its
digits together with the number of digits after the point; `none` for any other string. -/
def decimalParts (s : String) : Option (Nat × Nat) :=
  let ip := s.toList.takeWhile Char.isDigit
  match s.toList.dropWhile Char.isDigit with
  | [] => if ip = [] then none else some (digitsValue ip, 0)
  | '.' :: fp =>
    if ip ≠ [] ∧ fp ≠ [] ∧ fp.all Char.isDigit = true then
      some (digitsValue (ip ++ fp), fp.length)
    else none
  | _ => none

/-- The numeric value of a decimal numeral. -/
def decimalValue (s : String) : Option ℚ :=
  (decimalParts s).map (fun p => (p.1 : ℚ) / 10 ^ p.2)

/-- A jet definition with its radius parameter replaced by `R`, everything else kept. -/
def JetDefinition.withRadius {K : Type} (R : K) : JetDefinition K → JetDefinition K
  | .withR algo _ scheme strategy => .withR algo R scheme strategy
  | .withRXtra algo _ xtra scheme strategy => .withRXtra algo R xtra scheme strategy
  | .noParam algo scheme strategy => .noParam algo scheme strategy
  | .ofPlugin (.SISConePlugin _ t) => .ofPlugin (.SISConePlugin R t)
  | .ofPlugin (.SISConeSphericalPlugin _ t) => .ofPlugin (.SISConeSphericalPlugin R t)
  | .ofPlugin (.ValenciaPlugin _ b g) => .ofPlugin (.ValenciaPlugin R b g)

/-- The objects allocated with `new` by the iterative search. -/
inductive HeapObject (K : Type) where
  | plugin (pl : Plugin K)
  | jetDefinition (jd : JetDefinition K)
  deriving DecidableEq, Repr

/-- The effect of one event on the list of live objects: `new` adds the object, `delete`
removes it. -/
def heapStep {K : Type} [DecidableEq K] (live : List (HeapObject K)) :
    Event K → List (HeapObject K)
  | .newPlugin pl => live ++ [HeapObject.plugin pl]
  | .newJetDefinition jd => live ++ [HeapObject.jetDefinition jd]
  | .deletePlugin pl => live.erase (HeapObject.plugin pl)
  | .deleteJetDefinition jd => live.erase (HeapObject.jetDefinition jd)
  | _ => live

/-- The objects still live after a trace, none being live before it. -/
def liveObjects {K : Type} [DecidableEq K] (trace : List (Event K)) : List (HeapObject K) :=
  trace.foldl heapStep []

section LoopHeads

variable {K : Type} [LinearOrderedField K]

/-- The locals each time the loop condition is tested: `loopHead j` is the state after `j`
passes through the body, none of which left by `break`; it is `none` when the loop has
been left before.  Iteration `j + 1` starts from `loopHead j` when its `iIter` is below the
bound. -/
def loopHead (M_PI_4 : K) (atof : String → K) (engine : Engine K) (u : FastJetUtil K)
    (pjList : List (PseudoJet K)) : Nat → Option (IterState K)
  | 0 => some (searchStart M_PI_4)
  | j + 1 =>
    match loopHead M_PI_4 atof engine u pjList j with
    | none => none
    | some s =>
      if s.iIter < ITERATIVE_INCLUSIVE_MAX_ITERATIONS then
        if (searchBody atof engine u pjList s).2 = true then none
        else some { (searchBody atof engine u pjList s).1 with
                    iIter := (searchBody atof engine u pjList s).1.iIter + 1 }
      else none

end LoopHeads

/-! ## Example data, continued -/

/-- The digits at the head of a list of characters, read as a number starting from `acc`. -/
def atoiDigits : List Char → Nat → Nat
  | [], acc => acc
  | c :: cs, acc => if c.isDigit then atoiDigits cs (10 * acc + (c.toNat - 48)) else acc

/-- The C library function `atoi` on values that fit an `int`: white space, an optional
sign, then the longest run of decimal digits; whatever follows is ignored. -/
def atoiModel (s : String) : Int :=
  match s.toList.dropWhile Char.isWhitespace with
  | '-' :: rest => -((atoiDigits rest 0 : Nat) : Int)
  | '+' :: rest => ((atoiDigits rest 0 : Nat) : Int)
  | cs => ((atoiDigits cs 0 : Nat) : Int)

/-- The configuration `kt_algorithm 0.7` with mode `InclusiveIterativeNJets 2 2.5`, before
`init`. -/
def demoFractionalMinE : FastJetUtil ℚ :=
  demoConfigured ["kt_algorithm", "0.7"] ["InclusiveIterativeNJets", "2", "2.5"]

/-- The configuration `genkt_algorithm 0.7 10.0` with mode `InclusiveIterativeNJets 2 5.0`,
before `init`. -/
def demoGenkt : FastJetUtil ℚ :=
  demoConfigured ["genkt_algorithm", "0.7", "10.0"] ["InclusiveIterativeNJets", "2", "5.0"]

/-- Scenario C with `kt_algorithm 1.2` in place of `kt_algorithm 0.7`. -/
def scenarioCOtherRadius : FastJetUtil ℚ :=
  { scenarioC with
    _jetAlgoNameAndParams := ["kt_algorithm", "1.2"],
    _jetAlgo := some (JetDefinition.withR JetAlgorithm.kt_algorithm (6 / 5)
      RecombinationScheme.E_scheme Strategy.Best) }

/-- The configuration `kt_algorithm 0.7` with mode `InclusiveIterativeNJets -1 5.0`, before
`init`. -/
def demoNegativeCount : FastJetUtil ℚ :=
  demoConfigured ["kt_algorithm", "0.7"] ["InclusiveIterativeNJets", "-1", "5.0"]

/-! ## Rounding to `double` -/

/-- Rounding of a rational to the nearest integer, ties to the even one. -/
def roundHalfEven (q : ℚ) : Int :=
  if q - ⌊q⌋ < 1 / 2 then ⌊q⌋
  else if 1 / 2 < q - ⌊q⌋ then ⌊q⌋ + 1
  else if ⌊q⌋ % 2 = 0 then ⌊q⌋
  else ⌊q⌋ + 1

/-- The exponent of the spacing of the `double` values around `x`: for
`2^e ≤ |x| < 2^(e+1)` the neighbouring values are `2^(e-52)` apart (53 significant bits),
and below `2^(-1022)` the spacing is that of the subnormal values. -/
def doubleSpacingExponent (x : ℚ) : Int :=
  max (Int.log 2 |x|) (-1022) - 52

/-- The `double` nearest to `x` (IEEE 754 binary64, round to nearest, ties to even), for `x`
below the overflow threshold. -/
def roundDouble (x : ℚ) : ℚ :=
  (roundHalfEven (x / 2 ^ doubleSpacingExponent x) : ℚ) * 2 ^ doubleSpacingExponent x

/-- An example engine: two jets for a radius of at least 29/20, three below; the inclusive
query keeps the jets with `px` at least `ptmin`. -/
def demoEngineUp : Engine ℚ := fun pjList jd =>
  { inclusive_jets := fun ptmin =>
      (if 29 / 20 ≤ demoRadius jd then [demoJet 25 30 0, demoJet 12 15 1]
       else [demoJet 25 30 0, demoJet 12 15 1, demoJet 6 7 2]).filter
        (fun j => decide (ptmin ≤ j.px)),
    exclusive_jets_ycut := fun _ => pjList,
    exclusive_jets := fun n => pjList.take n.toNat }

/-- The radii of scenario C on the engine `demoEngineUp` in `double` arithmetic, by
iteration (counted from 1): the fourth is `15 * M_PI_4 / 8` rounded. -/
def scenarioUpRadius (j : Nat) : ℚ :=
  if j = 1 then demo_M_PI_4
  else if j = 2 then 3 * demo_M_PI_4 / 2
  else if j = 3 then 7 * demo_M_PI_4 / 4
  else 3316048946263331 / 2 ^ 51

/-- The steps of the search in `double` arithmetic, by iteration (counted from 1). -/
def scenarioUpStep (j : Nat) : ℚ :=
  demo_M_PI_4 / 2 ^ j

/-- The survivor counts of scenario C on the engine `demoEngineUp`, by iteration (counted
from 1). -/
def scenarioUpCount (j : Nat) : Nat :=
  if j = 4 then 2 else 3

/-! ## Lemmas on traces -/

section TraceLemmas

variable {K : Type}

theorem engineRunEvents_append (a b : List (Event K)) :
    engineRunEvents (a ++ b) = engineRunEvents a ++ engineRunEvents b := by
  simp [engineRunEvents]

theorem engineRunEvents_cons (e : Event K) (l : List (Event K)) :
    engineRunEvents (e :: l) =
      if e.isEngineRun = true then e :: engineRunEvents l else engineRunEvents l := by
  simp [engineRunEvents, List.filter_cons]

theorem engineRunEvents_nil : engineRunEvents ([] : List (Event K)) = [] := rfl

theorem engineRunEvents_deletePlugin (p : Option (Plugin K)) :
    engineRunEvents (deletePluginEvents p) = [] := by
  cases p <;> simp [deletePluginEvents, engineRunEvents, Event.isEngineRun]

theorem newIterationDefinition_fst (u : FastJetUtil K) (a b : Bool) (t : K) (s : IterState K) :
    (newIterationDefinition u a b t s).1.R = s.R ∧
    (newIterationDefinition u a b t s).1.RDiff = s.RDiff ∧
    (newIterationDefinition u a b t s).1.iIter = s.iIter ∧
    (newIterationDefinition u a b t s).1.debug = s.debug ∧
    engineRunEvents (newIterationDefinition u a b t s).1.trace = engineRunEvents s.trace := by
  unfold newIterationDefinition
  cases a <;> cases b <;>
    simp [engineRunEvents_append, engineRunEvents_cons, engineRunEvents_nil, Event.isEngineRun]

theorem castInt_of_lt (n : Nat) (h : n < 2 ^ 31) : castInt n = (n : Int) := by
  have h32 : n % 2 ^ 32 = n := Nat.mod_eq_of_lt (by omega)
  unfold castInt
  rw [h32, if_pos h]

theorem deletePluginEvents_any (p : Option (Plugin K)) :
    (deletePluginEvents p).any Event.isNotEnoughElements = false := by
  cases p <;> simp [deletePluginEvents, Event.isNotEnoughElements]

theorem newIterationDefinition_any (u : FastJetUtil K) (a b : Bool) (t : K) (s : IterState K) :
    (newIterationDefinition u a b t s).1.trace.any Event.isNotEnoughElements =
      s.trace.any Event.isNotEnoughElements := by
  unfold newIterationDefinition
  cases a <;> cases b <;> simp [List.any_append, Event.isNotEnoughElements]

end TraceLemmas

/-! ## Lemmas on the search -/

section SearchLemmas

variable {K : Type} [LinearOrderedField K]

theorem foldl_push_eq (minE : K) (jets acc : List (PseudoJet K)) :
    jets.foldl (fun acc j => if j.E > minE then acc ++ [j] else acc) acc =
      acc ++ jets.filter (fun j => decide (minE < j.E)) := by
  induction jets generalizing acc with
  | nil => simp
  | cons j js ih =>
    simp only [List.foldl_cons, ih, List.filter_cons]
    by_cases h : minE < j.E <;> simp [h]

theorem pushAboveThreshold_eq_filter (minE : K) (jets : List (PseudoJet K)) :
    pushAboveThreshold minE jets = jets.filter (fun j => decide (minE < j.E)) := by
  simp [pushAboveThreshold, foldl_push_eq]

theorem newIterationDefinition_snd (atof : String → K) (u : FastJetUtil K) (s : IterState K) :
    (newIterationDefinition u (u._jetAlgoName == "SISConePlugin")
      (u._jetAlgoName == "SISConeSphericalPlugin") (overlapThreshold atof u) s).2 =
      definitionAtRadius atof u s.R := by
  unfold newIterationDefinition definitionAtRadius overlapThreshold
  by_cases h1 : u._jetAlgoName = "SISConePlugin"
  · simp [h1]
  · by_cases h2 : u._jetAlgoName = "SISConeSphericalPlugin"
    · simp [h2]
    · simp [h1, h2]

/-- One pass through the loop body: the DEBUG line it writes, the survivors it leaves in
`jetsReturn`, the engine run it makes, when it breaks, and how it moves `R` and `RDiff`. -/
theorem searchBody_spec (atof : String → K) (engine : Engine K) (u : FastJetUtil K)
    (pjList : List (PseudoJet K)) (s : IterState K) :
    (searchBody atof engine u pjList s).1.debug =
        s.debug ++ [debugLineAt atof engine u pjList (s.iIter + 1) s.R] ∧
    (searchBody atof engine u pjList s).1.jetsReturn = survivorsAt atof engine u pjList s.R ∧
    (searchBody atof engine u pjList s).1.iIter = s.iIter ∧
    engineRunEvents (searchBody atof engine u pjList s).1.trace =
        engineRunEvents s.trace ++ [engineRunAt atof u pjList s.R] ∧
    ((searchBody atof engine u pjList s).2 = true ↔
        (survivorsAt atof engine u pjList s.R).length = u._requestedNumberOfJets) ∧
    ((searchBody atof engine u pjList s).2 = true →
        (searchBody atof engine u pjList s).1.R = s.R ∧
        (searchBody atof engine u pjList s).1.RDiff = s.RDiff) ∧
    ((searchBody atof engine u pjList s).2 = false →
        (searchBody atof engine u pjList s).1.R =
          s.R + stepSign u._requestedNumberOfJets
            (survivorsAt atof engine u pjList s.R).length * s.RDiff ∧
        (searchBody atof engine u pjList s).1.RDiff = s.RDiff / 2) := by
  have hjd := newIterationDefinition_snd atof u s
  obtain ⟨hR, hD, hI, hG, hT⟩ := newIterationDefinition_fst u (u._jetAlgoName == "SISConePlugin")
      (u._jetAlgoName == "SISConeSphericalPlugin") (overlapThreshold atof u) s
  unfold searchBody iterationBody
  generalize newIterationDefinition u (u._jetAlgoName == "SISConePlugin")
      (u._jetAlgoName == "SISConeSphericalPlugin") (overlapThreshold atof u) s = r at *
  obtain ⟨s0, jd⟩ := r
  simp only at hjd hR hD hI hG hT
  subst hjd
  dsimp only
  simp only [pushAboveThreshold_eq_filter]
  have ha : (engine pjList (definitionAtRadius atof u s.R)).inclusive_jets 0 =
      inclusiveJetsAt atof engine u pjList s.R := by
    simp [inclusiveJetsAt]
  have hs : List.filter (fun j => decide (u._minE < j.E))
      (inclusiveJetsAt atof engine u pjList s.R) =
      survivorsAt atof engine u pjList s.R := rfl
  simp only [ha, hs]
  by_cases hk : (survivorsAt atof engine u pjList s.R).length = u._requestedNumberOfJets
  · simp [hk, debugLineAt, hG, hI, hR, hD, hT, engineRunEvents_append, engineRunEvents_cons,
      engineRunEvents_nil, Event.isEngineRun, engineRunAt]
  · rcases Nat.lt_or_gt_of_ne hk with hlt | hgt
    · simp [hk, hlt, debugLineAt, hG, hI, hR, hD, hT, engineRunEvents_append, stepSign,
        engineRunEvents_deletePlugin, engineRunEvents_cons, engineRunEvents_nil,
        Event.isEngineRun, engineRunAt]
      ring
    · have hnlt : ¬ (survivorsAt atof engine u pjList s.R).length < u._requestedNumberOfJets :=
        Nat.not_lt.mpr (Nat.le_of_lt hgt)
      simp [hk, hgt, hnlt, debugLineAt, hG, hI, hR, hD, hT, engineRunEvents_append, stepSign,
        engineRunEvents_deletePlugin, engineRunEvents_cons, engineRunEvents_nil,
        Event.isEngineRun, engineRunAt]

theorem searchLoop_zero (atof : String → K) (engine : Engine K) (u : FastJetUtil K)
    (pjList : List (PseudoJet K)) (s : IterState K) :
    searchLoop atof engine u pjList 0 s = s := rfl

theorem searchLoop_succ (atof : String → K) (engine : Engine K) (u : FastJetUtil K)
    (pjList : List (PseudoJet K)) (fuel : Nat) (s : IterState K) :
    searchLoop atof engine u pjList (fuel + 1) s =
      if s.iIter < ITERATIVE_INCLUSIVE_MAX_ITERATIONS then
        if (searchBody atof engine u pjList s).2 = true then (searchBody atof engine u pjList s).1
        else searchLoop atof engine u pjList fuel
          { (searchBody atof engine u pjList s).1 with
            iIter := (searchBody atof engine u pjList s).1.iIter + 1 }
      else s := by
  unfold searchLoop searchBody
  rw [iterationLoop]
  split
  · rcases hb : iterationBody engine u pjList (u._jetAlgoName == "SISConePlugin")
      (u._jetAlgoName == "SISConeSphericalPlugin") (overlapThreshold atof u) s with ⟨s1, b⟩
    cases b <;> simp
  · rfl

/-- What the loop does from a state `s` that can still finish within the bound: the DEBUG
lines it adds, one engine run per line, and how it ends. -/
theorem searchLoop_spec (atof : String → K) (engine : Engine K) (u : FastJetUtil K)
    (pjList : List (PseudoJet K)) :
    ∀ (fuel : Nat) (s : IterState K),
      ITERATIVE_INCLUSIVE_MAX_ITERATIONS ≤ s.iIter + fuel →
      s.iIter ≤ ITERATIVE_INCLUSIVE_MAX_ITERATIONS →
      ∃ lines : List (DebugLine K),
        (searchLoop atof engine u pjList fuel s).debug = s.debug ++ lines ∧
        engineRunEvents (searchLoop atof engine u pjList fuel s).trace =
          engineRunEvents s.trace ++ lines.map (fun l => engineRunAt atof u pjList l.R) ∧
        (∀ l ∈ lines, l.nJets = (survivorsAt atof engine u pjList l.R).length) ∧
        (((searchLoop atof engine u pjList fuel s).iIter = ITERATIVE_INCLUSIVE_MAX_ITERATIONS ∧
            s.iIter + lines.length = ITERATIVE_INCLUSIVE_MAX_ITERATIONS ∧
            ∀ l ∈ lines, l.nJets ≠ u._requestedNumberOfJets) ∨
         ((searchLoop atof engine u pjList fuel s).iIter < ITERATIVE_INCLUSIVE_MAX_ITERATIONS ∧
            s.iIter + lines.length = (searchLoop atof engine u pjList fuel s).iIter + 1 ∧
            (searchLoop atof engine u pjList fuel s).jetsReturn =
              survivorsAt atof engine u pjList (searchLoop atof engine u pjList fuel s).R ∧
            (survivorsAt atof engine u pjList
              (searchLoop atof engine u pjList fuel s).R).length = u._requestedNumberOfJets ∧
            ∃ init, lines = init ++ [debugLineAt atof engine u pjList
                ((searchLoop atof engine u pjList fuel s).iIter + 1)
                (searchLoop atof engine u pjList fuel s).R] ∧
              ∀ l ∈ init, l.nJets ≠ u._requestedNumberOfJets)) := by
  intro fuel
  induction fuel with
  | zero =>
    intro s h1 h2
    refine ⟨[], by simp [searchLoop_zero], by simp [searchLoop_zero], by simp, Or.inl ?_⟩
    simp only [searchLoop_zero, List.length_nil, Nat.add_zero] at *
    exact ⟨Nat.le_antisymm h2 h1, Nat.le_antisymm h2 h1, by simp⟩
  | succ fuel ih =>
    intro s h1 h2
    rw [searchLoop_succ]
    by_cases hlt : s.iIter < ITERATIVE_INCLUSIVE_MAX_ITERATIONS
    · obtain ⟨hdbg, hret, hit, htr, hbrk, hstay, -⟩ := searchBody_spec atof engine u pjList s
      rw [if_pos hlt]
      by_cases hb : (searchBody atof engine u pjList s).2 = true
      · rw [if_pos hb]
        obtain ⟨hR, -⟩ := hstay hb
        refine ⟨[debugLineAt atof engine u pjList (s.iIter + 1) s.R], hdbg, by simpa using htr,
          by simp [debugLineAt], Or.inr ⟨by rw [hit]; exact hlt, by simp [hit], by rw [hret, hR],
            by rw [hR]; exact hbrk.mp hb, [], by simp [hit, hR], by simp⟩⟩
      · rw [if_neg hb]
        have hk : (survivorsAt atof engine u pjList s.R).length ≠ u._requestedNumberOfJets :=
          fun h => hb (hbrk.mpr h)
        obtain ⟨s2, hs2⟩ : ∃ s2 : IterState K, s2 =
            { (searchBody atof engine u pjList s).1 with
              iIter := (searchBody atof engine u pjList s).1.iIter + 1 } := ⟨_, rfl⟩
        have h2i : s2.iIter = s.iIter + 1 := by rw [hs2]; simp [hit]
        have h2d : s2.debug = s.debug ++ [debugLineAt atof engine u pjList (s.iIter + 1) s.R] := by
          rw [hs2]; exact hdbg
        have h2t : engineRunEvents s2.trace =
            engineRunEvents s.trace ++ [engineRunAt atof u pjList s.R] := by
          rw [hs2]; exact htr
        rw [← hs2]
        clear hs2
        obtain ⟨lines, h_dbg, h_tr, h_cnt, h_end⟩ := ih s2 (by omega) (by omega)
        rw [h2d] at h_dbg
        rw [h2t] at h_tr
        rw [h2i] at h_end
        refine ⟨debugLineAt atof engine u pjList (s.iIter + 1) s.R :: lines,
          by simpa using h_dbg, by simpa [debugLineAt] using h_tr, ?_, ?_⟩
        · intro l hl
          rcases List.mem_cons.mp hl with rfl | hl
          · simp [debugLineAt]
          · exact h_cnt l hl
        · rcases h_end with ⟨e1, e2, e3⟩ | ⟨e1, e2, e3, e4, init, e5, e6⟩
          · refine Or.inl ⟨e1, by simp only [List.length_cons]; omega, ?_⟩
            intro l hl
            rcases List.mem_cons.mp hl with rfl | hl
            · simpa [debugLineAt] using hk
            · exact e3 l hl
          · refine Or.inr ⟨e1, by simp only [List.length_cons]; omega, e3, e4,
              debugLineAt atof engine u pjList (s.iIter + 1) s.R :: init, by simp [e5], ?_⟩
            intro l hl
            rcases List.mem_cons.mp hl with rfl | hl
            · simpa [debugLineAt] using hk
            · exact e6 l hl
    · rw [if_neg hlt]
      have : s.iIter = ITERATIVE_INCLUSIVE_MAX_ITERATIONS := Nat.le_antisymm h2 (Nat.not_lt.mp hlt)
      exact ⟨[], by simp, by simp, by simp, Or.inl ⟨this, by simpa using this, by simp⟩⟩

theorem searchEnd_eq (M_PI_4 : K) (atof : String → K) (engine : Engine K) (u : FastJetUtil K)
    (pjList : List (PseudoJet K)) :
    searchEnd M_PI_4 atof engine u pjList =
      searchLoop atof engine u pjList ITERATIVE_INCLUSIVE_MAX_ITERATIONS (searchStart M_PI_4) :=
  rfl

/-- The whole search: the DEBUG lines, one engine run per line, and how the loop ends. -/
theorem searchEnd_spec (M_PI_4 : K) (atof : String → K) (engine : Engine K)
    (u : FastJetUtil K) (pjList : List (PseudoJet K)) :
    engineRunEvents (searchEnd M_PI_4 atof engine u pjList).trace =
      (searchEnd M_PI_4 atof engine u pjList).debug.map
        (fun l => engineRunAt atof u pjList l.R) ∧
    (∀ l ∈ (searchEnd M_PI_4 atof engine u pjList).debug,
      l.nJets = (survivorsAt atof engine u pjList l.R).length) ∧
    (((searchEnd M_PI_4 atof engine u pjList).iIter = ITERATIVE_INCLUSIVE_MAX_ITERATIONS ∧
        (searchEnd M_PI_4 atof engine u pjList).debug.length =
          ITERATIVE_INCLUSIVE_MAX_ITERATIONS ∧
        ∀ l ∈ (searchEnd M_PI_4 atof engine u pjList).debug,
          l.nJets ≠ u._requestedNumberOfJets) ∨
     ((searchEnd M_PI_4 atof engine u pjList).iIter < ITERATIVE_INCLUSIVE_MAX_ITERATIONS ∧
        (searchEnd M_PI_4 atof engine u pjList).debug.length =
          (searchEnd M_PI_4 atof engine u pjList).iIter + 1 ∧
        (searchEnd M_PI_4 atof engine u pjList).jetsReturn =
          survivorsAt atof engine u pjList (searchEnd M_PI_4 atof engine u pjList).R ∧
        (survivorsAt atof engine u pjList
          (searchEnd M_PI_4 atof engine u pjList).R).length = u._requestedNumberOfJets ∧
        ∃ init, (searchEnd M_PI_4 atof engine u pjList).debug =
            init ++ [debugLineAt atof engine u pjList
              ((searchEnd M_PI_4 atof engine u pjList).iIter + 1)
              (searchEnd M_PI_4 atof engine u pjList).R] ∧
          ∀ l ∈ init, l.nJets ≠ u._requestedNumberOfJets)) := by
  obtain ⟨lines, h1, h2, h3, h4⟩ := searchLoop_spec atof engine u pjList
    ITERATIVE_INCLUSIVE_MAX_ITERATIONS (searchStart M_PI_4)
    (by simp [searchStart]) (by simp [searchStart])
  rw [← searchEnd_eq M_PI_4] at h1 h2 h4
  have hd : (searchEnd M_PI_4 atof engine u pjList).debug = lines := by
    simpa [searchStart] using h1
  rw [hd]
  refine ⟨by simpa [searchStart, engineRunEvents_nil] using h2, h3, ?_⟩
  simpa [searchStart] using h4

theorem engineRuns_searchTrace (M_PI_4 : K) (atof : String → K) (engine : Engine K)
    (u : FastJetUtil K) (pjList : List (PseudoJet K)) :
    engineRunEvents (searchTrace M_PI_4 atof engine u pjList) =
      engineRunEvents (searchEnd M_PI_4 atof engine u pjList).trace := by
  unfold searchTrace
  dsimp only
  split <;> simp [engineRunEvents_append, engineRunEvents_cons, engineRunEvents_nil,
    Event.isEngineRun]

theorem iterationBody_any (engine : Engine K) (u : FastJetUtil K) (pjList : List (PseudoJet K))
    (a b : Bool) (t : K) (s : IterState K) :
    (iterationBody engine u pjList a b t s).1.trace.any Event.isNotEnoughElements =
      s.trace.any Event.isNotEnoughElements := by
  have h0 := newIterationDefinition_any u a b t s
  unfold iterationBody
  generalize newIterationDefinition u a b t s = r at *
  obtain ⟨s0, jd⟩ := r
  simp only at h0
  dsimp only
  split_ifs <;>
    simp [List.any_append, deletePluginEvents_any, Event.isNotEnoughElements, h0]

theorem iterationLoop_any (engine : Engine K) (u : FastJetUtil K) (pjList : List (PseudoJet K))
    (a b : Bool) (t : K) :
    ∀ (fuel : Nat) (s : IterState K),
      (iterationLoop engine u pjList a b t fuel s).trace.any Event.isNotEnoughElements =
        s.trace.any Event.isNotEnoughElements := by
  intro fuel
  induction fuel with
  | zero => intro s; rfl
  | succ fuel ih =>
    intro s
    rw [iterationLoop]
    split
    · have hb := iterationBody_any engine u pjList a b t s
      rcases hbody : iterationBody engine u pjList a b t s with ⟨s1, brk⟩
      rw [hbody] at hb
      cases brk
      · simp only
        rw [ih]
        exact hb
      · exact hb
    · rfl

theorem searchTrace_any (M_PI_4 : K) (atof : String → K) (engine : Engine K)
    (u : FastJetUtil K) (pjList : List (PseudoJet K)) :
    (searchTrace M_PI_4 atof engine u pjList).any Event.isNotEnoughElements = false := by
  have h := iterationLoop_any engine u pjList (u._jetAlgoName == "SISConePlugin")
    (u._jetAlgoName == "SISConeSphericalPlugin") (overlapThreshold atof u)
    ITERATIVE_INCLUSIVE_MAX_ITERATIONS (searchStart M_PI_4)
  unfold searchTrace searchEnd
  dsimp only
  split
  · rw [List.any_append, h]; simp [searchStart, Event.isNotEnoughElements]
  · rw [h]; simp [searchStart]

/-- The loop does not read `_cs`. -/
theorem iterationLoop_cs (engine : Engine K) (u : FastJetUtil K) (c : Option (ClusterSequence K))
    (pjList : List (PseudoJet K)) (a b : Bool) (t : K) :
    ∀ (fuel : Nat) (s : IterState K),
      iterationLoop engine { u with _cs := c } pjList a b t fuel s =
        iterationLoop engine u pjList a b t fuel s := by
  intro fuel
  induction fuel with
  | zero => intro s; rfl
  | succ fuel ih =>
    intro s
    rw [iterationLoop, iterationLoop]
    have hb : iterationBody engine { u with _cs := c } pjList a b t s =
        iterationBody engine u pjList a b t s := rfl
    rw [hb]
    split
    · rcases iterationBody engine u pjList a b t s with ⟨s1, brk⟩
      cases brk
      · exact ih _
      · rfl
    · rfl

theorem searchEnd_cs (M_PI_4 : K) (atof : String → K) (engine : Engine K) (u : FastJetUtil K)
    (c : Option (ClusterSequence K)) (pjList : List (PseudoJet K)) :
    searchEnd M_PI_4 atof engine { u with _cs := c } pjList =
      searchEnd M_PI_4 atof engine u pjList := by
  unfold searchEnd
  exact iterationLoop_cs engine u c pjList _ _ _ _ _

theorem doIterativeInclusiveClustering_cs (M_PI_4 : K) (atof : String → K) (engine : Engine K)
    (u : FastJetUtil K) (c : Option (ClusterSequence K)) (pjList : List (PseudoJet K)) :
    doIterativeInclusiveClustering M_PI_4 atof engine { u with _cs := c } pjList =
      doIterativeInclusiveClustering M_PI_4 atof engine u pjList := by
  unfold doIterativeInclusiveClustering
  rw [searchEnd_cs]

theorem searchTrace_cs (M_PI_4 : K) (atof : String → K) (engine : Engine K) (u : FastJetUtil K)
    (c : Option (ClusterSequence K)) (pjList : List (PseudoJet K)) :
    searchTrace M_PI_4 atof engine { u with _cs := c } pjList =
      searchTrace M_PI_4 atof engine u pjList := by
  unfold searchTrace
  rw [searchEnd_cs]

end SearchLemmas

/-! ## Lemmas on the dispatcher -/

section DispatchLemmas

variable {K : Type} [LinearOrderedField K]

theorem clusterJets_inclusive (M_PI_4 : K) (atof : String → K) (engine : Engine K)
    (u : FastJetUtil K) (jd : JetDefinition K) (pjList : List (PseudoJet K))
    (reconstructedPars : LCCollection) (hjd : u._jetAlgo = some jd)
    (hmode : u._clusterMode = EClusterMode.FJ_inclusive) :
    clusterJets M_PI_4 atof engine u pjList reconstructedPars =
      some { result := Except.ok ((engine pjList jd).inclusive_jets u._minPt),
             util := { u with _cs := some (engine pjList jd) },
             trace := [Event.clusterSequence pjList jd, Event.inclusive_jets u._minPt] } := by
  unfold clusterJets
  rw [hjd]
  simp only [hmode, if_true, List.singleton_append]

theorem clusterJets_yCut (M_PI_4 : K) (atof : String → K) (engine : Engine K)
    (u : FastJetUtil K) (jd : JetDefinition K) (pjList : List (PseudoJet K))
    (reconstructedPars : LCCollection) (hjd : u._jetAlgo = some jd)
    (hmode : u._clusterMode = EClusterMode.FJ_exclusive_yCut) :
    clusterJets M_PI_4 atof engine u pjList reconstructedPars =
      some { result := Except.ok ((engine pjList jd).exclusive_jets_ycut u._yCut),
             util := { u with _cs := some (engine pjList jd) },
             trace := [Event.clusterSequence pjList jd, Event.exclusive_jets_ycut u._yCut] } := by
  unfold clusterJets
  rw [hjd]
  simp only [hmode, if_true, List.singleton_append, reduceCtorEq, if_false]

theorem clusterJets_skipped (M_PI_4 : K) (atof : String → K) (engine : Engine K)
    (u : FastJetUtil K) (jd : JetDefinition K) (pjList : List (PseudoJet K))
    (reconstructedPars : LCCollection) (hjd : u._jetAlgo = some jd)
    (hmode : u._clusterMode = EClusterMode.FJ_exclusive_nJets ∨
      u._clusterMode = EClusterMode.OWN_inclusiveIteration)
    (hc : reconstructedPars.getNumberOfElements < castInt u._requestedNumberOfJets) :
    clusterJets M_PI_4 atof engine u pjList reconstructedPars =
      some { result := Except.error Error.SkippedFixedNrJetException,
             util := { u with _cs := some (engine pjList jd) },
             trace := [Event.clusterSequence pjList jd,
                       Event.warnNotEnoughElements u._requestedNumberOfJets] } := by
  unfold clusterJets
  rw [hjd]
  rcases hmode with hmode | hmode <;>
    simp only [hmode, hc, if_true, List.singleton_append, reduceCtorEq, if_false]

theorem clusterJets_nJets (M_PI_4 : K) (atof : String → K) (engine : Engine K)
    (u : FastJetUtil K) (jd : JetDefinition K) (pjList : List (PseudoJet K))
    (reconstructedPars : LCCollection) (hjd : u._jetAlgo = some jd)
    (hmode : u._clusterMode = EClusterMode.FJ_exclusive_nJets)
    (hc : ¬ reconstructedPars.getNumberOfElements < castInt u._requestedNumberOfJets) :
    clusterJets M_PI_4 atof engine u pjList reconstructedPars =
      some { result := Except.ok
               ((engine pjList jd).exclusive_jets (castInt u._requestedNumberOfJets)),
             util := { u with _cs := some (engine pjList jd) },
             trace := [Event.clusterSequence pjList jd,
                       Event.exclusive_jets (castInt u._requestedNumberOfJets)] } := by
  unfold clusterJets
  rw [hjd]
  simp only [hmode, hc, if_true, List.singleton_append, reduceCtorEq, if_false]

theorem clusterJets_iterative (M_PI_4 : K) (atof : String → K) (engine : Engine K)
    (u : FastJetUtil K) (jd : JetDefinition K) (pjList : List (PseudoJet K))
    (reconstructedPars : LCCollection) (hjd : u._jetAlgo = some jd)
    (hmode : u._clusterMode = EClusterMode.OWN_inclusiveIteration)
    (hc : ¬ reconstructedPars.getNumberOfElements < castInt u._requestedNumberOfJets) :
    clusterJets M_PI_4 atof engine u pjList reconstructedPars =
      some { result := doIterativeInclusiveClustering M_PI_4 atof engine u pjList,
             util := { u with _cs := some (engine pjList jd) },
             trace := Event.clusterSequence pjList jd ::
                       searchTrace M_PI_4 atof engine u pjList } := by
  have h1 := doIterativeInclusiveClustering_cs M_PI_4 atof engine u (some (engine pjList jd))
    pjList
  have h2 := searchTrace_cs M_PI_4 atof engine u (some (engine pjList jd)) pjList
  unfold clusterJets
  obtain ⟨cs, params, name, algo, type, modeParams, modeName, mode, schemeName, scheme,
    strategyName, strategy, n, yCut, minPt, minE⟩ := u
  simp only at hjd hmode hc h1 h2
  subst hjd hmode
  simp only [hc, if_true, List.singleton_append, reduceCtorEq, if_false, h1, h2]

theorem clusterJets_NONE (M_PI_4 : K) (atof : String → K) (engine : Engine K)
    (u : FastJetUtil K) (jd : JetDefinition K) (pjList : List (PseudoJet K))
    (reconstructedPars : LCCollection) (hjd : u._jetAlgo = some jd)
    (hmode : u._clusterMode = EClusterMode.NONE) :
    clusterJets M_PI_4 atof engine u pjList reconstructedPars =
      some { result := Except.ok [],
             util := { u with _cs := some (engine pjList jd) },
             trace := [Event.clusterSequence pjList jd] } := by
  unfold clusterJets
  rw [hjd]
  simp only [hmode, reduceCtorEq, if_false]

end DispatchLemmas

/-! ## Lemmas on the selector -/

section SelectorLemmas

variable {K : Type}

theorem land_two_pow_eq_iff (x k : Nat) : x &&& 2 ^ k = 2 ^ k ↔ x.testBit k = true := by
  constructor
  · intro h
    have := congrArg (fun y => Nat.testBit y k) h
    simpa [Nat.testBit_land, Nat.testBit_two_pow] using this
  · intro h
    apply Nat.eq_of_testBit_eq
    intro i
    by_cases hik : k = i
    · subst hik; simp [Nat.testBit_land, Nat.testBit_two_pow, h]
    · simp [Nat.testBit_land, Nat.testBit_two_pow, hik]

theorem lor_land_two_pow (a b k : Nat) :
    (a ||| b) &&& 2 ^ k = 2 ^ k ↔ a &&& 2 ^ k = 2 ^ k ∨ b &&& 2 ^ k = 2 ^ k := by
  simp [land_two_pow_eq_iff, Nat.testBit_lor]

theorem two_pow_land_two_pow (j k : Nat) : 2 ^ j &&& 2 ^ k = 2 ^ k ↔ j = k := by
  simp [land_two_pow_eq_iff, Nat.testBit_two_pow]

/-- The bitmask test of `isJetAlgo` on a bitwise OR of mode values is membership. -/
theorem mask_test (modeValue : EClusterMode → Nat) (hbits : SingleBitFlags modeValue)
    (modes : List EClusterMode) (hmodes : ∀ x ∈ modes, x ≠ EClusterMode.NONE)
    (m : EClusterMode) (hm : m ≠ EClusterMode.NONE) (acc : Nat) :
    (modes.map modeValue).foldl (fun a b => a ||| b) acc &&& modeValue m = modeValue m ↔
      acc &&& modeValue m = modeValue m ∨ m ∈ modes := by
  obtain ⟨bit, hval, hinj⟩ := hbits
  induction modes generalizing acc with
  | nil => simp
  | cons x xs ih =>
    have hx : x ≠ EClusterMode.NONE := hmodes x (List.mem_cons_self _ _)
    simp only [List.map_cons, List.foldl_cons]
    rw [ih (fun y hy => hmodes y (List.mem_cons_of_mem _ hy)), hval m hm, hval x hx,
      lor_land_two_pow, two_pow_land_two_pow, List.mem_cons, or_assoc]
    constructor
    · rintro (h | h | h)
      · exact Or.inl h
      · exact Or.inr (Or.inl (hinj _ _ hx hm h).symm)
      · exact Or.inr (Or.inr h)
    · rintro (h | h | h)
      · exact Or.inl h
      · exact Or.inr (Or.inl (by rw [h]))
      · exact Or.inr (Or.inr h)

theorem modeMask_test (modeValue : EClusterMode → Nat) (hbits : SingleBitFlags modeValue)
    (f : Family) (m : EClusterMode) (hm : m ≠ EClusterMode.NONE) :
    f.modeMask modeValue &&& modeValue m = modeValue m ↔ m ∈ f.supportedModes := by
  unfold Family.modeMask
  rw [mask_test modeValue hbits f.supportedModes (by cases f <;> simp [Family.supportedModes])
    m hm 0]
  obtain ⟨bit, hval, -⟩ := hbits
  rw [hval m hm]
  have hpos : (0 : Nat) ≠ 2 ^ bit m := Nat.ne_of_lt (pow_pos (by norm_num) _)
  simp [hpos]


theorem ifJetAlgo_of_ne (mv : EClusterMode → Nat) (algo : String) (n : Int) (sup : Nat)
    (body : FastJetUtil K → FastJetUtil K) (u : FastJetUtil K) (h : u._jetAlgoName ≠ algo) :
    ifJetAlgo mv algo n sup body u = Except.ok u := by
  simp [ifJetAlgo, isJetAlgo, h]

theorem ifJetAlgo_of_eq (mv : EClusterMode → Nat) (algo : String) (n : Int) (sup : Nat)
    (body : FastJetUtil K → FastJetUtil K) (u : FastJetUtil K) (h : u._jetAlgoName = algo) :
    ifJetAlgo mv algo n sup body u =
      if (u._jetAlgoNameAndParams.length : Int) - 1 ≠ n then Except.error wrongParameterCount
      else if sup &&& mv u._clusterMode ≠ mv u._clusterMode then Except.error modeUnsupported
      else Except.ok (body u) := by
  unfold ifJetAlgo isJetAlgo
  rw [if_neg (by simpa using h)]
  split_ifs <;> rfl

theorem initJetAlgo_family (mv : EClusterMode → Nat) (atof : String → K) (u : FastJetUtil K)
    (f : Family) (ps : List String) (h : u._jetAlgoNameAndParams = f.name :: ps) :
    (ps.length ≠ f.nrParams → initJetAlgo mv atof u = Except.error wrongParameterCount) ∧
    (ps.length = f.nrParams →
      f.modeMask mv &&& mv u._clusterMode ≠ mv u._clusterMode →
      initJetAlgo mv atof u = Except.error modeUnsupported) ∧
    (ps.length = f.nrParams →
      f.modeMask mv &&& mv u._clusterMode = mv u._clusterMode →
      ∃ u' jd, initJetAlgo mv atof u = Except.ok u' ∧ u'._jetAlgo = some jd ∧
        jd.family = f ∧ jd.params = ps.map atof ∧ u'._jetAlgoName = f.name ∧
        u'._clusterMode = u._clusterMode) := by
  have c0 : ((ps.length : Int) = 0) ↔ ps.length = 0 := by omega
  have c1 : ((ps.length : Int) = 1) ↔ ps.length = 1 := by omega
  have c2 : ((ps.length : Int) = 2) ↔ ps.length = 2 := by omega
  have c3 : ((ps.length : Int) = 3) ↔ ps.length = 3 := by omega
  refine ⟨?_, ?_, ?_⟩
  · intro hlen
    cases f <;>
      simp [initJetAlgo, h, Family.name, Family.nrParams, ifJetAlgo_of_ne, ifJetAlgo_of_eq, bind,
        Except.bind, c0, c1, c2, c3] <;>
      simp_all [Family.nrParams]
  · intro hlen hmask
    cases f <;>
      simp [Family.modeMask, Family.supportedModes] at hmask <;>
      simp [initJetAlgo, h, Family.name, Family.nrParams, ifJetAlgo_of_ne, ifJetAlgo_of_eq, bind,
        Except.bind, c0, c1, c2, c3, hmask] <;>
      simp_all [Family.nrParams]
  · intro hlen hmask
    rcases ps with _ | ⟨p1, _ | ⟨p2, _ | ⟨p3, _ | ⟨p4, ps⟩⟩⟩⟩ <;>
    cases f <;>
      simp [Family.nrParams] at hlen <;>
      simp [Family.modeMask, Family.supportedModes] at hmask <;>
      simp [initJetAlgo, h, Family.name, ifJetAlgo_of_ne, ifJetAlgo_of_eq, bind,
        Except.bind, hmask, setAlgoWithR, checkJetAlgo, algoParam, JetDefinition.family,
        JetDefinition.params, JetAlgorithm.family]
theorem lor_land_self (a v : Nat) : (a ||| v) &&& v = v := by
  apply Nat.eq_of_testBit_eq
  intro i
  simp only [Nat.testBit_land, Nat.testBit_lor]
  cases a.testBit i <;> cases v.testBit i <;> rfl

theorem lor_land_of_land (a b v : Nat) (h : a &&& v = v) : (a ||| b) &&& v = v := by
  apply Nat.eq_of_testBit_eq
  intro i
  have hi := congrArg (fun y => Nat.testBit y i) h
  simp only [Nat.testBit_land] at hi
  simp only [Nat.testBit_land, Nat.testBit_lor]
  cases ha : a.testBit i <;> cases hb : b.testBit i <;> cases hv : v.testBit i <;>
    simp [ha, hv] at hi ⊢

/-- A mode whose value is one of the values joined by bitwise OR passes the bitmask test,
whatever the values are. -/
theorem mask_accepts_member (modeValue : EClusterMode → Nat) (modes : List EClusterMode)
    (m : EClusterMode) (hm : m ∈ modes) (acc : Nat) :
    (modes.map modeValue).foldl (fun a b => a ||| b) acc &&& modeValue m = modeValue m := by
  have hacc : ∀ (l : List Nat) (a : Nat), a &&& modeValue m = modeValue m →
      l.foldl (fun a b => a ||| b) a &&& modeValue m = modeValue m := by
    intro l
    induction l with
    | nil => intro a ha; exact ha
    | cons x xs ih => intro a ha; exact ih _ (lor_land_of_land a x _ ha)
  induction modes generalizing acc with
  | nil => cases hm
  | cons x xs ih =>
    simp only [List.map_cons, List.foldl_cons]
    rcases List.mem_cons.mp hm with rfl | hmem
    · exact hacc _ _ (lor_land_self acc _)
    · exact ih hmem _

theorem flagValue_singleBit : SingleBitFlags flagValue := by
  refine ⟨fun m => match m with
    | EClusterMode.NONE => 0
    | EClusterMode.FJ_exclusive_yCut => 0
    | EClusterMode.FJ_exclusive_nJets => 1
    | EClusterMode.FJ_inclusive => 2
    | EClusterMode.OWN_inclusiveIteration => 3, ?_, ?_⟩
  · intro m hm
    cases m <;> simp [flagValue] at hm ⊢
  · intro m m' hm hm' h
    cases m <;> cases m' <;> simp at hm hm' h ⊢

theorem mem_absentPairs_iff (f : Family) (m : EClusterMode) (hm : m ≠ EClusterMode.NONE) :
    (f, m) ∈ absentPairs ↔ m ∉ f.supportedModes := by
  cases f <;> cases m <;> simp [absentPairs, Family.supportedModes] at hm ⊢

end SelectorLemmas

/-! ## Evaluation of the example data -/

section ExampleLemmas

theorem scenarioC_returns :
    doIterativeInclusiveClustering demo_M_PI_4 demoAtof demoEngine scenarioC demoEvent =
      Except.ok [demoJet 25 30 0, demoJet 12 15 1] := by
  simp [doIterativeInclusiveClustering, searchEnd, iterationLoop, iterationBody,
    newIterationDefinition, searchStart, overlapThreshold, scenarioC, demoConfigured, demoEngine,
    demoRadius, demo_M_PI_4, ITERATIVE_INCLUSIVE_MAX_ITERATIONS, pushAboveThreshold, demoJet]
  norm_num

end ExampleLemmas

/-! ## The iterative search: results -/

section SearchClaims

variable {K : Type} [LinearOrderedField K]

/-- C1: whenever `doIterativeInclusiveClustering` returns normally, the returned list has
exactly `_requestedNumberOfJets` jets, every returned jet has energy strictly greater than
`_minE`, and the list is the sub-list of the engine's `inclusive_jets(0)` result at the
final radius whose energy is greater than `_minE`, in the engine's order; the final radius
is the one of the last engine run. -/
theorem C1_returned_jets_are_the_survivors (M_PI_4 : K) (atof : String → K) (engine : Engine K)
    (u : FastJetUtil K) (pjList jets : List (PseudoJet K))
    (h : doIterativeInclusiveClustering M_PI_4 atof engine u pjList = Except.ok jets) :
    jets.length = u._requestedNumberOfJets ∧
    (∀ j ∈ jets, u._minE < j.E) ∧
    jets = ((engine pjList (definitionAtRadius atof u
        (searchEnd M_PI_4 atof engine u pjList).R)).inclusive_jets 0).filter
          (fun j => decide (u._minE < j.E)) ∧
    (engineRunEvents (searchTrace M_PI_4 atof engine u pjList)).getLast? =
      some (Event.clusterSequence pjList (definitionAtRadius atof u
        (searchEnd M_PI_4 atof engine u pjList).R)) := by
  obtain ⟨h1, -, h3⟩ := searchEnd_spec M_PI_4 atof engine u pjList
  unfold doIterativeInclusiveClustering at h
  dsimp only at h
  split at h
  · exact absurd h (by simp)
  · rename_i hne
    rcases h3 with ⟨e1, -⟩ | ⟨-, -, e3, e4, init, e5, -⟩
    · exact absurd e1 hne
    · have hj : jets = survivorsAt atof engine u pjList (searchEnd M_PI_4 atof engine u pjList).R := by
        rw [← e3]; exact (Except.ok.inj h).symm
      refine ⟨by rw [hj]; exact e4, ?_, hj, ?_⟩
      · intro j hjm
        rw [hj] at hjm
        simpa using (List.mem_filter.mp hjm).2
      · rw [engineRuns_searchTrace, h1, e5]
        simp [debugLineAt, engineRunAt]

/-- C1, on scenario C: the search returns two jets, both with energy above 5. -/
theorem C1_returned_jets_are_the_survivors_witness :
    doIterativeInclusiveClustering demo_M_PI_4 demoAtof demoEngine scenarioC demoEvent =
        Except.ok [demoJet 25 30 0, demoJet 12 15 1] ∧
      [demoJet 25 30 0, demoJet 12 15 1].length = scenarioC._requestedNumberOfJets ∧
      ∀ j ∈ [demoJet 25 30 0, demoJet 12 15 1], scenarioC._minE < j.E :=
  ⟨scenarioC_returns,
    (C1_returned_jets_are_the_survivors demo_M_PI_4 demoAtof demoEngine scenarioC demoEvent
      [demoJet 25 30 0, demoJet 12 15 1] scenarioC_returns).1,
    (C1_returned_jets_are_the_survivors demo_M_PI_4 demoAtof demoEngine scenarioC demoEvent
      [demoJet 25 30 0, demoJet 12 15 1] scenarioC_returns).2.1⟩

/-- C2: `doIterativeInclusiveClustering` runs the engine at most 20 times, once per DEBUG
line, each line recording the survivor count at its radius.  If no iteration has a survivor
count equal to `_requestedNumberOfJets`, the call fails with `SkippedFixedNrJetException`;
it fails only after exactly 20 engine runs, none of them matching; and it returns only on
an exact match, which is the last iteration run. -/
theorem C2_at_most_twenty_runs_then_skipped (M_PI_4 : K) (atof : String → K)
    (engine : Engine K) (u : FastJetUtil K) (pjList : List (PseudoJet K)) :
    engineRuns (searchTrace M_PI_4 atof engine u pjList) ≤ 20 ∧
    engineRunEvents (searchTrace M_PI_4 atof engine u pjList) =
      (searchEnd M_PI_4 atof engine u pjList).debug.map
        (fun l => Event.clusterSequence pjList (definitionAtRadius atof u l.R)) ∧
    (∀ l ∈ (searchEnd M_PI_4 atof engine u pjList).debug,
      l.nJets = (survivorsAt atof engine u pjList l.R).length) ∧
    ((∀ l ∈ (searchEnd M_PI_4 atof engine u pjList).debug,
        l.nJets ≠ u._requestedNumberOfJets) →
      doIterativeInclusiveClustering M_PI_4 atof engine u pjList =
        Except.error Error.SkippedFixedNrJetException) ∧
    (doIterativeInclusiveClustering M_PI_4 atof engine u pjList =
        Except.error Error.SkippedFixedNrJetException →
      engineRuns (searchTrace M_PI_4 atof engine u pjList) = 20 ∧
      ∀ l ∈ (searchEnd M_PI_4 atof engine u pjList).debug,
        l.nJets ≠ u._requestedNumberOfJets) ∧
    (∀ jets, doIterativeInclusiveClustering M_PI_4 atof engine u pjList = Except.ok jets →
      jets.length = u._requestedNumberOfJets ∧
      ∃ init last, (searchEnd M_PI_4 atof engine u pjList).debug = init ++ [last] ∧
        last.nJets = u._requestedNumberOfJets ∧
        ∀ l ∈ init, l.nJets ≠ u._requestedNumberOfJets) := by
  obtain ⟨h1, h2, h3⟩ := searchEnd_spec M_PI_4 atof engine u pjList
  have hruns : engineRuns (searchTrace M_PI_4 atof engine u pjList) =
      (searchEnd M_PI_4 atof engine u pjList).debug.length := by
    rw [engineRuns, engineRuns_searchTrace, h1, List.length_map]
  have hmax : ITERATIVE_INCLUSIVE_MAX_ITERATIONS = 20 := rfl
  refine ⟨?_, ?_, h2, ?_, ?_, ?_⟩
  · rw [hruns]
    rcases h3 with ⟨-, e2, -⟩ | ⟨e1, e2, -⟩ <;> omega
  · rw [engineRuns_searchTrace, h1]; rfl
  · intro hall
    rcases h3 with ⟨e1, -, -⟩ | ⟨-, -, -, e4, init, e5, -⟩
    · simp [doIterativeInclusiveClustering, e1]
    · exfalso
      refine hall (debugLineAt atof engine u pjList
        ((searchEnd M_PI_4 atof engine u pjList).iIter + 1)
        (searchEnd M_PI_4 atof engine u pjList).R) (by rw [e5]; simp) ?_
      simpa [debugLineAt] using e4
  · intro herr
    rcases h3 with ⟨-, e2, e3⟩ | ⟨e1, -⟩
    · exact ⟨by rw [hruns, e2, hmax], e3⟩
    · exfalso
      simp [doIterativeInclusiveClustering, Nat.ne_of_lt e1] at herr
  · intro jets hok
    rcases h3 with ⟨e1, -⟩ | ⟨-, -, e3, e4, init, e5, e6⟩
    · exfalso
      simp [doIterativeInclusiveClustering, e1] at hok
    · refine ⟨?_, init, _, e5, by simpa [debugLineAt] using e4, e6⟩
      have hne : (searchEnd M_PI_4 atof engine u pjList).iIter ≠
          ITERATIVE_INCLUSIVE_MAX_ITERATIONS := by
        intro hc
        simp [doIterativeInclusiveClustering, hc] at hok
      simp only [doIterativeInclusiveClustering, if_neg hne] at hok
      rw [← Except.ok.inj hok, e3]; exact e4

end SearchClaims

/-! ## The dispatcher: results -/

section DispatchClaims

variable {K : Type} [LinearOrderedField K]

/-- C4, as stated, fails on scenario B (`ee_kt_algorithm`, `ExclusiveNJets 3`, an event
with two particles): the call throws `SkippedFixedNrJetException`, but the engine has run
once, because the `ClusterSequence` is built before the particle-count check. -/
theorem C4_zero_engine_runs_counterexample :
    ∃ o, clusterJets demo_M_PI_4 demoAtof demoEngine scenarioB demoEventTwo
        (LCCollection.mk 2) = some o ∧
      o.result = Except.error Error.SkippedFixedNrJetException ∧
      o.trace = [Event.clusterSequence demoEventTwo
          (JetDefinition.noParam JetAlgorithm.ee_kt_algorithm RecombinationScheme.E_scheme
            Strategy.Best),
        Event.warnNotEnoughElements 3] ∧
      engineRuns o.trace ≠ 0 := by
  simp [clusterJets, scenarioB, demoConfigured, castInt, engineRuns, engineRunEvents,
    Event.isEngineRun]

/-- C4, as amended: in mode `FJ_exclusive_nJets` with fewer particles than requested jets
(the count compared as the code compares it, cast to `int`), `clusterJets` throws
`SkippedFixedNrJetException` without any query on the cluster sequence; the only event
before the WARNING line is the construction of the `ClusterSequence` over the four-vector
list, which precedes the check: one engine run. -/
theorem C4_skipped_before_any_query (M_PI_4 : K) (atof : String → K) (engine : Engine K)
    (u : FastJetUtil K) (jd : JetDefinition K) (pjList : List (PseudoJet K))
    (reconstructedPars : LCCollection) (hjd : u._jetAlgo = some jd)
    (hmode : u._clusterMode = EClusterMode.FJ_exclusive_nJets)
    (hlt : reconstructedPars.getNumberOfElements < castInt u._requestedNumberOfJets) :
    ∃ o, clusterJets M_PI_4 atof engine u pjList reconstructedPars = some o ∧
      o.result = Except.error Error.SkippedFixedNrJetException ∧
      o.trace = [Event.clusterSequence pjList jd,
                 Event.warnNotEnoughElements u._requestedNumberOfJets] ∧
      o.trace.any Event.isQuery = false ∧
      engineRuns o.trace = 1 := by
  refine ⟨_, clusterJets_skipped M_PI_4 atof engine u jd pjList reconstructedPars hjd
    (Or.inl hmode) hlt, rfl, rfl, ?_, ?_⟩
  · simp [Event.isQuery]
  · simp [engineRuns, engineRunEvents, Event.isEngineRun]

/-- C4 as amended, on scenario B: two particles, three jets requested. -/
theorem C4_skipped_before_any_query_witness :
    (LCCollection.mk 2).getNumberOfElements < castInt scenarioB._requestedNumberOfJets ∧
    ∃ o, clusterJets demo_M_PI_4 demoAtof demoEngine scenarioB demoEventTwo
        (LCCollection.mk 2) = some o ∧
      o.result = Except.error Error.SkippedFixedNrJetException ∧
      o.trace = [Event.clusterSequence demoEventTwo
          (JetDefinition.noParam JetAlgorithm.ee_kt_algorithm RecombinationScheme.E_scheme
            Strategy.Best),
        Event.warnNotEnoughElements scenarioB._requestedNumberOfJets] ∧
      o.trace.any Event.isQuery = false ∧
      engineRuns o.trace = 1 :=
  ⟨by decide,
    C4_skipped_before_any_query demo_M_PI_4 demoAtof demoEngine scenarioB
      (JetDefinition.noParam JetAlgorithm.ee_kt_algorithm RecombinationScheme.E_scheme
        Strategy.Best) demoEventTwo (LCCollection.mk 2) rfl rfl (by decide)⟩

/-- C5: in the modes `FJ_exclusive_nJets` and `OWN_inclusiveIteration`, `clusterJets` ends
in the `SkippedFixedNrJetException` of the particle-count check if and only if the number
of elements of the input collection is less than `(int)_requestedNumberOfJets`; for a
requested count `n` that is non-negative as an `int` (`n < 2^31`) this is: if and only if
the particle count is strictly less than `n`.  In the modes `FJ_inclusive` and
`FJ_exclusive_yCut` it never ends so. -/
theorem C5_not_enough_elements_iff (M_PI_4 : K) (atof : String → K) (engine : Engine K)
    (u : FastJetUtil K) (jd : JetDefinition K) (pjList : List (PseudoJet K))
    (reconstructedPars : LCCollection) (hjd : u._jetAlgo = some jd) :
    ∃ o, clusterJets M_PI_4 atof engine u pjList reconstructedPars = some o ∧
      ((u._clusterMode = EClusterMode.FJ_exclusive_nJets ∨
          u._clusterMode = EClusterMode.OWN_inclusiveIteration) →
        (o.notEnoughElements ↔
          reconstructedPars.getNumberOfElements < castInt u._requestedNumberOfJets) ∧
        (u._requestedNumberOfJets < 2 ^ 31 →
          (o.notEnoughElements ↔
            reconstructedPars.getNumberOfElements < (u._requestedNumberOfJets : Int)))) ∧
      ((u._clusterMode = EClusterMode.FJ_inclusive ∨
          u._clusterMode = EClusterMode.FJ_exclusive_yCut) →
        ¬ o.notEnoughElements) := by
  have hcast : ∀ o : Outcome K,
      (o.notEnoughElements ↔
        reconstructedPars.getNumberOfElements < castInt u._requestedNumberOfJets) →
      (o.notEnoughElements ↔
          reconstructedPars.getNumberOfElements < castInt u._requestedNumberOfJets) ∧
        (u._requestedNumberOfJets < 2 ^ 31 →
          (o.notEnoughElements ↔
            reconstructedPars.getNumberOfElements < (u._requestedNumberOfJets : Int))) := by
    intro o h
    refine ⟨h, fun hn => ?_⟩
    rw [← castInt_of_lt _ hn]
    exact h
  cases hmode : u._clusterMode
  case NONE =>
    exact ⟨_, clusterJets_NONE M_PI_4 atof engine u jd pjList reconstructedPars hjd hmode,
      by simp, by simp⟩
  case FJ_inclusive =>
    exact ⟨_, clusterJets_inclusive M_PI_4 atof engine u jd pjList reconstructedPars hjd hmode,
      by simp, by simp [Outcome.notEnoughElements]⟩
  case FJ_exclusive_yCut =>
    exact ⟨_, clusterJets_yCut M_PI_4 atof engine u jd pjList reconstructedPars hjd hmode,
      by simp, by simp [Outcome.notEnoughElements]⟩
  case FJ_exclusive_nJets =>
    by_cases hc : reconstructedPars.getNumberOfElements < castInt u._requestedNumberOfJets
    · refine ⟨_, clusterJets_skipped M_PI_4 atof engine u jd pjList reconstructedPars hjd
        (Or.inl hmode) hc, fun _ => hcast _ ?_, by simp⟩
      simp [Outcome.notEnoughElements, Event.isNotEnoughElements, hc]
    · refine ⟨_, clusterJets_nJets M_PI_4 atof engine u jd pjList reconstructedPars hjd
        hmode hc, fun _ => hcast _ ?_, by simp⟩
      simp [Outcome.notEnoughElements, hc]
  case OWN_inclusiveIteration =>
    by_cases hc : reconstructedPars.getNumberOfElements < castInt u._requestedNumberOfJets
    · refine ⟨_, clusterJets_skipped M_PI_4 atof engine u jd pjList reconstructedPars hjd
        (Or.inr hmode) hc, fun _ => hcast _ ?_, by simp⟩
      simp [Outcome.notEnoughElements, Event.isNotEnoughElements, hc]
    · refine ⟨_, clusterJets_iterative M_PI_4 atof engine u jd pjList reconstructedPars hjd
        hmode hc, fun _ => hcast _ ?_, by simp⟩
      have hs := searchTrace_any M_PI_4 atof engine u pjList
      constructor
      · rintro ⟨-, hany⟩
        simp only [List.any_cons, hs, Event.isNotEnoughElements, Bool.or_false] at hany
        exact absurd hany (by simp)
      · intro h
        exact absurd h hc

/-- C5, on scenario B with a collection of two elements: three jets are requested, and the
call ends in the exception of the particle-count check. -/
theorem C5_not_enough_elements_iff_witness :
    ∃ o, clusterJets demo_M_PI_4 demoAtof demoEngine scenarioB demoEventTwo
        (LCCollection.mk 2) = some o ∧ o.notEnoughElements :=
  (C5_not_enough_elements_iff demo_M_PI_4 demoAtof demoEngine scenarioB
    (JetDefinition.noParam JetAlgorithm.ee_kt_algorithm RecombinationScheme.E_scheme
      Strategy.Best) demoEventTwo (LCCollection.mk 2) rfl).imp
    (fun _ h => ⟨h.1, ((h.2.1 (Or.inl rfl)).2 (by decide)).mpr (by decide)⟩)

end DispatchClaims

/-! ## The selector: results -/

section SelectorClaims

variable {K : Type}

/-- C7: for each of the eleven families, `initJetAlgo` called with the family name, exactly
the required number of parameters and a clustering mode of the family succeeds, and the
jet definition it builds has that family and the supplied parameters (converted by
`atof`); this holds whatever the integer values of the mode tags are. -/
theorem C7_supported_configuration_builds_family (modeValue : EClusterMode → Nat)
    (atof : String → K) (u : FastJetUtil K) (f : Family) (ps : List String)
    (hparams : u._jetAlgoNameAndParams = f.name :: ps)
    (hlen : ps.length = f.nrParams)
    (hmode : u._clusterMode ∈ f.supportedModes) :
    ∃ u' jd, initJetAlgo modeValue atof u = Except.ok u' ∧ u'._jetAlgo = some jd ∧
      jd.family = f ∧ jd.params = ps.map atof := by
  obtain ⟨u', jd, h1, h2, h3, h4, -, -⟩ :=
    (initJetAlgo_family modeValue atof u f ps hparams).2.2 hlen
      (mask_accepts_member modeValue f.supportedModes _ hmode 0)
  exact ⟨u', jd, h1, h2, h3, h4⟩

/-- C7, on `genkt_algorithm 0.7 10.0` in mode `FJ_exclusive_nJets`. -/
theorem C7_supported_configuration_builds_family_witness :
    ∃ u' jd, initJetAlgo flagValue demoAtof
        (demoBeforeInitJetAlgo ["genkt_algorithm", "0.7", "10.0"]
          EClusterMode.FJ_exclusive_nJets) = Except.ok u' ∧
      u'._jetAlgo = some jd ∧ jd.family = Family.genkt_algorithm ∧
      jd.params = ["0.7", "10.0"].map demoAtof :=
  C7_supported_configuration_builds_family flagValue demoAtof
    (demoBeforeInitJetAlgo ["genkt_algorithm", "0.7", "10.0"] EClusterMode.FJ_exclusive_nJets)
    Family.genkt_algorithm ["0.7", "10.0"] rfl rfl (by decide)

/-- C8: for every family name and every parameter list whose length differs from the
required count of that family, `initJetAlgo` throws the parameter-count exception, whatever
the clustering mode (and whatever the values of the mode tags). -/
theorem C8_wrong_parameter_count_rejected (modeValue : EClusterMode → Nat)
    (atof : String → K) (u : FastJetUtil K) (f : Family) (ps : List String)
    (hparams : u._jetAlgoNameAndParams = f.name :: ps)
    (hlen : ps.length ≠ f.nrParams) :
    initJetAlgo modeValue atof u = Except.error wrongParameterCount :=
  (initJetAlgo_family modeValue atof u f ps hparams).1 hlen

/-- C8, on `kt_algorithm` with one parameter too few and with one too many. -/
theorem C8_wrong_parameter_count_rejected_witness :
    initJetAlgo flagValue demoAtof
        (demoBeforeInitJetAlgo ["kt_algorithm"] EClusterMode.FJ_inclusive) =
      Except.error wrongParameterCount ∧
    initJetAlgo flagValue demoAtof
        (demoBeforeInitJetAlgo ["kt_algorithm", "0.7", "10.0"] EClusterMode.FJ_inclusive) =
      Except.error wrongParameterCount :=
  ⟨C8_wrong_parameter_count_rejected flagValue demoAtof
      (demoBeforeInitJetAlgo ["kt_algorithm"] EClusterMode.FJ_inclusive)
      Family.kt_algorithm [] rfl (by decide),
    C8_wrong_parameter_count_rejected flagValue demoAtof
      (demoBeforeInitJetAlgo ["kt_algorithm", "0.7", "10.0"] EClusterMode.FJ_inclusive)
      Family.kt_algorithm ["0.7", "10.0"] rfl (by decide)⟩

/-- C9: with mode tags that are distinct single-bit flags and the correct parameter count,
`initJetAlgo` throws the mode-unsupported exception for every (family, mode) pair absent
from the support table; for every pair of the table (mode other than `NONE`) the bitmask
test `(supportedModes & mode) == mode` holds and `initJetAlgo` succeeds. -/
theorem C9_absent_pairs_rejected (modeValue : EClusterMode → Nat) (atof : String → K)
    (u : FastJetUtil K) (f : Family) (ps : List String)
    (hbits : SingleBitFlags modeValue)
    (hparams : u._jetAlgoNameAndParams = f.name :: ps)
    (hlen : ps.length = f.nrParams)
    (hmode : u._clusterMode ≠ EClusterMode.NONE) :
    ((f, u._clusterMode) ∈ absentPairs →
      initJetAlgo modeValue atof u = Except.error modeUnsupported) ∧
    ((f, u._clusterMode) ∉ absentPairs →
      f.modeMask modeValue &&& modeValue u._clusterMode = modeValue u._clusterMode ∧
      ∃ u', initJetAlgo modeValue atof u = Except.ok u') := by
  have htest := modeMask_test modeValue hbits f u._clusterMode hmode
  have habs := mem_absentPairs_iff f u._clusterMode hmode
  constructor
  · intro h
    exact (initJetAlgo_family modeValue atof u f ps hparams).2.1 hlen
      (fun hm => (habs.mp h) (htest.mp hm))
  · intro h
    have hmem : u._clusterMode ∈ f.supportedModes := by
      by_contra hc
      exact h (habs.mpr hc)
    obtain ⟨u', -, h1, -⟩ :=
      (initJetAlgo_family modeValue atof u f ps hparams).2.2 hlen (htest.mpr hmem)
    exact ⟨htest.mpr hmem, u', h1⟩

/-- C9, on `antikt_algorithm 0.7` in mode `FJ_exclusive_nJets`, a pair absent from the
table. -/
theorem C9_absent_pairs_rejected_witness :
    initJetAlgo flagValue demoAtof
        (demoBeforeInitJetAlgo ["antikt_algorithm", "0.7"] EClusterMode.FJ_exclusive_nJets) =
      Except.error modeUnsupported :=
  (C9_absent_pairs_rejected flagValue demoAtof
    (demoBeforeInitJetAlgo ["antikt_algorithm", "0.7"] EClusterMode.FJ_exclusive_nJets)
    Family.antikt_algorithm ["0.7"] flagValue_singleBit rfl rfl (by decide)).1 (by decide)

/-- C10: when the first token of the algorithm parameter list is not one of the eleven
family names (compared exactly), `initJetAlgo` throws the unknown-algorithm exception,
whatever the other tokens and the clustering mode; on an empty list it throws as well,
with the message of the sanity check. -/
theorem C10_unknown_algorithm_rejected (modeValue : EClusterMode → Nat) (atof : String → K)
    (u : FastJetUtil K)
    (hname : ∀ f : Family, u._jetAlgoNameAndParams.head? ≠ some f.name) :
    initJetAlgo modeValue atof u =
      Except.error
        (if u._jetAlgoNameAndParams = [] then noAlgorithmProvided else unknownAlgorithm) := by
  rcases hp : u._jetAlgoNameAndParams with _ | ⟨name, ps⟩
  · simp [initJetAlgo, hp, noAlgorithmProvided]
  · rw [hp] at hname
    have h1 := hname Family.kt_algorithm
    have h2 := hname Family.cambridge_algorithm
    have h3 := hname Family.antikt_algorithm
    have h4 := hname Family.genkt_algorithm
    have h5 := hname Family.cambridge_for_passive_algorithm
    have h6 := hname Family.genkt_for_passive_algorithm
    have h7 := hname Family.ee_kt_algorithm
    have h8 := hname Family.ee_genkt_algorithm
    have h9 := hname Family.SISConePlugin
    have h10 := hname Family.SISConeSphericalPlugin
    have h11 := hname Family.ValenciaPlugin
    simp only [List.head?_cons, ne_eq, Option.some.injEq, Family.name] at h1 h2 h3 h4 h5 h6
    simp only [List.head?_cons, ne_eq, Option.some.injEq, Family.name] at h7 h8 h9 h10 h11
    simp [initJetAlgo, hp, ifJetAlgo_of_ne, h1, h2, h3, h4, h5, h6, h7, h8, h9, h10, h11, bind,
      Except.bind, checkJetAlgo, unknownAlgorithm]

/-- C10, on `KT_algorithm 0.7`: the comparison is case-sensitive. -/
theorem C10_unknown_algorithm_rejected_witness :
    initJetAlgo flagValue demoAtof
        (demoBeforeInitJetAlgo ["KT_algorithm", "0.7"] EClusterMode.FJ_inclusive) =
      Except.error unknownAlgorithm :=
  C10_unknown_algorithm_rejected flagValue demoAtof
    (demoBeforeInitJetAlgo ["KT_algorithm", "0.7"] EClusterMode.FJ_inclusive)
    (by intro f; cases f <;> decide)

end SelectorClaims

/-! ## Initialisation: lemmas -/

section InitLemmas

variable {K : Type} [LinearOrderedField K]

theorem initClusterMode_inclusive (atof : String → K) (atoi : String → Int) (u : FastJetUtil K)
    (p : String) (h : u._clusterModeNameAndParam = ["Inclusive", p]) :
    initClusterMode atof atoi u =
      Except.ok { u with _clusterModeName := "Inclusive",
                         _clusterMode := EClusterMode.FJ_inclusive, _minPt := atof p } := by
  simp [initClusterMode, h]

theorem initClusterMode_iterative (atof : String → K) (atoi : String → Int) (u : FastJetUtil K)
    (p q : String) (h : u._clusterModeNameAndParam = ["InclusiveIterativeNJets", p, q]) :
    initClusterMode atof atoi u =
      Except.ok { u with _clusterModeName := "InclusiveIterativeNJets",
                         _clusterMode := EClusterMode.OWN_inclusiveIteration,
                         _requestedNumberOfJets := toUnsigned (atoi p),
                         _minE := ((atoi q : Int) : K) } := by
  simp [initClusterMode, h]

theorem initClusterMode_nJets (atof : String → K) (atoi : String → Int) (u : FastJetUtil K)
    (p : String) (h : u._clusterModeNameAndParam = ["ExclusiveNJets", p]) :
    initClusterMode atof atoi u =
      Except.ok { u with _clusterModeName := "ExclusiveNJets",
                         _clusterMode := EClusterMode.FJ_exclusive_nJets,
                         _requestedNumberOfJets := toUnsigned (atoi p) } := by
  simp [initClusterMode, h]

theorem initClusterMode_yCut (atof : String → K) (atoi : String → Int) (u : FastJetUtil K)
    (p : String) (h : u._clusterModeNameAndParam = ["ExclusiveYCut", p]) :
    initClusterMode atof atoi u =
      Except.ok { u with _clusterModeName := "ExclusiveYCut",
                         _clusterMode := EClusterMode.FJ_exclusive_yCut, _yCut := atof p } := by
  simp [initClusterMode, h]

theorem initClusterMode_rejects (atof : String → K) (atoi : String → Int) (u : FastJetUtil K)
    (h : ¬ AcceptedModeList u._clusterModeNameAndParam) :
    ∃ msg, initClusterMode atof atoi u = Except.error (Error.Exception msg) := by
  unfold AcceptedModeList at h
  rcases hl : u._clusterModeNameAndParam with _ | ⟨name, ps⟩
  · exact ⟨_, by simp [initClusterMode, hl, clusterModeNotSpecified]; rfl⟩
  · rw [hl] at h
    have len1 : ∀ l : List String, l.length + 1 = 2 → ∃ p, l = [p] := by
      intro l hlen
      exact List.length_eq_one.mp (by omega)
    have len2 : ∀ l : List String, l.length + 1 = 3 → ∃ p q, l = [p, q] := by
      intro l hlen
      exact List.length_eq_two.mp (by omega)
    unfold initClusterMode
    simp only [hl, List.length_cons, List.getD_cons_zero]
    rw [if_neg (by omega)]
    split_ifs with h1 h2 h3 h4 h5 h6 h7 h8
    · exact ⟨_, rfl⟩
    · exfalso
      obtain ⟨p, rfl⟩ := len1 ps (by simpa using h2)
      exact h (Or.inl ⟨p, by rw [h1]⟩)
    · exact ⟨_, rfl⟩
    · exfalso
      obtain ⟨p, q, rfl⟩ := len2 ps (by simpa using h4)
      exact h (Or.inr (Or.inl ⟨p, q, by rw [h3]⟩))
    · exact ⟨_, rfl⟩
    · exfalso
      obtain ⟨p, rfl⟩ := len1 ps (by simpa using h6)
      exact h (Or.inr (Or.inr (Or.inl ⟨p, by rw [h5]⟩)))
    · exact ⟨_, rfl⟩
    · exfalso
      obtain ⟨p, rfl⟩ := len1 ps (by simpa using h8)
      exact h (Or.inr (Or.inr (Or.inr ⟨p, by rw [h7]⟩)))
    · exact ⟨_, rfl⟩

theorem initClusterMode_accepts (atof : String → K) (atoi : String → Int) (u : FastJetUtil K)
    (h : AcceptedModeList u._clusterModeNameAndParam) :
    ∃ u', initClusterMode atof atoi u = Except.ok u' ∧ u'._clusterMode ∈ activeModes ∧
      u'._strategy = u._strategy ∧ u'._jetAlgoNameAndParams = u._jetAlgoNameAndParams ∧
      u'._jetRecoScheme = u._jetRecoScheme := by
  rcases h with ⟨p, h⟩ | ⟨p, q, h⟩ | ⟨p, h⟩ | ⟨p, h⟩
  · exact ⟨_, initClusterMode_inclusive atof atoi u p h, by simp [activeModes], rfl, rfl, rfl⟩
  · exact ⟨_, initClusterMode_iterative atof atoi u p q h, by simp [activeModes], rfl, rfl, rfl⟩
  · exact ⟨_, initClusterMode_nJets atof atoi u p h, by simp [activeModes], rfl, rfl, rfl⟩
  · exact ⟨_, initClusterMode_yCut atof atoi u p h, by simp [activeModes], rfl, rfl, rfl⟩

end InitLemmas

section RecoLemmas

variable {K : Type}

theorem initRecoScheme_of_name (u : FastJetUtil K) (s : RecombinationScheme)
    (h : u._jetRecoSchemeName = s.name) :
    initRecoScheme u = Except.ok { u with _jetRecoScheme := s } := by
  cases s <;> simp [initRecoScheme, h, RecombinationScheme.name]

theorem initRecoScheme_of_unknown (u : FastJetUtil K)
    (h : ∀ s : RecombinationScheme, u._jetRecoSchemeName ≠ s.name) :
    initRecoScheme u = Except.error unknownRecombinationScheme := by
  have h1 := h RecombinationScheme.E_scheme
  have h2 := h RecombinationScheme.pt_scheme
  have h3 := h RecombinationScheme.pt2_scheme
  have h4 := h RecombinationScheme.Et_scheme
  have h5 := h RecombinationScheme.Et2_scheme
  have h6 := h RecombinationScheme.BIpt_scheme
  have h7 := h RecombinationScheme.BIpt2_scheme
  simp only [RecombinationScheme.name, ne_eq] at h1 h2 h3 h4 h5 h6 h7
  simp [initRecoScheme, h1, h2, h3, h4, h5, h6, h7]

end RecoLemmas

/-! ## Initialisation: results -/

section InitClaims

variable {K : Type} [LinearOrderedField K]

end InitClaims

section RecoClaims

variable {K : Type}

/-- C14: `initRecoScheme` succeeds if and only if `_jetRecoSchemeName` is exactly one of
the seven scheme names, and it then sets `_jetRecoScheme` to the scheme of that name and
changes nothing else; for every other name, the empty string and `e_scheme` among them, it
throws the unknown-recombination-scheme exception. -/
theorem C14_initRecoScheme_exact_names (u : FastJetUtil K) :
    ((∃ u', initRecoScheme u = Except.ok u') ↔
      ∃ s : RecombinationScheme, u._jetRecoSchemeName = s.name) ∧
    (∀ s : RecombinationScheme, u._jetRecoSchemeName = s.name →
      initRecoScheme u = Except.ok { u with _jetRecoScheme := s }) ∧
    ((∀ s : RecombinationScheme, u._jetRecoSchemeName ≠ s.name) →
      initRecoScheme u = Except.error unknownRecombinationScheme) ∧
    initRecoScheme { u with _jetRecoSchemeName := "" } =
      Except.error unknownRecombinationScheme ∧
    initRecoScheme { u with _jetRecoSchemeName := "e_scheme" } =
      Except.error unknownRecombinationScheme := by
  refine ⟨⟨?_, ?_⟩, initRecoScheme_of_name u, initRecoScheme_of_unknown u, ?_, ?_⟩
  · rintro ⟨u', hok⟩
    by_contra hn
    rw [initRecoScheme_of_unknown u (fun s hs => hn ⟨s, hs⟩)] at hok
    exact absurd hok (by simp)
  · rintro ⟨s, hs⟩
    exact ⟨_, initRecoScheme_of_name u s hs⟩
  · exact initRecoScheme_of_unknown _ (by intro s; cases s <;> simp [RecombinationScheme.name])
  · exact initRecoScheme_of_unknown _ (by intro s; cases s <;> simp [RecombinationScheme.name])

end RecoClaims

section ConversionExamples

theorem atoiModel_two_point_five : atoiModel "2.5" = 2 := by decide

theorem decimalParts_two_point_five : decimalParts "2.5" = some (25, 1) := by decide

theorem decimalValue_two_point_five : decimalValue "2.5" = some (5 / 2) := by
  simp [decimalValue, decimalParts_two_point_five]
  norm_num

theorem decimalValue_abc : decimalValue "abc" = none := by
  have h : decimalParts "abc" = none := by decide
  simp [decimalValue, h]

theorem decimalValue_x : decimalValue "x" = none := by
  have h : decimalParts "x" = none := by decide
  simp [decimalValue, h]

end ConversionExamples

section ModeParameterClaims

variable {K : Type} [LinearOrderedField K]

/-- C12 fails on the mode list `InclusiveIterativeNJets 2 2.5`: the numeral `2.5` has the
value 5/2, but `initClusterMode` converts it with `atoi` and sets `_minE` to 2, so that a jet
of energy 12/5, which is below the configured threshold, passes the energy filter of the
search. -/
theorem C12_minE_truncated_by_atoi :
    decimalValue "2.5" = some (5 / 2) ∧
    ∃ u', initClusterMode demoAtof atoiModel demoFractionalMinE = Except.ok u' ∧
      u'._clusterMode = EClusterMode.OWN_inclusiveIteration ∧
      u'._minE = 2 ∧
      pushAboveThreshold u'._minE [demoJet 2 (12 / 5) 0] = [demoJet 2 (12 / 5) 0] := by
  refine ⟨decimalValue_two_point_five, _,
    initClusterMode_iterative demoAtof atoiModel demoFractionalMinE "2" "2.5" rfl, rfl, ?_, ?_⟩
  · simp [atoiModel_two_point_five]
  · simp [atoiModel_two_point_five, pushAboveThreshold, demoJet]
    norm_num

/-- C13, as stated, fails on the mode lists `Inclusive abc` and `ExclusiveNJets x`, whose
parameters are no numerals: `initClusterMode` accepts both. -/
theorem C13_non_numeric_parameter_counterexample :
    decimalValue "abc" = none ∧ decimalValue "x" = none ∧
    (∃ u', initClusterMode demoAtof atoiModel
        (demoConfigured ["kt_algorithm", "0.7"] ["Inclusive", "abc"]) = Except.ok u' ∧
      u'._clusterMode = EClusterMode.FJ_inclusive) ∧
    (∃ u', initClusterMode demoAtof atoiModel
        (demoConfigured ["kt_algorithm", "0.7"] ["ExclusiveNJets", "x"]) = Except.ok u' ∧
      u'._clusterMode = EClusterMode.FJ_exclusive_nJets) :=
  ⟨decimalValue_abc, decimalValue_x,
    ⟨_, initClusterMode_inclusive demoAtof atoiModel _ "abc" rfl, rfl⟩,
    ⟨_, initClusterMode_nJets demoAtof atoiModel _ "x" rfl, rfl⟩⟩

/-- C13, as amended: every mode list accepted by `initClusterMode` has a known mode name
and the number of parameters of that mode, and a mode list of that form is accepted
whatever its parameter tokens are; the tokens are converted by `atof` and `atoi` without
being validated. -/
theorem C13_only_name_and_arity_are_checked (atof : String → K) (atoi : String → Int)
    (u : FastJetUtil K) (p q : String) :
    (∀ u', initClusterMode atof atoi u = Except.ok u' →
      AcceptedModeList u._clusterModeNameAndParam) ∧
    (∃ u', initClusterMode atof atoi { u with _clusterModeNameAndParam := ["Inclusive", p] } =
        Except.ok u' ∧
      u'._clusterMode = EClusterMode.FJ_inclusive ∧ u'._minPt = atof p) ∧
    (∃ u', initClusterMode atof atoi
        { u with _clusterModeNameAndParam := ["InclusiveIterativeNJets", p, q] } =
        Except.ok u' ∧
      u'._clusterMode = EClusterMode.OWN_inclusiveIteration ∧
      u'._requestedNumberOfJets = toUnsigned (atoi p) ∧ u'._minE = ((atoi q : Int) : K)) ∧
    (∃ u', initClusterMode atof atoi
        { u with _clusterModeNameAndParam := ["ExclusiveNJets", p] } = Except.ok u' ∧
      u'._clusterMode = EClusterMode.FJ_exclusive_nJets ∧
      u'._requestedNumberOfJets = toUnsigned (atoi p)) ∧
    (∃ u', initClusterMode atof atoi
        { u with _clusterModeNameAndParam := ["ExclusiveYCut", p] } = Except.ok u' ∧
      u'._clusterMode = EClusterMode.FJ_exclusive_yCut ∧ u'._yCut = atof p) := by
  refine ⟨?_, ⟨_, initClusterMode_inclusive atof atoi _ p rfl, rfl, rfl⟩,
    ⟨_, initClusterMode_iterative atof atoi _ p q rfl, rfl, rfl, rfl⟩,
    ⟨_, initClusterMode_nJets atof atoi _ p rfl, rfl, rfl⟩,
    ⟨_, initClusterMode_yCut atof atoi _ p rfl, rfl, rfl⟩⟩
  intro u' hok
  by_contra hn
  obtain ⟨msg, herr⟩ := initClusterMode_rejects atof atoi u hn
  rw [herr] at hok
  exact absurd hok (by simp)

end ModeParameterClaims

/-! ## The search at its loop heads -/

section LoopHeadLemmas

variable {K : Type} [LinearOrderedField K]

theorem loopHead_succ_some (M_PI_4 : K) (atof : String → K) (engine : Engine K)
    (u : FastJetUtil K) (pjList : List (PseudoJet K)) (j : Nat) (s2 : IterState K)
    (h : loopHead M_PI_4 atof engine u pjList (j + 1) = some s2) :
    ∃ s, loopHead M_PI_4 atof engine u pjList j = some s ∧
      s.iIter < ITERATIVE_INCLUSIVE_MAX_ITERATIONS ∧
      (searchBody atof engine u pjList s).2 = false ∧
      s2 = { (searchBody atof engine u pjList s).1 with
             iIter := (searchBody atof engine u pjList s).1.iIter + 1 } := by
  rw [loopHead] at h
  rcases hj : loopHead M_PI_4 atof engine u pjList j with _ | s
  · rw [hj] at h; exact absurd h (by simp)
  · rw [hj] at h
    simp only at h
    by_cases h1 : s.iIter < ITERATIVE_INCLUSIVE_MAX_ITERATIONS
    · by_cases h2 : (searchBody atof engine u pjList s).2 = true
      · rw [if_pos h1, if_pos h2] at h
        exact absurd h (by simp)
      · rw [if_pos h1, if_neg h2] at h
        exact ⟨s, rfl, h1, by simpa using h2, (Option.some.inj h).symm⟩
    · rw [if_neg h1] at h
      exact absurd h (by simp)

theorem loopHead_succ_of (M_PI_4 : K) (atof : String → K) (engine : Engine K)
    (u : FastJetUtil K) (pjList : List (PseudoJet K)) (j : Nat) (s : IterState K)
    (h : loopHead M_PI_4 atof engine u pjList j = some s)
    (hlt : s.iIter < ITERATIVE_INCLUSIVE_MAX_ITERATIONS)
    (hb : ¬ (searchBody atof engine u pjList s).2 = true) :
    loopHead M_PI_4 atof engine u pjList (j + 1) =
      some { (searchBody atof engine u pjList s).1 with
             iIter := (searchBody atof engine u pjList s).1.iIter + 1 } := by
  rw [loopHead, h]
  simp only [if_pos hlt, if_neg hb]

/-- At each test of the loop condition: the counter, the step, and how far `R` can be from
its start value. -/
theorem loopHead_spec (M_PI_4 : K) (atof : String → K) (engine : Engine K)
    (u : FastJetUtil K) (pjList : List (PseudoJet K)) :
    ∀ (j : Nat) (s : IterState K), loopHead M_PI_4 atof engine u pjList j = some s →
      s.iIter = j ∧ j ≤ ITERATIVE_INCLUSIVE_MAX_ITERATIONS ∧
      s.RDiff = M_PI_4 / 2 ^ (j + 1) ∧
      (0 ≤ M_PI_4 → |s.R - M_PI_4| ≤ M_PI_4 - 2 * s.RDiff) := by
  intro j
  induction j with
  | zero =>
    intro s h
    rw [loopHead] at h
    obtain rfl := Option.some.inj h
    refine ⟨rfl, Nat.zero_le _, by simp [searchStart], fun _ => ?_⟩
    have h2 : 2 * (M_PI_4 / 2) = M_PI_4 := by ring
    simp [searchStart, h2]
  | succ j ih =>
    intro s2 h
    obtain ⟨s, hs, hlt, hb, rfl⟩ := loopHead_succ_some M_PI_4 atof engine u pjList j s2 h
    obtain ⟨hi, -, hD, hR⟩ := ih s hs
    obtain ⟨-, -, hit, -, -, -, hmove⟩ := searchBody_spec atof engine u pjList s
    obtain ⟨hR1, hD1⟩ := hmove hb
    refine ⟨by simp only [hit, hi], by omega, ?_, fun hpos => ?_⟩
    · simp only [hD1, hD, pow_succ]
      field_simp
    · simp only [hR1, hD1]
      have hd0 : 0 ≤ s.RDiff := by
        rw [hD]; positivity
      have h1 := hR hpos
      have hsign : |stepSign u._requestedNumberOfJets
          (survivorsAt atof engine u pjList s.R).length * s.RDiff| ≤ s.RDiff := by
        unfold stepSign
        split_ifs <;> simp [abs_of_nonneg hd0, hd0]
      have habs := abs_add (s.R - M_PI_4) (stepSign u._requestedNumberOfJets
          (survivorsAt atof engine u pjList s.R).length * s.RDiff)
      have heq : s.R + stepSign u._requestedNumberOfJets
          (survivorsAt atof engine u pjList s.R).length * s.RDiff - M_PI_4 =
          (s.R - M_PI_4) + stepSign u._requestedNumberOfJets
          (survivorsAt atof engine u pjList s.R).length * s.RDiff := by ring
      rw [heq]
      linarith

/-- Every state `loopHead j` is a state the loop of the search passes through. -/
theorem loopHead_reaches_end (M_PI_4 : K) (atof : String → K) (engine : Engine K)
    (u : FastJetUtil K) (pjList : List (PseudoJet K)) :
    ∀ (j : Nat) (s : IterState K), loopHead M_PI_4 atof engine u pjList j = some s →
      searchLoop atof engine u pjList (ITERATIVE_INCLUSIVE_MAX_ITERATIONS - j) s =
        searchEnd M_PI_4 atof engine u pjList := by
  intro j
  induction j with
  | zero =>
    intro s h
    rw [loopHead] at h
    obtain rfl := Option.some.inj h
    exact (searchEnd_eq M_PI_4 atof engine u pjList).symm
  | succ j ih =>
    intro s2 h
    obtain ⟨s, hs, hlt, hb, rfl⟩ := loopHead_succ_some M_PI_4 atof engine u pjList j s2 h
    obtain ⟨hi, -, -, -⟩ := loopHead_spec M_PI_4 atof engine u pjList j s hs
    have hfuel : ITERATIVE_INCLUSIVE_MAX_ITERATIONS - j =
        (ITERATIVE_INCLUSIVE_MAX_ITERATIONS - (j + 1)) + 1 := by omega
    have := ih s hs
    rw [hfuel, searchLoop_succ, if_pos hlt, if_neg (by simp [hb])] at this
    exact this

/-- Every radius logged by the search, and the radius it ends with, is the radius of a
state `loopHead j`. -/
theorem searchLoop_radii_from_heads (M_PI_4 : K) (atof : String → K) (engine : Engine K)
    (u : FastJetUtil K) (pjList : List (PseudoJet K)) :
    ∀ (fuel j : Nat) (s : IterState K), loopHead M_PI_4 atof engine u pjList j = some s →
      j + fuel = ITERATIVE_INCLUSIVE_MAX_ITERATIONS →
      (∀ l ∈ (searchLoop atof engine u pjList fuel s).debug, l ∈ s.debug ∨
        ∃ j' s', loopHead M_PI_4 atof engine u pjList j' = some s' ∧ l.R = s'.R) ∧
      ∃ j' s', loopHead M_PI_4 atof engine u pjList j' = some s' ∧
        (searchLoop atof engine u pjList fuel s).R = s'.R := by
  intro fuel
  induction fuel with
  | zero =>
    intro j s h _
    exact ⟨fun l hl => Or.inl hl, j, s, h, rfl⟩
  | succ fuel ih =>
    intro j s h hj
    obtain ⟨hi, -, -, -⟩ := loopHead_spec M_PI_4 atof engine u pjList j s h
    have hlt : s.iIter < ITERATIVE_INCLUSIVE_MAX_ITERATIONS := by omega
    obtain ⟨hdbg, -, -, -, -, hstay, -⟩ := searchBody_spec atof engine u pjList s
    rw [searchLoop_succ, if_pos hlt]
    by_cases hb : (searchBody atof engine u pjList s).2 = true
    · rw [if_pos hb]
      refine ⟨fun l hl => ?_, j, s, h, (hstay hb).1⟩
      rw [hdbg] at hl
      rcases List.mem_append.mp hl with hl | hl
      · exact Or.inl hl
      · refine Or.inr ⟨j, s, h, ?_⟩
        rw [List.mem_singleton.mp hl]
        rfl
    · rw [if_neg hb]
      have hnext := loopHead_succ_of M_PI_4 atof engine u pjList j s h hlt hb
      obtain ⟨hall, hend⟩ := ih (j + 1) _ hnext (by omega)
      refine ⟨fun l hl => ?_, hend⟩
      rcases hall l hl with hl | hl
      · simp only [hdbg] at hl
        rcases List.mem_append.mp hl with hl | hl
        · exact Or.inl hl
        · refine Or.inr ⟨j, s, h, ?_⟩
          rw [List.mem_singleton.mp hl]
          rfl
      · exact Or.inr hl

end LoopHeadLemmas

section RunHeadLemmas

variable {K : Type} [LinearOrderedField K]

theorem loopHead_debug_length (M_PI_4 : K) (atof : String → K) (engine : Engine K)
    (u : FastJetUtil K) (pjList : List (PseudoJet K)) :
    ∀ (j : Nat) (s : IterState K), loopHead M_PI_4 atof engine u pjList j = some s →
      s.debug.length = j := by
  intro j
  induction j with
  | zero =>
    intro s h
    rw [loopHead] at h
    obtain rfl := Option.some.inj h
    rfl
  | succ j ih =>
    intro s2 h
    obtain ⟨s, hs, -, -, rfl⟩ := loopHead_succ_some M_PI_4 atof engine u pjList j s2 h
    obtain ⟨hdbg, -⟩ := searchBody_spec atof engine u pjList s
    simp only [hdbg, List.length_append, ih s hs, List.length_singleton]

/-- The pass started from a loop head is a pass of the run: the DEBUG lines of the whole
search begin with those written before the head, followed by the line of this pass. -/
theorem loopHead_line_of_run (M_PI_4 : K) (atof : String → K) (engine : Engine K)
    (u : FastJetUtil K) (pjList : List (PseudoJet K)) (j : Nat) (s : IterState K)
    (h : loopHead M_PI_4 atof engine u pjList j = some s)
    (hj : j < ITERATIVE_INCLUSIVE_MAX_ITERATIONS) :
    ∃ rest, (searchEnd M_PI_4 atof engine u pjList).debug =
      s.debug ++ debugLineAt atof engine u pjList (j + 1) s.R :: rest := by
  obtain ⟨hi, -, -, -⟩ := loopHead_spec M_PI_4 atof engine u pjList j s h
  have hend := loopHead_reaches_end M_PI_4 atof engine u pjList j s h
  obtain ⟨f, hf⟩ : ∃ f, ITERATIVE_INCLUSIVE_MAX_ITERATIONS - j = f + 1 :=
    ⟨ITERATIVE_INCLUSIVE_MAX_ITERATIONS - j - 1, by omega⟩
  obtain ⟨hdbg, -, hit, -⟩ := searchBody_spec atof engine u pjList s
  rw [hi] at hdbg
  rw [hf, searchLoop_succ, if_pos (by omega)] at hend
  by_cases hb : (searchBody atof engine u pjList s).2 = true
  · rw [if_pos hb] at hend
    exact ⟨[], by rw [← hend, hdbg]⟩
  · rw [if_neg hb] at hend
    obtain ⟨lines, hl, -⟩ := searchLoop_spec atof engine u pjList f
      { (searchBody atof engine u pjList s).1 with
        iIter := (searchBody atof engine u pjList s).1.iIter + 1 }
      (by simp only [hit]; omega) (by simp only [hit]; omega)
    refine ⟨lines, ?_⟩
    rw [← hend, hl]
    simp only [hdbg, List.append_assoc, List.singleton_append]

/-- Every DEBUG line of the search was written by a pass started from a loop head. -/
theorem searchLoop_heads_of_lines (M_PI_4 : K) (atof : String → K) (engine : Engine K)
    (u : FastJetUtil K) (pjList : List (PseudoJet K)) :
    ∀ (fuel j : Nat) (s : IterState K), loopHead M_PI_4 atof engine u pjList j = some s →
      ITERATIVE_INCLUSIVE_MAX_ITERATIONS ≤ j + fuel →
      ∀ i, j < i → i ≤ (searchLoop atof engine u pjList fuel s).debug.length →
        i ≤ ITERATIVE_INCLUSIVE_MAX_ITERATIONS ∧
        (loopHead M_PI_4 atof engine u pjList (i - 1)).isSome = true := by
  intro fuel
  induction fuel with
  | zero =>
    intro j s h _ i hji hi
    rw [searchLoop_zero, loopHead_debug_length M_PI_4 atof engine u pjList j s h] at hi
    omega
  | succ fuel ih =>
    intro j s h hfuel i hji hi
    obtain ⟨hit, hj20, -, -⟩ := loopHead_spec M_PI_4 atof engine u pjList j s h
    have hlen := loopHead_debug_length M_PI_4 atof engine u pjList j s h
    rw [searchLoop_succ] at hi
    by_cases hlt : s.iIter < ITERATIVE_INCLUSIVE_MAX_ITERATIONS
    · rw [if_pos hlt] at hi
      obtain ⟨hdbg, -⟩ := searchBody_spec atof engine u pjList s
      have hhead : i = j + 1 → i ≤ ITERATIVE_INCLUSIVE_MAX_ITERATIONS ∧
          (loopHead M_PI_4 atof engine u pjList (i - 1)).isSome = true := by
        intro hij
        subst hij
        refine ⟨by omega, ?_⟩
        rw [Nat.add_sub_cancel, h]
        rfl
      by_cases hb : (searchBody atof engine u pjList s).2 = true
      · rw [if_pos hb, hdbg, List.length_append, hlen, List.length_singleton] at hi
        exact hhead (by omega)
      · rw [if_neg hb] at hi
        by_cases hij : i = j + 1
        · exact hhead hij
        · exact ih (j + 1) _ (loopHead_succ_of M_PI_4 atof engine u pjList j s h hlt hb)
            (by omega) i (by omega) hi
    · rw [if_neg hlt, hlen] at hi
      omega

/-- The step when the loop is left, from the counter when the loop is left. -/
theorem searchLoop_final_step (M_PI_4 : K) (atof : String → K) (engine : Engine K)
    (u : FastJetUtil K) (pjList : List (PseudoJet K)) :
    ∀ (fuel j : Nat) (s : IterState K), loopHead M_PI_4 atof engine u pjList j = some s →
      (searchLoop atof engine u pjList fuel s).RDiff =
        M_PI_4 / 2 ^ ((searchLoop atof engine u pjList fuel s).iIter + 1) := by
  intro fuel
  induction fuel with
  | zero =>
    intro j s h
    obtain ⟨hit, -, hD, -⟩ := loopHead_spec M_PI_4 atof engine u pjList j s h
    rw [searchLoop_zero, hD, hit]
  | succ fuel ih =>
    intro j s h
    obtain ⟨hit, -, hD, -⟩ := loopHead_spec M_PI_4 atof engine u pjList j s h
    rw [searchLoop_succ]
    by_cases hlt : s.iIter < ITERATIVE_INCLUSIVE_MAX_ITERATIONS
    · rw [if_pos hlt]
      obtain ⟨-, -, hi1, -, -, hstay, -⟩ := searchBody_spec atof engine u pjList s
      by_cases hb : (searchBody atof engine u pjList s).2 = true
      · rw [if_pos hb, (hstay hb).2, hi1, hD, hit]
      · rw [if_neg hb]
        exact ih (j + 1) _ (loopHead_succ_of M_PI_4 atof engine u pjList j s h hlt hb)
    · rw [if_neg hlt, hD, hit]

end RunHeadLemmas

section StepAndRadiusClaims

variable {K : Type} [LinearOrderedField K]

theorem loopHead_radius_bound (M_PI_4 : K) (atof : String → K) (engine : Engine K)
    (u : FastJetUtil K) (pjList : List (PseudoJet K)) (hpos : 0 < M_PI_4) (j : Nat)
    (s : IterState K) (h : loopHead M_PI_4 atof engine u pjList j = some s) :
    0 < s.R ∧ s.R ≤ 2 * M_PI_4 := by
  obtain ⟨-, -, hD, hR⟩ := loopHead_spec M_PI_4 atof engine u pjList j s h
  have hd : 0 < s.RDiff := by rw [hD]; positivity
  have habs := abs_le.mp (hR (le_of_lt hpos))
  constructor <;> linarith [habs.1, habs.2]

/-- C15: the step-size law.  Let `s` be the locals at the start of iteration `i` (between 1
and 20): the loop condition is tested an `i`-th time after `i - 1` passes that did not
break.  Then `s.RDiff = M_PI_4 / 2^i` and `s.iIter = i - 1`, for every engine and whatever
directions the earlier iterations took.  This `s` is the state from which the call of
`doIterativeInclusiveClustering` makes its `i`-th iteration: the DEBUG lines of the call
begin with the `i - 1` lines written before `s`, its `i`-th line logs `s.iIter` and `s.R`,
and its `i`-th engine run is at `s.R`.  Conversely every DEBUG line of the call is that of
an iteration started from such a state with step `M_PI_4 / 2^i`; and when the loop is left
with counter `iIter`, the step is `M_PI_4 / 2^(iIter + 1)`. -/
theorem C15_step_size_law (M_PI_4 : K) (atof : String → K) (engine : Engine K)
    (u : FastJetUtil K) (pjList : List (PseudoJet K)) (i : Nat) (s : IterState K)
    (hi1 : 1 ≤ i) (hi20 : i ≤ 20)
    (h : loopHead M_PI_4 atof engine u pjList (i - 1) = some s) :
    s.RDiff = M_PI_4 / 2 ^ i ∧ s.iIter + 1 = i ∧
      s.iIter < ITERATIVE_INCLUSIVE_MAX_ITERATIONS ∧
      searchLoop atof engine u pjList (ITERATIVE_INCLUSIVE_MAX_ITERATIONS - (i - 1)) s =
        searchEnd M_PI_4 atof engine u pjList ∧
      i ≤ (searchEnd M_PI_4 atof engine u pjList).debug.length ∧
      (searchEnd M_PI_4 atof engine u pjList).debug.take (i - 1) = s.debug ∧
      (searchEnd M_PI_4 atof engine u pjList).debug[i - 1]? =
        some (DebugLine.mk s.iIter s.R (inclusiveJetsAt atof engine u pjList s.R).length
          (survivorsAt atof engine u pjList s.R).length) ∧
      (engineRunEvents (searchTrace M_PI_4 atof engine u pjList))[i - 1]? =
        some (Event.clusterSequence pjList (definitionAtRadius atof u s.R)) ∧
      (∀ i', 1 ≤ i' → i' ≤ (searchEnd M_PI_4 atof engine u pjList).debug.length →
        i' ≤ 20 ∧ ∃ s', loopHead M_PI_4 atof engine u pjList (i' - 1) = some s' ∧
          s'.RDiff = M_PI_4 / 2 ^ i' ∧
          (searchEnd M_PI_4 atof engine u pjList).debug[i' - 1]? =
            some (DebugLine.mk s'.iIter s'.R (inclusiveJetsAt atof engine u pjList s'.R).length
              (survivorsAt atof engine u pjList s'.R).length)) ∧
      (searchEnd M_PI_4 atof engine u pjList).RDiff =
        M_PI_4 / 2 ^ ((searchEnd M_PI_4 atof engine u pjList).iIter + 1) := by
  have hline : ∀ (j : Nat) (t : IterState K),
      loopHead M_PI_4 atof engine u pjList j = some t → j < ITERATIVE_INCLUSIVE_MAX_ITERATIONS →
      j + 1 ≤ (searchEnd M_PI_4 atof engine u pjList).debug.length ∧
      (searchEnd M_PI_4 atof engine u pjList).debug.take j = t.debug ∧
      (searchEnd M_PI_4 atof engine u pjList).debug[j]? =
        some (DebugLine.mk t.iIter t.R (inclusiveJetsAt atof engine u pjList t.R).length
          (survivorsAt atof engine u pjList t.R).length) := by
    intro j t ht hj
    obtain ⟨rest, hrest⟩ := loopHead_line_of_run M_PI_4 atof engine u pjList j t ht hj
    have hlen := loopHead_debug_length M_PI_4 atof engine u pjList j t ht
    obtain ⟨hit, -⟩ := loopHead_spec M_PI_4 atof engine u pjList j t ht
    rw [hrest]
    refine ⟨by simp [hlen], ?_, ?_⟩
    · rw [← hlen]; simp
    · rw [List.getElem?_append_right (by omega), hlen]
      simp [debugLineAt, hit]
  obtain ⟨h1, -, h3, -⟩ := loopHead_spec M_PI_4 atof engine u pjList (i - 1) s h
  have hi : i - 1 + 1 = i := by omega
  rw [hi] at h3
  obtain ⟨l1, l2, l3⟩ := hline (i - 1) s h (by simp only [ITERATIVE_INCLUSIVE_MAX_ITERATIONS]; omega)
  rw [hi] at l1
  refine ⟨h3, by omega, by simp only [ITERATIVE_INCLUSIVE_MAX_ITERATIONS]; omega,
    loopHead_reaches_end M_PI_4 atof engine u pjList (i - 1) s h, l1, l2, l3, ?_, ?_, ?_⟩
  · rw [engineRuns_searchTrace, (searchEnd_spec M_PI_4 atof engine u pjList).1,
      List.getElem?_map, l3]
    rfl
  · intro i' hi' hlen'
    obtain ⟨hle, hsome⟩ := searchLoop_heads_of_lines M_PI_4 atof engine u pjList
      ITERATIVE_INCLUSIVE_MAX_ITERATIONS 0 (searchStart M_PI_4) rfl (by omega) i' (by omega)
      (by rw [← searchEnd_eq M_PI_4]; exact hlen')
    obtain ⟨s', hs'⟩ := Option.isSome_iff_exists.mp hsome
    obtain ⟨-, -, hD', -⟩ := loopHead_spec M_PI_4 atof engine u pjList (i' - 1) s' hs'
    have hi'' : i' - 1 + 1 = i' := by omega
    rw [hi''] at hD'
    exact ⟨hle, s', hs', hD', (hline (i' - 1) s' hs' (by omega)).2.2⟩
  · rw [searchEnd_eq]
    exact searchLoop_final_step M_PI_4 atof engine u pjList ITERATIVE_INCLUSIVE_MAX_ITERATIONS 0
      (searchStart M_PI_4) rfl

/-- C16: with `M_PI_4` positive, the radius stays in the interval from 0 (excluded) to
`pi/2 = 2 * M_PI_4`: at every test of the loop condition, hence after every update, the
20th included; in every DEBUG line; in every engine run; and when the search ends. -/
theorem C16_radius_stays_in_range (M_PI_4 : K) (atof : String → K) (engine : Engine K)
    (u : FastJetUtil K) (pjList : List (PseudoJet K)) (hpos : 0 < M_PI_4) :
    (∀ j s, loopHead M_PI_4 atof engine u pjList j = some s → 0 < s.R ∧ s.R ≤ 2 * M_PI_4) ∧
    (∀ l ∈ (searchEnd M_PI_4 atof engine u pjList).debug, 0 < l.R ∧ l.R ≤ 2 * M_PI_4) ∧
    (∀ e ∈ engineRunEvents (searchTrace M_PI_4 atof engine u pjList),
      ∃ R, e = Event.clusterSequence pjList (definitionAtRadius atof u R) ∧
        0 < R ∧ R ≤ 2 * M_PI_4) ∧
    (0 < (searchEnd M_PI_4 atof engine u pjList).R ∧
      (searchEnd M_PI_4 atof engine u pjList).R ≤ 2 * M_PI_4) := by
  obtain ⟨hlines, j', s', hs', hend⟩ := searchLoop_radii_from_heads M_PI_4 atof engine u pjList
    ITERATIVE_INCLUSIVE_MAX_ITERATIONS 0 (searchStart M_PI_4) rfl (by omega)
  rw [← searchEnd_eq M_PI_4] at hlines hend
  have hdebug : ∀ l ∈ (searchEnd M_PI_4 atof engine u pjList).debug,
      0 < l.R ∧ l.R ≤ 2 * M_PI_4 := by
    intro l hl
    rcases hlines l hl with hl | ⟨j, s, hs, hR⟩
    · simp [searchStart] at hl
    · rw [hR]
      exact loopHead_radius_bound M_PI_4 atof engine u pjList hpos j s hs
  refine ⟨fun j s h => loopHead_radius_bound M_PI_4 atof engine u pjList hpos j s h, hdebug,
    ?_, ?_⟩
  · intro e he
    rw [engineRuns_searchTrace, (searchEnd_spec M_PI_4 atof engine u pjList).1] at he
    obtain ⟨l, hl, rfl⟩ := List.mem_map.mp he
    exact ⟨l.R, rfl, hdebug l hl⟩
  · rw [hend]
    exact loopHead_radius_bound M_PI_4 atof engine u pjList hpos j' s' hs'

end StepAndRadiusClaims

section StepAndRadiusWitnesses

theorem scenarioC_third_head :
    ∃ s, loopHead demo_M_PI_4 demoAtof demoEngine scenarioC demoEvent 2 = some s ∧
      s.R = 3 * demo_M_PI_4 / 4 := by
  simp [loopHead, searchBody, iterationBody, newIterationDefinition, searchStart,
    overlapThreshold, scenarioC, demoConfigured, demoEngine, demoRadius, demo_M_PI_4,
    ITERATIVE_INCLUSIVE_MAX_ITERATIONS, pushAboveThreshold, demoJet]
  norm_num

theorem demo_M_PI_4_pos : 0 < demo_M_PI_4 := by
  norm_num [demo_M_PI_4]

/-- C15, on scenario C: the third iteration starts from radius `3 pi / 16` with the step
`M_PI_4 / 8`, and the third DEBUG line and the third engine run of the call are those of
this iteration. -/
theorem C15_step_size_law_witness :
    ∃ s, loopHead demo_M_PI_4 demoAtof demoEngine scenarioC demoEvent (3 - 1) = some s ∧
      s.R = 3 * demo_M_PI_4 / 4 ∧
      s.RDiff = demo_M_PI_4 / 2 ^ 3 ∧ s.iIter + 1 = 3 ∧
      3 ≤ (searchEnd demo_M_PI_4 demoAtof demoEngine scenarioC demoEvent).debug.length ∧
      (searchEnd demo_M_PI_4 demoAtof demoEngine scenarioC demoEvent).debug[3 - 1]? =
        some (DebugLine.mk s.iIter s.R
          (inclusiveJetsAt demoAtof demoEngine scenarioC demoEvent s.R).length
          (survivorsAt demoAtof demoEngine scenarioC demoEvent s.R).length) ∧
      (engineRunEvents (searchTrace demo_M_PI_4 demoAtof demoEngine scenarioC demoEvent))[3 - 1]? =
        some (Event.clusterSequence demoEvent (definitionAtRadius demoAtof scenarioC s.R)) := by
  obtain ⟨s, hs, hR⟩ := scenarioC_third_head
  have h := C15_step_size_law demo_M_PI_4 demoAtof demoEngine scenarioC demoEvent 3 s
    (by decide) (by decide) hs
  exact ⟨s, hs, hR, h.1, h.2.1, h.2.2.2.2.1, h.2.2.2.2.2.2.1, h.2.2.2.2.2.2.2.1⟩

/-- C16, on scenario C with the value of the constant `M_PI_4`. -/
theorem C16_radius_stays_in_range_witness :
    0 < demo_M_PI_4 ∧
    (∀ l ∈ (searchEnd demo_M_PI_4 demoAtof demoEngine scenarioC demoEvent).debug,
      0 < l.R ∧ l.R ≤ 2 * demo_M_PI_4) ∧
    (0 < (searchEnd demo_M_PI_4 demoAtof demoEngine scenarioC demoEvent).R ∧
      (searchEnd demo_M_PI_4 demoAtof demoEngine scenarioC demoEvent).R ≤ 2 * demo_M_PI_4) :=
  ⟨demo_M_PI_4_pos,
    (C16_radius_stays_in_range demo_M_PI_4 demoAtof demoEngine scenarioC demoEvent
      demo_M_PI_4_pos).2.1,
    (C16_radius_stays_in_range demo_M_PI_4 demoAtof demoEngine scenarioC demoEvent
      demo_M_PI_4_pos).2.2.2⟩

end StepAndRadiusWitnesses

/-! ## The jet definition of an iteration -/

section DefinitionLemmas

variable {K : Type}

/-- The families with the mode `OWN_inclusiveIteration` other than `genkt_algorithm`: the
definition of an iteration is the one built by `initJetAlgo` with the radius replaced. -/
theorem iteration_definition_of_family (mv : EClusterMode → Nat) (atof : String → K)
    (u u' : FastJetUtil K) (f : Family) (ps : List String)
    (h : u._jetAlgoNameAndParams = f.name :: ps)
    (hmode : EClusterMode.OWN_inclusiveIteration ∈ f.supportedModes)
    (hf : f ≠ Family.genkt_algorithm)
    (hok : initJetAlgo mv atof u = Except.ok u') :
    ∃ jd, u'._jetAlgo = some jd ∧ jd.family = f ∧
      ∀ R, definitionAtRadius atof u' R = jd.withRadius R := by
  have c0 : ((ps.length : Int) = 0) ↔ ps.length = 0 := by omega
  have c1 : ((ps.length : Int) = 1) ↔ ps.length = 1 := by omega
  have c2 : ((ps.length : Int) = 2) ↔ ps.length = 2 := by omega
  have c3 : ((ps.length : Int) = 3) ↔ ps.length = 3 := by omega
  by_cases hlen : ps.length = f.nrParams
  · by_cases hmask : f.modeMask mv &&& mv u._clusterMode = mv u._clusterMode
    · rcases ps with _ | ⟨p1, _ | ⟨p2, _ | ⟨p3, _ | ⟨p4, ps⟩⟩⟩⟩ <;>
      cases f <;>
        simp [Family.nrParams] at hlen <;>
        simp [Family.supportedModes] at hmode <;>
        simp at hf <;>
        simp [Family.modeMask, Family.supportedModes] at hmask <;>
        simp [initJetAlgo, h, Family.name, ifJetAlgo_of_ne, ifJetAlgo_of_eq, bind,
          Except.bind, hmask, setAlgoWithR, checkJetAlgo, algoParam] at hok <;>
        subst hok <;>
        simp [definitionAtRadius, JetDefinition.withRadius, JetDefinition.family,
          JetAlgorithm.family, h]
    · rw [(initJetAlgo_family mv atof u f ps h).2.1 hlen hmask] at hok
      exact absurd hok (by simp)
  · rw [(initJetAlgo_family mv atof u f ps h).1 hlen] at hok
    exact absurd hok (by simp)

end DefinitionLemmas

section SearchRunsLemmas

variable {K : Type} [LinearOrderedField K]

/-- The search runs the engine at least once. -/
theorem engineRunEvents_searchTrace_ne_nil (M_PI_4 : K) (atof : String → K)
    (engine : Engine K) (u : FastJetUtil K) (pjList : List (PseudoJet K)) :
    engineRunEvents (searchTrace M_PI_4 atof engine u pjList) ≠ [] := by
  rw [engineRuns_searchTrace, (searchEnd_spec M_PI_4 atof engine u pjList).1]
  intro hnil
  have hlen : (searchEnd M_PI_4 atof engine u pjList).debug.length = 0 := by
    have := congrArg List.length hnil
    simpa using this
  rcases (searchEnd_spec M_PI_4 atof engine u pjList).2.2 with ⟨-, e2, -⟩ | ⟨-, e2, -⟩
  · rw [hlen] at e2
    exact absurd e2 (by decide)
  · rw [hlen] at e2
    exact absurd e2 (by omega)

theorem searchTrace_ne_nil (M_PI_4 : K) (atof : String → K) (engine : Engine K)
    (u : FastJetUtil K) (pjList : List (PseudoJet K)) :
    searchTrace M_PI_4 atof engine u pjList ≠ [] := by
  intro h
  have := engineRunEvents_searchTrace_ne_nil M_PI_4 atof engine u pjList
  rw [h] at this
  exact this rfl

end SearchRunsLemmas

section DefinitionClaims

theorem demoGenkt_init :
    init flagValue demoAtof atoiModel demoGenkt =
      Except.ok { demoGenkt with
        _strategyName := "Best",
        _clusterModeName := "InclusiveIterativeNJets",
        _clusterMode := EClusterMode.OWN_inclusiveIteration,
        _requestedNumberOfJets := 2, _minE := 5,
        _jetAlgoName := "genkt_algorithm",
        _jetAlgoType := JetAlgorithm.genkt_algorithm,
        _jetAlgo := some (JetDefinition.withRXtra JetAlgorithm.genkt_algorithm (7 / 10) 10
          RecombinationScheme.E_scheme Strategy.Best) } := by
  have h2 : atoiModel "2" = 2 := by decide
  have h5 : atoiModel "5.0" = 5 := by decide
  have hu : toUnsigned 2 = 2 := by decide
  have hb : (15 &&& 8 : Nat) = 8 := by decide
  simp [init, initStrategy, initRecoScheme, initClusterMode, demoGenkt, demoConfigured, h2, h5,
    hu, hb, bind, Except.bind, initJetAlgo, ifJetAlgo_of_ne, ifJetAlgo_of_eq, flagValue,
    checkJetAlgo, algoParam, demoAtof]

/-- C17 fails on `genkt_algorithm 0.7 10.0` with mode `InclusiveIterativeNJets 2 5.0`:
`initJetAlgo` builds `JetDefinition(genkt_algorithm, 0.7, 10.0, E_scheme, Best)`, but
every iteration of the search runs the engine with
`JetDefinition(genkt_algorithm, R, E_scheme, Best)`, which has no second parameter and is
not the configured definition with its radius replaced. -/
theorem C17_genkt_second_parameter_dropped :
    ∃ u', init flagValue demoAtof atoiModel demoGenkt = Except.ok u' ∧
      u'._jetAlgo = some (JetDefinition.withRXtra JetAlgorithm.genkt_algorithm (7 / 10) 10
        RecombinationScheme.E_scheme Strategy.Best) ∧
      engineRunEvents (searchTrace demo_M_PI_4 demoAtof demoEngine u' demoEvent) ≠ [] ∧
      ∀ e ∈ engineRunEvents (searchTrace demo_M_PI_4 demoAtof demoEngine u' demoEvent),
        ∃ R, e = Event.clusterSequence demoEvent
            (JetDefinition.withR JetAlgorithm.genkt_algorithm R RecombinationScheme.E_scheme
              Strategy.Best) ∧
          (JetDefinition.withR JetAlgorithm.genkt_algorithm R RecombinationScheme.E_scheme
              Strategy.Best).params = [R] ∧
          JetDefinition.withR JetAlgorithm.genkt_algorithm R RecombinationScheme.E_scheme
              Strategy.Best ≠
            (JetDefinition.withRXtra JetAlgorithm.genkt_algorithm (7 / 10) 10
              RecombinationScheme.E_scheme Strategy.Best).withRadius R := by
  refine ⟨_, demoGenkt_init, rfl, ?_, ?_⟩
  · exact engineRunEvents_searchTrace_ne_nil _ _ _ _ _
  · intro e he
    rw [engineRuns_searchTrace, (searchEnd_spec _ _ _ _ _).1] at he
    obtain ⟨l, -, rfl⟩ := List.mem_map.mp he
    refine ⟨l.R, ?_, rfl, by simp [JetDefinition.withRadius]⟩
    simp [engineRunAt, definitionAtRadius, demoGenkt, demoConfigured]

end DefinitionClaims

/-! ## Allocation and release in the search -/

section HeapLemmas

variable {K : Type} [LinearOrderedField K]

theorem liveObjects_append (a b : List (Event K)) :
    liveObjects (a ++ b) = b.foldl heapStep (liveObjects a) := by
  simp [liveObjects, List.foldl_append]

/-- One pass through the loop body, started with nothing live: a pass that does not break
deletes what it allocated; a pass that breaks leaves its jet definition allocated. -/
theorem iterationBody_heap (engine : Engine K) (u : FastJetUtil K)
    (pjList : List (PseudoJet K)) (a b : Bool) (t : K) (s : IterState K)
    (hlive : liveObjects s.trace = []) (h1 : s.pluginSisCone = none)
    (h2 : s.pluginSisConeSph = none) :
    ((iterationBody engine u pjList a b t s).2 = false →
      liveObjects (iterationBody engine u pjList a b t s).1.trace = [] ∧
      (iterationBody engine u pjList a b t s).1.pluginSisCone = none ∧
      (iterationBody engine u pjList a b t s).1.pluginSisConeSph = none) ∧
    ((iterationBody engine u pjList a b t s).2 = true →
      HeapObject.jetDefinition (newIterationDefinition u a b t s).2 ∈
        liveObjects (iterationBody engine u pjList a b t s).1.trace) ∧
    (iterationBody engine u pjList a b t s).1.iIter = s.iIter := by
  unfold iterationBody newIterationDefinition
  cases a <;> cases b <;> dsimp only <;> split_ifs <;>
    simp [liveObjects_append, hlive, heapStep, deletePluginEvents, h1, h2]

/-- The loop, started at a loop head with nothing live: when it runs out of iterations
nothing is live, and when it is left by `break` the jet definition of the breaking pass is
still allocated. -/
theorem iterationLoop_heap (engine : Engine K) (u : FastJetUtil K)
    (pjList : List (PseudoJet K)) (a b : Bool) (t : K) :
    ∀ (fuel : Nat) (s : IterState K),
      liveObjects s.trace = [] → s.pluginSisCone = none → s.pluginSisConeSph = none →
      ITERATIVE_INCLUSIVE_MAX_ITERATIONS ≤ s.iIter + fuel →
      s.iIter ≤ ITERATIVE_INCLUSIVE_MAX_ITERATIONS →
      ((iterationLoop engine u pjList a b t fuel s).iIter = ITERATIVE_INCLUSIVE_MAX_ITERATIONS →
        liveObjects (iterationLoop engine u pjList a b t fuel s).trace = []) ∧
      ((iterationLoop engine u pjList a b t fuel s).iIter ≠ ITERATIVE_INCLUSIVE_MAX_ITERATIONS →
        ∃ s1 : IterState K, HeapObject.jetDefinition (newIterationDefinition u a b t s1).2 ∈
          liveObjects (iterationLoop engine u pjList a b t fuel s).trace) := by
  intro fuel
  induction fuel with
  | zero =>
    intro s hlive _ _ hfuel hle
    have : s.iIter = ITERATIVE_INCLUSIVE_MAX_ITERATIONS := by omega
    simp [iterationLoop, this, hlive]
  | succ fuel ih =>
    intro s hlive h1 h2 hfuel hle
    obtain ⟨hA, hB, hC⟩ := iterationBody_heap engine u pjList a b t s hlive h1 h2
    rw [iterationLoop]
    by_cases hlt : s.iIter < ITERATIVE_INCLUSIVE_MAX_ITERATIONS
    · rw [if_pos hlt]
      rcases hb : iterationBody engine u pjList a b t s with ⟨s1, br⟩
      rw [hb] at hA hB hC
      cases br
      · obtain ⟨e1, e2, e3⟩ := hA rfl
        exact ih { s1 with iIter := s1.iIter + 1 } e1 e2 e3
          (by simp at hC ⊢; omega) (by simp at hC ⊢; omega)
      · simp only at hC ⊢
        refine ⟨fun h => ?_, fun _ => ⟨s, hB rfl⟩⟩
        omega
    · rw [if_neg hlt]
      have : s.iIter = ITERATIVE_INCLUSIVE_MAX_ITERATIONS := by omega
      simp [this, hlive]

/-- The heap after a call of `doIterativeInclusiveClustering`: empty when the call throws,
and holding the jet definition of the last iteration when the call returns. -/
theorem searchTrace_heap (M_PI_4 : K) (atof : String → K) (engine : Engine K)
    (u : FastJetUtil K) (pjList : List (PseudoJet K)) :
    (doIterativeInclusiveClustering M_PI_4 atof engine u pjList =
        Except.error Error.SkippedFixedNrJetException →
      liveObjects (searchTrace M_PI_4 atof engine u pjList) = []) ∧
    (∀ jets, doIterativeInclusiveClustering M_PI_4 atof engine u pjList = Except.ok jets →
      ∃ R : K, HeapObject.jetDefinition (definitionAtRadius atof u R) ∈
        liveObjects (searchTrace M_PI_4 atof engine u pjList)) := by
  obtain ⟨hA, hB⟩ := iterationLoop_heap engine u pjList (u._jetAlgoName == "SISConePlugin")
    (u._jetAlgoName == "SISConeSphericalPlugin") (overlapThreshold atof u)
    ITERATIVE_INCLUSIVE_MAX_ITERATIONS (searchStart M_PI_4) rfl rfl rfl
    (by simp [searchStart]) (by simp [searchStart])
  unfold doIterativeInclusiveClustering searchTrace
  dsimp only
  unfold searchEnd
  by_cases h : (iterationLoop engine u pjList (u._jetAlgoName == "SISConePlugin")
    (u._jetAlgoName == "SISConeSphericalPlugin") (overlapThreshold atof u)
    ITERATIVE_INCLUSIVE_MAX_ITERATIONS (searchStart M_PI_4)).iIter =
      ITERATIVE_INCLUSIVE_MAX_ITERATIONS
  · rw [if_pos h, if_pos h]
    refine ⟨fun _ => ?_, fun jets hj => by cases hj⟩
    rw [liveObjects_append, hA h]
    simp [heapStep]
  · rw [if_neg h, if_neg h]
    refine ⟨fun hj => (by cases hj), fun jets _ => ?_⟩
    obtain ⟨s1, hs1⟩ := hB h
    rw [newIterationDefinition_snd] at hs1
    exact ⟨s1.R, hs1⟩

end HeapLemmas

section HeapExamples

theorem scenarioC_live_objects :
    liveObjects (searchTrace demo_M_PI_4 demoAtof demoEngine scenarioC demoEvent) =
      [HeapObject.jetDefinition (JetDefinition.withR JetAlgorithm.kt_algorithm
        (scenarioCRadius 4) RecombinationScheme.E_scheme Strategy.Best)] := by
  simp [searchTrace, searchEnd, iterationLoop, iterationBody, newIterationDefinition,
    searchStart, overlapThreshold, scenarioC, demoConfigured, demoEngine, demoRadius,
    demo_M_PI_4, ITERATIVE_INCLUSIVE_MAX_ITERATIONS, pushAboveThreshold, demoJet,
    deletePluginEvents, liveObjects, heapStep, scenarioCRadius]
  norm_num [heapStep]

end HeapExamples

section ReleaseClaims

variable {K : Type} [LinearOrderedField K]

/-- C18 (the code does not release on early success): with the `new` and `delete` statements
of `doIterativeInclusiveClustering` as events and the live objects computed from them, a call
that throws after 20 iterations leaves nothing live, but every call that returns normally
leaves the jet definition of its last iteration live, because `break` leaves the loop before
the `delete` statements.  In scenario C (`kt_algorithm 0.7`, `InclusiveIterativeNJets 2 5.0`)
the call returns two jets and the definition built at the fourth radius is still live. -/
theorem C18_definition_live_after_early_success (M_PI_4 : K) (atof : String → K)
    (engine : Engine K) (u : FastJetUtil K) (pjList : List (PseudoJet K)) :
    (doIterativeInclusiveClustering M_PI_4 atof engine u pjList =
        Except.error Error.SkippedFixedNrJetException →
      liveObjects (searchTrace M_PI_4 atof engine u pjList) = []) ∧
    (∀ jets, doIterativeInclusiveClustering M_PI_4 atof engine u pjList = Except.ok jets →
      ∃ R : K, HeapObject.jetDefinition (definitionAtRadius atof u R) ∈
        liveObjects (searchTrace M_PI_4 atof engine u pjList)) ∧
    doIterativeInclusiveClustering demo_M_PI_4 demoAtof demoEngine scenarioC demoEvent =
      Except.ok [demoJet 25 30 0, demoJet 12 15 1] ∧
    liveObjects (searchTrace demo_M_PI_4 demoAtof demoEngine scenarioC demoEvent) =
      [HeapObject.jetDefinition (JetDefinition.withR JetAlgorithm.kt_algorithm
        (5 * demo_M_PI_4 / 8) RecombinationScheme.E_scheme Strategy.Best)] := by
  refine ⟨(searchTrace_heap M_PI_4 atof engine u pjList).1,
    (searchTrace_heap M_PI_4 atof engine u pjList).2, scenarioC_returns, ?_⟩
  rw [scenarioC_live_objects]
  simp [scenarioCRadius]

end ReleaseClaims

/-! ## What the search reads of the object -/

section CongruenceLemmas

variable {K : Type} [LinearOrderedField K]

theorem overlapThreshold_congr (atof : String → K) (u v : FastJetUtil K)
    (hName : v._jetAlgoName = u._jetAlgoName)
    (hThr : v._jetAlgoNameAndParams.getD 2 "" = u._jetAlgoNameAndParams.getD 2 "") :
    overlapThreshold atof v = overlapThreshold atof u := by
  unfold overlapThreshold
  rw [hName, hThr]

theorem iterationBody_congr (engine : Engine K) (u v : FastJetUtil K)
    (pjList : List (PseudoJet K)) (a b : Bool) (t : K) (s : IterState K)
    (hType : v._jetAlgoType = u._jetAlgoType) (hScheme : v._jetRecoScheme = u._jetRecoScheme)
    (hStrategy : v._strategy = u._strategy) (hMinE : v._minE = u._minE)
    (hN : v._requestedNumberOfJets = u._requestedNumberOfJets) :
    iterationBody engine v pjList a b t s = iterationBody engine u pjList a b t s := by
  unfold iterationBody newIterationDefinition
  rw [hType, hScheme, hStrategy, hMinE, hN]

theorem iterationLoop_congr (engine : Engine K) (u v : FastJetUtil K)
    (pjList : List (PseudoJet K)) (a b : Bool) (t : K)
    (hType : v._jetAlgoType = u._jetAlgoType) (hScheme : v._jetRecoScheme = u._jetRecoScheme)
    (hStrategy : v._strategy = u._strategy) (hMinE : v._minE = u._minE)
    (hN : v._requestedNumberOfJets = u._requestedNumberOfJets) :
    ∀ (fuel : Nat) (s : IterState K),
      iterationLoop engine v pjList a b t fuel s = iterationLoop engine u pjList a b t fuel s := by
  intro fuel
  induction fuel with
  | zero => intro s; rfl
  | succ fuel ih =>
    intro s
    rw [iterationLoop, iterationLoop,
      iterationBody_congr engine u v pjList a b t s hType hScheme hStrategy hMinE hN]
    split
    · rcases iterationBody engine u pjList a b t s with ⟨s1, br⟩
      cases br
      · exact ih _
      · rfl
    · rfl

/-- The search reads `_jetAlgoName`, the third token of `_jetAlgoNameAndParams`,
`_jetAlgoType`, `_jetRecoScheme`, `_strategy`, `_minE` and `_requestedNumberOfJets`, and
nothing else of the object. -/
theorem searchEnd_congr (M_PI_4 : K) (atof : String → K) (engine : Engine K)
    (u v : FastJetUtil K) (pjList : List (PseudoJet K))
    (hName : v._jetAlgoName = u._jetAlgoName)
    (hThr : v._jetAlgoNameAndParams.getD 2 "" = u._jetAlgoNameAndParams.getD 2 "")
    (hType : v._jetAlgoType = u._jetAlgoType) (hScheme : v._jetRecoScheme = u._jetRecoScheme)
    (hStrategy : v._strategy = u._strategy) (hMinE : v._minE = u._minE)
    (hN : v._requestedNumberOfJets = u._requestedNumberOfJets) :
    searchEnd M_PI_4 atof engine v pjList = searchEnd M_PI_4 atof engine u pjList := by
  unfold searchEnd
  rw [overlapThreshold_congr atof u v hName hThr, hName]
  exact iterationLoop_congr engine u v pjList _ _ _ hType hScheme hStrategy hMinE hN _ _

end CongruenceLemmas

section NoninterferenceClaims

variable {K : Type} [LinearOrderedField K]

/-- C19: two objects that agree on the algorithm name, the third algorithm token (the SISCone
overlap threshold), `_jetAlgoType`, `_jetRecoScheme`, `_strategy`, `_minE` and
`_requestedNumberOfJets`, and may differ in the configured radius (the second algorithm
token and the definition `_jetAlgo` built from it), in `_minPt`, in `_yCut` and in everything
else, give the same outcome of `doIterativeInclusiveClustering` on the same four-vector
list: the same jets or the same exception, the same final locals with the same DEBUG lines
(the radius trajectory), the same events; and in mode `InclusiveIterativeNJets` the same
result of `clusterJets`. -/
theorem C19_search_ignores_configured_radius (M_PI_4 : K) (atof : String → K)
    (engine : Engine K) (u v : FastJetUtil K) (pjList : List (PseudoJet K))
    (hName : v._jetAlgoName = u._jetAlgoName)
    (hThr : v._jetAlgoNameAndParams.getD 2 "" = u._jetAlgoNameAndParams.getD 2 "")
    (hType : v._jetAlgoType = u._jetAlgoType) (hScheme : v._jetRecoScheme = u._jetRecoScheme)
    (hStrategy : v._strategy = u._strategy) (hMinE : v._minE = u._minE)
    (hN : v._requestedNumberOfJets = u._requestedNumberOfJets) :
    doIterativeInclusiveClustering M_PI_4 atof engine v pjList =
      doIterativeInclusiveClustering M_PI_4 atof engine u pjList ∧
    searchEnd M_PI_4 atof engine v pjList = searchEnd M_PI_4 atof engine u pjList ∧
    (searchEnd M_PI_4 atof engine v pjList).debug =
      (searchEnd M_PI_4 atof engine u pjList).debug ∧
    searchTrace M_PI_4 atof engine v pjList = searchTrace M_PI_4 atof engine u pjList ∧
    ∀ (jd jd' : JetDefinition K) (reconstructedPars : LCCollection),
      u._jetAlgo = some jd → v._jetAlgo = some jd' →
      u._clusterMode = EClusterMode.OWN_inclusiveIteration →
      v._clusterMode = EClusterMode.OWN_inclusiveIteration →
      ∃ o o', clusterJets M_PI_4 atof engine u pjList reconstructedPars = some o ∧
        clusterJets M_PI_4 atof engine v pjList reconstructedPars = some o' ∧
        o'.result = o.result := by
  have h := searchEnd_congr M_PI_4 atof engine u v pjList hName hThr hType hScheme hStrategy
    hMinE hN
  have hd : doIterativeInclusiveClustering M_PI_4 atof engine v pjList =
      doIterativeInclusiveClustering M_PI_4 atof engine u pjList := by
    unfold doIterativeInclusiveClustering
    rw [h]
  refine ⟨hd, h, by rw [h], ?_, ?_⟩
  · unfold searchTrace
    rw [h]
  · intro jd jd' pars hjd hjd' hmode hmode'
    by_cases hc : pars.getNumberOfElements < castInt u._requestedNumberOfJets
    · have hc' : pars.getNumberOfElements < castInt v._requestedNumberOfJets := by
        rw [hN]; exact hc
      exact ⟨_, _, clusterJets_skipped M_PI_4 atof engine u jd pjList pars hjd (Or.inr hmode) hc,
        clusterJets_skipped M_PI_4 atof engine v jd' pjList pars hjd' (Or.inr hmode') hc', rfl⟩
    · have hc' : ¬ pars.getNumberOfElements < castInt v._requestedNumberOfJets := by
        rw [hN]; exact hc
      exact ⟨_, _, clusterJets_iterative M_PI_4 atof engine u jd pjList pars hjd hmode hc,
        clusterJets_iterative M_PI_4 atof engine v jd' pjList pars hjd' hmode' hc', hd⟩

end NoninterferenceClaims

section NoninterferenceWitnesses

/-- C19, on scenario C configured with `kt_algorithm 0.7` and with `kt_algorithm 1.2`. -/
theorem C19_search_ignores_configured_radius_witness :
    scenarioCOtherRadius._jetAlgoNameAndParams = ["kt_algorithm", "1.2"] ∧
    scenarioC._jetAlgoNameAndParams = ["kt_algorithm", "0.7"] ∧
    scenarioCOtherRadius._jetAlgo ≠ scenarioC._jetAlgo ∧
    doIterativeInclusiveClustering demo_M_PI_4 demoAtof demoEngine scenarioCOtherRadius
        demoEvent =
      doIterativeInclusiveClustering demo_M_PI_4 demoAtof demoEngine scenarioC demoEvent ∧
    (searchEnd demo_M_PI_4 demoAtof demoEngine scenarioCOtherRadius demoEvent).debug =
      (searchEnd demo_M_PI_4 demoAtof demoEngine scenarioC demoEvent).debug :=
  have h := C19_search_ignores_configured_radius demo_M_PI_4 demoAtof demoEngine scenarioC
    scenarioCOtherRadius demoEvent rfl rfl rfl rfl rfl rfl rfl
  ⟨rfl, rfl, by norm_num [scenarioCOtherRadius, scenarioC], h.1, h.2.2.1⟩

end NoninterferenceWitnesses

/-! ## The state after `init` -/

section InvariantLemmas

variable {K : Type}

theorem initRecoScheme_frame (u u' : FastJetUtil K) (h : initRecoScheme u = Except.ok u') :
    u'._strategy = u._strategy ∧
    u'._clusterModeNameAndParam = u._clusterModeNameAndParam ∧
    u'._jetAlgoNameAndParams = u._jetAlgoNameAndParams := by
  unfold initRecoScheme at h
  split_ifs at h <;> cases h <;> exact ⟨rfl, rfl, rfl⟩

theorem initJetAlgo_unknown (mv : EClusterMode → Nat) (atof : String → K) (u : FastJetUtil K)
    (name : String) (ps : List String) (hp : u._jetAlgoNameAndParams = name :: ps)
    (hname : ∀ f : Family, name ≠ f.name) :
    initJetAlgo mv atof u = Except.error unknownAlgorithm := by
  have h1 := hname Family.kt_algorithm
  have h2 := hname Family.cambridge_algorithm
  have h3 := hname Family.antikt_algorithm
  have h4 := hname Family.genkt_algorithm
  have h5 := hname Family.cambridge_for_passive_algorithm
  have h6 := hname Family.genkt_for_passive_algorithm
  have h7 := hname Family.ee_kt_algorithm
  have h8 := hname Family.ee_genkt_algorithm
  have h9 := hname Family.SISConePlugin
  have h10 := hname Family.SISConeSphericalPlugin
  have h11 := hname Family.ValenciaPlugin
  simp only [ne_eq, Family.name] at h1 h2 h3 h4 h5 h6
  simp only [ne_eq, Family.name] at h7 h8 h9 h10 h11
  simp [initJetAlgo, hp, ifJetAlgo_of_ne, h1, h2, h3, h4, h5, h6, h7, h8, h9, h10, h11, bind,
    Except.bind, checkJetAlgo, unknownAlgorithm]

/-- What `initJetAlgo` leaves untouched when it builds the definition of a family. -/
theorem initJetAlgo_family_frame (mv : EClusterMode → Nat) (atof : String → K)
    (u : FastJetUtil K) (f : Family) (ps : List String)
    (h : u._jetAlgoNameAndParams = f.name :: ps) (hlen : ps.length = f.nrParams)
    (hmask : f.modeMask mv &&& mv u._clusterMode = mv u._clusterMode) :
    ∃ u' jd, initJetAlgo mv atof u = Except.ok u' ∧ u'._jetAlgo = some jd ∧
      jd.family = f ∧ u'._clusterMode = u._clusterMode ∧ u'._strategy = u._strategy ∧
      u'._requestedNumberOfJets = u._requestedNumberOfJets ∧ u'._minPt = u._minPt ∧
      u'._yCut = u._yCut ∧ u'._minE = u._minE := by
  rcases ps with _ | ⟨p1, _ | ⟨p2, _ | ⟨p3, _ | ⟨p4, ps⟩⟩⟩⟩ <;>
  cases f <;>
    simp [Family.nrParams] at hlen <;>
    simp [Family.modeMask, Family.supportedModes] at hmask <;>
    simp [initJetAlgo, h, Family.name, ifJetAlgo_of_ne, ifJetAlgo_of_eq, bind,
      Except.bind, hmask, setAlgoWithR, checkJetAlgo, algoParam, JetDefinition.family,
      JetAlgorithm.family]

/-- The post-condition of `initJetAlgo`: a successful call has built the definition of the
family named by the first token, the bitmask test of that family has passed, and the mode,
the strategy and the mode parameters are those of the object before the call. -/
theorem initJetAlgo_ok (mv : EClusterMode → Nat) (atof : String → K) (u u' : FastJetUtil K)
    (h : initJetAlgo mv atof u = Except.ok u') :
    ∃ jd, u'._jetAlgo = some jd ∧ u._jetAlgoNameAndParams.head? = some jd.family.name ∧
      jd.family.modeMask mv &&& mv u._clusterMode = mv u._clusterMode ∧
      u'._clusterMode = u._clusterMode ∧ u'._strategy = u._strategy ∧
      u'._requestedNumberOfJets = u._requestedNumberOfJets ∧ u'._minPt = u._minPt ∧
      u'._yCut = u._yCut ∧ u'._minE = u._minE := by
  rcases hp : u._jetAlgoNameAndParams with _ | ⟨name, ps⟩
  · simp [initJetAlgo, hp] at h
  · by_cases hf : ∃ f : Family, name = f.name
    · obtain ⟨f, rfl⟩ := hf
      obtain ⟨e1, e2, -⟩ := initJetAlgo_family mv atof u f ps hp
      by_cases hlen : ps.length = f.nrParams
      · by_cases hmask : f.modeMask mv &&& mv u._clusterMode = mv u._clusterMode
        · obtain ⟨u'', jd, r1, r2, r3, r4, r5, r6, r7, r8, r9⟩ :=
            initJetAlgo_family_frame mv atof u f ps hp hlen hmask
          rw [r1] at h
          cases h
          refine ⟨jd, r2, ?_, ?_, r4, r5, r6, r7, r8, r9⟩
          · rw [r3]; rfl
          · rw [r3]; exact hmask
        · rw [e2 hlen hmask] at h
          cases h
      · rw [e1 hlen] at h
        cases h
    · rw [initJetAlgo_unknown mv atof u name ps hp (fun f hn => hf ⟨f, hn⟩)] at h
      cases h

end InvariantLemmas

section InvariantFieldLemmas

variable {K : Type} [LinearOrderedField K]

theorem initClusterMode_ok (atof : String → K) (atoi : String → Int) (u u' : FastJetUtil K)
    (h : initClusterMode atof atoi u = Except.ok u') :
    AcceptedModeList u._clusterModeNameAndParam ∧ u'._clusterMode ∈ activeModes ∧
    u'._strategy = u._strategy ∧ u'._jetAlgoNameAndParams = u._jetAlgoNameAndParams := by
  by_cases hacc : AcceptedModeList u._clusterModeNameAndParam
  · obtain ⟨u'', r1, r2, r3, r4, -⟩ := initClusterMode_accepts atof atoi u hacc
    rw [r1] at h
    cases h
    exact ⟨hacc, r2, r3, r4⟩
  · obtain ⟨msg, r⟩ := initClusterMode_rejects atof atoi u hacc
    rw [r] at h
    cases h

theorem bind_eq_ok {ε α β : Type} (x : Except ε α) (f : α → Except ε β) (b : β)
    (h : (x >>= f) = Except.ok b) : ∃ a, x = Except.ok a ∧ f a = Except.ok b := by
  cases x with
  | error e => cases h
  | ok a => exact ⟨a, rfl, h⟩

/-- The post-condition of `init`. -/
theorem init_ok (mv : EClusterMode → Nat) (atof : String → K) (atoi : String → Int)
    (u u' : FastJetUtil K) (h : init mv atof atoi u = Except.ok u') :
    AcceptedModeList u._clusterModeNameAndParam ∧ u'._clusterMode ∈ activeModes ∧
    u'._strategy = Strategy.Best ∧
    ∃ jd, u'._jetAlgo = some jd ∧ u._jetAlgoNameAndParams.head? = some jd.family.name ∧
      jd.family.modeMask mv &&& mv u'._clusterMode = mv u'._clusterMode := by
  unfold init at h
  obtain ⟨u2, h2, h3⟩ := bind_eq_ok _ _ _ h
  obtain ⟨u1, h1, h2⟩ := bind_eq_ok _ _ _ h2
  obtain ⟨a1, a2, a3⟩ := initRecoScheme_frame _ _ h1
  obtain ⟨b0, b1, b2, b3⟩ := initClusterMode_ok atof atoi _ _ h2
  obtain ⟨jd, c1, c2, c3, c4, c5, -⟩ := initJetAlgo_ok mv atof _ _ h3
  refine ⟨?_, ?_, ?_, jd, c1, ?_, ?_⟩
  · rw [a2] at b0; exact b0
  · rw [c4]; exact b1
  · rw [c5, b2, a1]; rfl
  · rw [b3, a3] at c2; exact c2
  · rw [c4]; exact c3

end InvariantFieldLemmas

section InvariantClaims

variable {K : Type} [LinearOrderedField K]

/-- C20: after `init` has completed without an exception, the cluster mode is one of
`FJ_inclusive`, `FJ_exclusive_yCut`, `FJ_exclusive_nJets`, `OWN_inclusiveIteration` and not
`NONE`, `_jetAlgo` is a non-null definition of the family named by the first algorithm
token, the strategy is `Best`, and the bitmask test of that family has passed for the mode,
so that, when the mode tags are distinct single-bit flags, the mode is in the family's row
of the support table; `clusterJets` then takes one of its four branches: its events are
never just the construction of the cluster sequence, which is all the fall-through path
does. -/
theorem C20_init_establishes_dispatch_invariant (modeValue : EClusterMode → Nat)
    (atof : String → K) (atoi : String → Int) (M_PI_4 : K) (engine : Engine K)
    (u u' : FastJetUtil K) (pjList : List (PseudoJet K)) (reconstructedPars : LCCollection)
    (h : init modeValue atof atoi u = Except.ok u') :
    u'._clusterMode ∈ activeModes ∧ u'._clusterMode ≠ EClusterMode.NONE ∧
    u'._strategy = Strategy.Best ∧
    ∃ jd, u'._jetAlgo = some jd ∧ u._jetAlgoNameAndParams.head? = some jd.family.name ∧
      jd.family.modeMask modeValue &&& modeValue u'._clusterMode = modeValue u'._clusterMode ∧
      (SingleBitFlags modeValue →
        u'._clusterMode ∈ jd.family.supportedModes ∧
        (jd.family, u'._clusterMode) ∉ absentPairs) ∧
      ∃ o, clusterJets M_PI_4 atof engine u' pjList reconstructedPars = some o ∧
        o.trace ≠ [Event.clusterSequence pjList jd] ∧
        2 ≤ o.trace.length := by
  obtain ⟨-, hmode, hstrategy, jd, hjd, hname, hmask⟩ := init_ok modeValue atof atoi u u' h
  have hne : u'._clusterMode ≠ EClusterMode.NONE := by
    intro hn
    rw [hn] at hmode
    simp [activeModes] at hmode
  refine ⟨hmode, hne, hstrategy, jd, hjd, hname, hmask, ?_, ?_⟩
  · intro hbits
    have hin := (modeMask_test modeValue hbits jd.family u'._clusterMode hne).mp hmask
    exact ⟨hin, fun hab => ((mem_absentPairs_iff jd.family u'._clusterMode hne).mp hab) hin⟩
  · have hlen : ∀ o : Outcome K, 2 ≤ o.trace.length →
        o.trace ≠ [Event.clusterSequence pjList jd] ∧ 2 ≤ o.trace.length := by
      intro o ho
      refine ⟨fun hex => ?_, ho⟩
      rw [hex] at ho
      simp at ho
    simp only [activeModes, List.mem_cons, List.mem_singleton, List.not_mem_nil, or_false]
      at hmode
    rcases hmode with hm | hm | hm | hm
    · exact ⟨_, clusterJets_inclusive M_PI_4 atof engine u' jd pjList reconstructedPars hjd hm,
        hlen _ (by simp)⟩
    · exact ⟨_, clusterJets_yCut M_PI_4 atof engine u' jd pjList reconstructedPars hjd hm,
        hlen _ (by simp)⟩
    · by_cases hc : reconstructedPars.getNumberOfElements < castInt u'._requestedNumberOfJets
      · exact ⟨_, clusterJets_skipped M_PI_4 atof engine u' jd pjList reconstructedPars hjd
          (Or.inl hm) hc, hlen _ (by simp)⟩
      · exact ⟨_, clusterJets_nJets M_PI_4 atof engine u' jd pjList reconstructedPars hjd hm hc,
          hlen _ (by simp)⟩
    · by_cases hc : reconstructedPars.getNumberOfElements < castInt u'._requestedNumberOfJets
      · exact ⟨_, clusterJets_skipped M_PI_4 atof engine u' jd pjList reconstructedPars hjd
          (Or.inr hm) hc, hlen _ (by simp)⟩
      · refine ⟨_, clusterJets_iterative M_PI_4 atof engine u' jd pjList reconstructedPars hjd
          hm hc, hlen _ ?_⟩
        have hs := searchTrace_ne_nil M_PI_4 atof engine u' pjList
        rcases hst : searchTrace M_PI_4 atof engine u' pjList with _ | ⟨e, es⟩
        · exact absurd hst hs
        · simp

end InvariantClaims

section InvariantWitnesses

theorem scenarioA_init :
    init flagValue demoAtof atoiModel
        (demoConfigured ["kt_algorithm", "0.7"] ["Inclusive", "10.0"]) =
      Except.ok scenarioA := by
  have hb : (15 &&& 4 : Nat) = 4 := by decide
  simp [init, initStrategy, initRecoScheme, initClusterMode, scenarioA, demoConfigured, hb, bind,
    Except.bind, initJetAlgo, ifJetAlgo_of_ne, ifJetAlgo_of_eq, flagValue, checkJetAlgo,
    algoParam, demoAtof, setAlgoWithR]

/-- C20, on `kt_algorithm 0.7` with mode `Inclusive 10.0` and an event of two particles. -/
theorem C20_init_establishes_dispatch_invariant_witness :
    init flagValue demoAtof atoiModel
        (demoConfigured ["kt_algorithm", "0.7"] ["Inclusive", "10.0"]) =
      Except.ok scenarioA ∧
    scenarioA._clusterMode ∈ activeModes ∧ scenarioA._clusterMode ≠ EClusterMode.NONE ∧
    scenarioA._strategy = Strategy.Best ∧
    ∃ jd, scenarioA._jetAlgo = some jd ∧
      (demoConfigured ["kt_algorithm", "0.7"] ["Inclusive", "10.0"])._jetAlgoNameAndParams.head? =
        some jd.family.name ∧
      jd.family.modeMask flagValue &&& flagValue scenarioA._clusterMode =
        flagValue scenarioA._clusterMode ∧
      (SingleBitFlags flagValue →
        scenarioA._clusterMode ∈ jd.family.supportedModes ∧
        (jd.family, scenarioA._clusterMode) ∉ absentPairs) ∧
      ∃ o, clusterJets demo_M_PI_4 demoAtof demoEngine scenarioA demoEvent ⟨2⟩ = some o ∧
        o.trace ≠ [Event.clusterSequence demoEvent jd] ∧
        2 ≤ o.trace.length :=
  ⟨scenarioA_init,
    C20_init_establishes_dispatch_invariant flagValue demoAtof atoiModel demo_M_PI_4 demoEngine
      (demoConfigured ["kt_algorithm", "0.7"] ["Inclusive", "10.0"]) scenarioA demoEvent ⟨2⟩
      scenarioA_init⟩

end InvariantWitnesses

/-! ## A negative requested number of jets -/

section WrapLemmas

theorem toUnsigned_of_neg (m : Int) (hneg : m < 0) (hint : -2 ^ 31 ≤ m) :
    ((toUnsigned m : Nat) : Int) = 2 ^ 32 + m ∧ ((toUnsigned m : Nat) : Int) = m % 2 ^ 32 ∧
    2 ^ 31 ≤ toUnsigned m ∧ toUnsigned m < 2 ^ 32 ∧ castInt (toUnsigned m) = m := by
  have hmod : m % 2 ^ 32 = 2 ^ 32 + m := by
    norm_num at hint ⊢
    omega
  have hcast : ((toUnsigned m : Nat) : Int) = 2 ^ 32 + m := by
    unfold toUnsigned
    rw [hmod]
    exact Int.toNat_of_nonneg (by norm_num at hint ⊢; omega)
  have hlo : 2 ^ 31 ≤ toUnsigned m := by
    norm_num at hint hcast ⊢
    omega
  have hhi : toUnsigned m < 2 ^ 32 := by
    norm_num at hint hcast ⊢
    omega
  refine ⟨hcast, by rw [hcast, hmod], hlo, hhi, ?_⟩
  unfold castInt
  rw [Nat.mod_eq_of_lt hhi, if_neg (by omega), hcast]
  ring

end WrapLemmas

section TooFewLemmas

variable {K : Type} [LinearOrderedField K]

/-- When every run finds fewer jets than requested, the loop reaches each of its heads, with
the radius halved at each pass. -/
theorem loopHead_too_few (M_PI_4 : K) (atof : String → K) (engine : Engine K)
    (u : FastJetUtil K) (pjList : List (PseudoJet K))
    (hfew : ∀ j, j < ITERATIVE_INCLUSIVE_MAX_ITERATIONS →
      (survivorsAt atof engine u pjList (M_PI_4 / 2 ^ j)).length < u._requestedNumberOfJets) :
    ∀ j, j ≤ ITERATIVE_INCLUSIVE_MAX_ITERATIONS →
      ∃ s, loopHead M_PI_4 atof engine u pjList j = some s ∧ s.R = M_PI_4 / 2 ^ j ∧
        s.debug = (List.range j).map
          (fun i => debugLineAt atof engine u pjList (i + 1) (M_PI_4 / 2 ^ i)) := by
  intro j
  induction j with
  | zero =>
    intro _
    exact ⟨searchStart M_PI_4, rfl, by simp [searchStart], by simp [searchStart]⟩
  | succ j ih =>
    intro hj
    obtain ⟨s, hs, hR, hdbg⟩ := ih (by omega)
    obtain ⟨hi, -, hD, -⟩ := loopHead_spec M_PI_4 atof engine u pjList j s hs
    obtain ⟨hdbg1, -, hit, -, hbrk, -, hmove⟩ := searchBody_spec atof engine u pjList s
    have hlt := hfew j (by omega)
    rw [← hR] at hlt
    have hb : ¬ (searchBody atof engine u pjList s).2 = true := by
      rw [hbrk]; omega
    obtain ⟨hR1, -⟩ := hmove (by simpa using hb)
    refine ⟨_, loopHead_succ_of M_PI_4 atof engine u pjList j s hs (by omega) hb, ?_, ?_⟩
    · have hsign : (stepSign u._requestedNumberOfJets
          (survivorsAt atof engine u pjList s.R).length : K) = -1 := by
        simp [stepSign, hlt]
      show (searchBody atof engine u pjList s).1.R = M_PI_4 / 2 ^ (j + 1)
      rw [hR1, hsign, hR, hD, pow_succ]
      field_simp
      ring
    · simp only [hdbg1, hdbg, hi, hR, List.range_succ, List.map_append, List.map_cons,
        List.map_nil]

/-- When every run finds fewer jets than requested, the search makes 20 runs at the radii
`M_PI_4 / 2 ^ i`, ends with `R = M_PI_4 / 2 ^ 20` and throws. -/
theorem search_too_few (M_PI_4 : K) (atof : String → K) (engine : Engine K)
    (u : FastJetUtil K) (pjList : List (PseudoJet K))
    (hfew : ∀ j, j < ITERATIVE_INCLUSIVE_MAX_ITERATIONS →
      (survivorsAt atof engine u pjList (M_PI_4 / 2 ^ j)).length < u._requestedNumberOfJets) :
    doIterativeInclusiveClustering M_PI_4 atof engine u pjList =
      Except.error Error.SkippedFixedNrJetException ∧
    (searchEnd M_PI_4 atof engine u pjList).debug =
      (List.range ITERATIVE_INCLUSIVE_MAX_ITERATIONS).map
        (fun i => debugLineAt atof engine u pjList (i + 1) (M_PI_4 / 2 ^ i)) ∧
    (searchEnd M_PI_4 atof engine u pjList).R =
      M_PI_4 / 2 ^ ITERATIVE_INCLUSIVE_MAX_ITERATIONS ∧
    engineRunEvents (searchTrace M_PI_4 atof engine u pjList) =
      (List.range ITERATIVE_INCLUSIVE_MAX_ITERATIONS).map
        (fun i => engineRunAt atof u pjList (M_PI_4 / 2 ^ i)) ∧
    Event.warnMaximumIterations ∈ searchTrace M_PI_4 atof engine u pjList := by
  obtain ⟨s, hs, hR, hdbg⟩ := loopHead_too_few M_PI_4 atof engine u pjList hfew
    ITERATIVE_INCLUSIVE_MAX_ITERATIONS (Nat.le_refl _)
  obtain ⟨hi, -, -, -⟩ := loopHead_spec M_PI_4 atof engine u pjList _ s hs
  have hend := loopHead_reaches_end M_PI_4 atof engine u pjList _ s hs
  rw [Nat.sub_self, searchLoop_zero] at hend
  have hruns := (searchEnd_spec M_PI_4 atof engine u pjList).1
  rw [← hend] at hruns ⊢
  refine ⟨?_, hdbg, hR, ?_, ?_⟩
  · unfold doIterativeInclusiveClustering
    rw [← hend]
    simp only [hi, if_true]
  · rw [engineRuns_searchTrace, ← hend, hruns, hdbg, List.map_map]
    rfl
  · unfold searchTrace
    rw [← hend]
    simp only [hi, if_true]
    simp

end TooFewLemmas

section CountFieldLemmas

variable {K : Type} [LinearOrderedField K]

/-- The requested number of jets after `init`, in the two modes that have one. -/
theorem init_requested_count (mv : EClusterMode → Nat) (atof : String → K)
    (atoi : String → Int) (u u' : FastJetUtil K) (p : String)
    (hinit : init mv atof atoi u = Except.ok u') :
    (∃ jd, u'._jetAlgo = some jd) ∧
    (u._clusterModeNameAndParam = ["ExclusiveNJets", p] →
      u'._clusterMode = EClusterMode.FJ_exclusive_nJets ∧
      u'._requestedNumberOfJets = toUnsigned (atoi p)) ∧
    (∀ q, u._clusterModeNameAndParam = ["InclusiveIterativeNJets", p, q] →
      u'._clusterMode = EClusterMode.OWN_inclusiveIteration ∧
      u'._requestedNumberOfJets = toUnsigned (atoi p) ∧
      u'._minE = ((atoi q : Int) : K)) := by
  unfold init at hinit
  obtain ⟨u2, h2, h3⟩ := bind_eq_ok _ _ _ hinit
  obtain ⟨u1, h1, h2⟩ := bind_eq_ok _ _ _ h2
  obtain ⟨-, a2, -⟩ := initRecoScheme_frame _ _ h1
  have a2 : u1._clusterModeNameAndParam = u._clusterModeNameAndParam := a2
  obtain ⟨jd, c1, -, -, c4, -, c6, -, -, c9⟩ := initJetAlgo_ok mv atof _ _ h3
  refine ⟨⟨jd, c1⟩, fun hl => ?_, fun q hl => ?_⟩
  · rw [initClusterMode_nJets atof atoi u1 p (a2.trans hl)] at h2
    cases h2
    exact ⟨c4, c6⟩
  · rw [initClusterMode_iterative atof atoi u1 p q (a2.trans hl)] at h2
    cases h2
    exact ⟨c4, c6, c9⟩

end CountFieldLemmas

section WrapClaims

variable {K : Type} [LinearOrderedField K]

/-- C21: let the requested-jet-count token `p` of the mode `ExclusiveNJets p` or
`InclusiveIterativeNJets p q` convert to a negative `int` `m = atoi p`, and let `init`
succeed.  Then `_requestedNumberOfJets` holds `m mod 2^32 = 2^32 + m`, its cast back to
`int` is `m`, and the particle-count check of `clusterJets` does not fire for any particle
count that is not negative: no call writes the not-enough-elements warning.  In mode
`ExclusiveNJets` the call goes on to `exclusive_jets(m)`.  In mode
`InclusiveIterativeNJets`, when each of the runs finds fewer than `2^32 + m` jets above the
threshold, every iteration takes the branch `nJets < _requestedNumberOfJets`: the search
makes 20 runs at the radii `M_PI_4 / 2^i`, `i = 0..19`, ends with `R = M_PI_4 / 2^20`, writes
the maximum-iterations warning, and `clusterJets` fails with `SkippedFixedNrJetException`. -/
theorem C21_negative_count_wraps (modeValue : EClusterMode → Nat) (atof : String → K)
    (atoi : String → Int) (M_PI_4 : K) (engine : Engine K) (u u' : FastJetUtil K)
    (pjList : List (PseudoJet K)) (reconstructedPars : LCCollection) (p : String)
    (hform : u._clusterModeNameAndParam = ["ExclusiveNJets", p] ∨
      ∃ q, u._clusterModeNameAndParam = ["InclusiveIterativeNJets", p, q])
    (hneg : atoi p < 0) (hint : -2 ^ 31 ≤ atoi p)
    (hinit : init modeValue atof atoi u = Except.ok u')
    (hcount : 0 ≤ reconstructedPars.getNumberOfElements) :
    ((u'._requestedNumberOfJets : Nat) : Int) = atoi p % 2 ^ 32 ∧
    ((u'._requestedNumberOfJets : Nat) : Int) = 2 ^ 32 + atoi p ∧
    castInt u'._requestedNumberOfJets = atoi p ∧
    ¬ reconstructedPars.getNumberOfElements < castInt u'._requestedNumberOfJets ∧
    (∃ o, clusterJets M_PI_4 atof engine u' pjList reconstructedPars = some o ∧
      o.trace.any Event.isNotEnoughElements = false) ∧
    (u._clusterModeNameAndParam = ["ExclusiveNJets", p] →
      ∃ jd o, u'._jetAlgo = some jd ∧
        clusterJets M_PI_4 atof engine u' pjList reconstructedPars = some o ∧
        o.result = Except.ok ((engine pjList jd).exclusive_jets (atoi p))) ∧
    (∀ q, u._clusterModeNameAndParam = ["InclusiveIterativeNJets", p, q] →
      (∀ j, j < ITERATIVE_INCLUSIVE_MAX_ITERATIONS →
        (((survivorsAt atof engine u' pjList (M_PI_4 / 2 ^ j)).length : Nat) : Int) <
          2 ^ 32 + atoi p) →
      doIterativeInclusiveClustering M_PI_4 atof engine u' pjList =
        Except.error Error.SkippedFixedNrJetException ∧
      (searchEnd M_PI_4 atof engine u' pjList).debug =
        (List.range ITERATIVE_INCLUSIVE_MAX_ITERATIONS).map
          (fun i => debugLineAt atof engine u' pjList (i + 1) (M_PI_4 / 2 ^ i)) ∧
      (searchEnd M_PI_4 atof engine u' pjList).R =
        M_PI_4 / 2 ^ ITERATIVE_INCLUSIVE_MAX_ITERATIONS ∧
      engineRunEvents (searchTrace M_PI_4 atof engine u' pjList) =
        (List.range ITERATIVE_INCLUSIVE_MAX_ITERATIONS).map
          (fun i => engineRunAt atof u' pjList (M_PI_4 / 2 ^ i)) ∧
      ∃ o, clusterJets M_PI_4 atof engine u' pjList reconstructedPars = some o ∧
        o.result = Except.error Error.SkippedFixedNrJetException ∧
        Event.warnMaximumIterations ∈ o.trace) := by
  obtain ⟨⟨jd, hjd⟩, hN, hI⟩ := init_requested_count modeValue atof atoi u u' p hinit
  obtain ⟨w1, w2, -, -, w5⟩ := toUnsigned_of_neg (atoi p) hneg hint
  have hn : u'._requestedNumberOfJets = toUnsigned (atoi p) := by
    rcases hform with hl | ⟨q, hl⟩
    · exact (hN hl).2
    · exact (hI q hl).2.1
  have hcast : castInt u'._requestedNumberOfJets = atoi p := by rw [hn]; exact w5
  have hc : ¬ reconstructedPars.getNumberOfElements < castInt u'._requestedNumberOfJets := by
    rw [hcast]; omega
  have hiter : u'._clusterMode = EClusterMode.OWN_inclusiveIteration →
      clusterJets M_PI_4 atof engine u' pjList reconstructedPars =
        some { result := doIterativeInclusiveClustering M_PI_4 atof engine u' pjList,
               util := { u' with _cs := some (engine pjList jd) },
               trace := Event.clusterSequence pjList jd ::
                         searchTrace M_PI_4 atof engine u' pjList } :=
    fun hm => clusterJets_iterative M_PI_4 atof engine u' jd pjList reconstructedPars hjd hm hc
  refine ⟨by rw [hn]; exact w2, by rw [hn]; exact w1, hcast, hc, ?_, ?_, ?_⟩
  · rcases hform with hl | ⟨q, hl⟩
    · exact ⟨_, clusterJets_nJets M_PI_4 atof engine u' jd pjList reconstructedPars hjd
        (hN hl).1 hc, by simp [Event.isNotEnoughElements]⟩
    · refine ⟨_, hiter (hI q hl).1, ?_⟩
      simp [Event.isNotEnoughElements, searchTrace_any]
  · intro hl
    refine ⟨jd, _, hjd, clusterJets_nJets M_PI_4 atof engine u' jd pjList reconstructedPars hjd
      (hN hl).1 hc, ?_⟩
    simp only [hcast]
  · intro q hl hfew
    have hfew' : ∀ j, j < ITERATIVE_INCLUSIVE_MAX_ITERATIONS →
        (survivorsAt atof engine u' pjList (M_PI_4 / 2 ^ j)).length <
          u'._requestedNumberOfJets := by
      intro j hj
      have h1 := hfew j hj
      rw [← w1, ← hn] at h1
      exact_mod_cast h1
    obtain ⟨s1, s2, s3, s4, s5⟩ := search_too_few M_PI_4 atof engine u' pjList hfew'
    refine ⟨s1, s2, s3, s4, _, hiter (hI q hl).1, s1, ?_⟩
    exact List.mem_cons_of_mem _ s5

end WrapClaims

section WrapWitnesses

theorem demoNegativeCount_init :
    init flagValue demoAtof atoiModel demoNegativeCount =
      Except.ok { demoNegativeCount with
        _strategyName := "Best",
        _clusterModeName := "InclusiveIterativeNJets",
        _clusterMode := EClusterMode.OWN_inclusiveIteration,
        _requestedNumberOfJets := 4294967295, _minE := 5,
        _jetAlgoName := "kt_algorithm",
        _jetAlgo := some (JetDefinition.withR JetAlgorithm.kt_algorithm (7 / 10)
          RecombinationScheme.E_scheme Strategy.Best) } := by
  have h1 : atoiModel "-1" = -1 := by decide
  have h5 : atoiModel "5.0" = 5 := by decide
  have hu : toUnsigned (-1) = 4294967295 := by decide
  have hb : (15 &&& 8 : Nat) = 8 := by decide
  simp [init, initStrategy, initRecoScheme, initClusterMode, demoNegativeCount, demoConfigured,
    h1, h5, hu, hb, bind, Except.bind, initJetAlgo, ifJetAlgo_of_ne, ifJetAlgo_of_eq, flagValue,
    checkJetAlgo, algoParam, demoAtof, setAlgoWithR]

theorem demoEngine_survivors_le (u : FastJetUtil ℚ) (pjList : List (PseudoJet ℚ)) (R : ℚ) :
    (survivorsAt demoAtof demoEngine u pjList R).length ≤ 4 := by
  unfold survivorsAt inclusiveJetsAt demoEngine
  refine le_trans (List.length_filter_le _ _) (le_trans (List.length_filter_le _ _) ?_)
  split_ifs <;> simp

/-- C21, on `kt_algorithm 0.7` with mode `InclusiveIterativeNJets -1 5.0` and an event of
two particles: the count is stored as 4294967295, the particle-count check does not fire,
and the search fails after 20 runs. -/
theorem C21_negative_count_wraps_witness :
    atoiModel "-1" = -1 ∧
    (∃ u', init flagValue demoAtof atoiModel demoNegativeCount = Except.ok u' ∧
      u'._requestedNumberOfJets = 4294967295 ∧
      castInt u'._requestedNumberOfJets = -1 ∧
      ¬ (2 : Int) < castInt u'._requestedNumberOfJets ∧
      doIterativeInclusiveClustering demo_M_PI_4 demoAtof demoEngine u' demoEvent =
        Except.error Error.SkippedFixedNrJetException ∧
      (searchEnd demo_M_PI_4 demoAtof demoEngine u' demoEvent).R =
        demo_M_PI_4 / 2 ^ ITERATIVE_INCLUSIVE_MAX_ITERATIONS ∧
      ∃ o, clusterJets demo_M_PI_4 demoAtof demoEngine u' demoEvent ⟨2⟩ = some o ∧
        o.result = Except.error Error.SkippedFixedNrJetException ∧
        Event.warnMaximumIterations ∈ o.trace) := by
  have h1 : atoiModel "-1" = -1 := by decide
  have h := C21_negative_count_wraps flagValue demoAtof atoiModel demo_M_PI_4 demoEngine
    demoNegativeCount _ demoEvent ⟨2⟩ "-1" (Or.inr ⟨"5.0", rfl⟩) (by rw [h1]; decide)
    (by rw [h1]; decide) demoNegativeCount_init (by decide)
  obtain ⟨-, a2, a3, a4, -, -, a7⟩ := h
  obtain ⟨b1, -, b3, -, b5⟩ := a7 "5.0" rfl (fun j _ => by
    have hle := demoEngine_survivors_le
      { demoNegativeCount with
        _strategyName := "Best",
        _clusterModeName := "InclusiveIterativeNJets",
        _clusterMode := EClusterMode.OWN_inclusiveIteration,
        _requestedNumberOfJets := 4294967295, _minE := 5,
        _jetAlgoName := "kt_algorithm",
        _jetAlgo := some (JetDefinition.withR JetAlgorithm.kt_algorithm (7 / 10)
          RecombinationScheme.E_scheme Strategy.Best) } demoEvent (demo_M_PI_4 / 2 ^ j)
    rw [h1]
    omega)
  rw [h1] at a3
  exact ⟨h1, _, demoNegativeCount_init, rfl, a3, a4, b1, b3, b5⟩

end WrapWitnesses

/-! ## The search in `double` arithmetic -/

section RoundingLemmas

theorem roundHalfEven_intCast (n : Int) : roundHalfEven (n : ℚ) = n := by
  simp [roundHalfEven]

theorem roundHalfEven_tie_even (n : Int) (hn : n % 2 = 0) :
    roundHalfEven ((n : ℚ) + 1 / 2) = n := by
  have hf : ⌊(n : ℚ) + 1 / 2⌋ = n := by
    rw [Int.floor_eq_iff]
    constructor <;> norm_num
  unfold roundHalfEven
  rw [hf]
  norm_num [hn]

theorem doubleSpacingExponent_eq (x : ℚ) (e : Int) (he : -1022 ≤ e) (h1 : 2 ^ e ≤ |x|)
    (h2 : |x| < 2 ^ (e + 1)) : doubleSpacingExponent x = e - 52 := by
  have hpos : 0 < |x| := lt_of_lt_of_le (by positivity) h1
  have hlog : Int.log 2 |x| = e := by
    have a1 : e ≤ Int.log 2 |x| := by
      rw [← Int.zpow_le_iff_le_log (by norm_num) hpos]
      simpa using h1
    have a2 : Int.log 2 |x| < e + 1 := by
      rw [← Int.lt_zpow_iff_log_lt (by norm_num) hpos]
      simpa using h2
    omega
  unfold doubleSpacingExponent
  rw [hlog, max_eq_left he]

/-- A value with at most 53 significant bits is not changed by rounding. -/
theorem roundDouble_exact (x : ℚ) (e n : Int) (he : -1022 ≤ e) (h1 : 2 ^ e ≤ |x|)
    (h2 : |x| < 2 ^ (e + 1)) (hx : x = (n : ℚ) * 2 ^ (e - 52)) : roundDouble x = x := by
  unfold roundDouble
  rw [doubleSpacingExponent_eq x e he h1 h2]
  have hq : x / 2 ^ (e - 52) = (n : ℚ) := by
    rw [hx]
    field_simp
  rw [hq, roundHalfEven_intCast, ← hx]

/-- A value half way between two neighbouring `double` values is rounded to the one with
an even significand. -/
theorem roundDouble_tie_even (x : ℚ) (e n : Int) (he : -1022 ≤ e) (h1 : 2 ^ e ≤ |x|)
    (h2 : |x| < 2 ^ (e + 1)) (hx : x = ((n : ℚ) + 1 / 2) * 2 ^ (e - 52)) (hn : n % 2 = 0) :
    roundDouble x = (n : ℚ) * 2 ^ (e - 52) := by
  unfold roundDouble
  rw [doubleSpacingExponent_eq x e he h1 h2]
  have hq : x / 2 ^ (e - 52) = (n : ℚ) + 1 / 2 := by
    rw [hx]
    field_simp
    ring
  rw [hq, roundHalfEven_tie_even n hn]

theorem roundDouble_step (j : Nat) (hj : j ≤ 20) :
    roundDouble (demo_M_PI_4 / 2 ^ j) = demo_M_PI_4 / 2 ^ j := by
  refine roundDouble_exact _ (-1 - (j : Int)) 7074237752028440 (by omega) ?_ ?_ ?_
  · rw [abs_of_pos (by unfold demo_M_PI_4; positivity), zpow_sub₀ (by norm_num), zpow_natCast]
    rw [div_le_div_iff₀ (by positivity) (by positivity)]
    unfold demo_M_PI_4
    have : (0 : ℚ) < 2 ^ j := by positivity
    norm_num
  · rw [abs_of_pos (by unfold demo_M_PI_4; positivity)]
    have e1 : (-1 - (j : Int) + 1) = -(j : Int) := by ring
    rw [e1, zpow_neg, zpow_natCast, div_eq_mul_inv]
    have : (0 : ℚ) < (2 ^ j)⁻¹ := by positivity
    unfold demo_M_PI_4
    nlinarith
  · have e1 : (-1 - (j : Int) - 52) = -53 - (j : Int) := by ring
    rw [e1, zpow_sub₀ (by norm_num), zpow_natCast]
    unfold demo_M_PI_4
    norm_num
    field_simp
    ring

end RoundingLemmas

section RoundingExamples

theorem roundDouble_second_radius :
    roundDouble (demo_M_PI_4 + demo_M_PI_4 / 2 ^ 1) = 3 * demo_M_PI_4 / 2 := by
  have hx : demo_M_PI_4 + demo_M_PI_4 / 2 ^ 1 = 3 * demo_M_PI_4 / 2 := by ring
  rw [hx]
  refine roundDouble_exact _ 0 5305678314021330 (by decide) ?_ ?_ ?_ <;>
    norm_num [demo_M_PI_4, abs_of_pos]

theorem roundDouble_third_radius :
    roundDouble (3 * demo_M_PI_4 / 2 + demo_M_PI_4 / 2 ^ 2) = 7 * demo_M_PI_4 / 4 := by
  have hx : 3 * demo_M_PI_4 / 2 + demo_M_PI_4 / 2 ^ 2 = 7 * demo_M_PI_4 / 4 := by ring
  rw [hx]
  refine roundDouble_exact _ 0 6189958033024885 (by decide) ?_ ?_ ?_ <;>
    norm_num [demo_M_PI_4, abs_of_pos]

/-- The sum `7 * M_PI_4 / 4 + M_PI_4 / 8` has 54 significant bits: it lies half way between
two `double` values and is rounded to the lower one. -/
theorem roundDouble_fourth_radius :
    roundDouble (7 * demo_M_PI_4 / 4 + demo_M_PI_4 / 2 ^ 3) = 3316048946263331 / 2 ^ 51 := by
  have h := roundDouble_tie_even (7 * demo_M_PI_4 / 4 + demo_M_PI_4 / 2 ^ 3) 0
    6632097892526662 (by decide) (by norm_num [demo_M_PI_4, abs_of_pos])
    (by norm_num [demo_M_PI_4, abs_of_pos]) (by norm_num [demo_M_PI_4]) (by decide)
  rw [h]
  norm_num

theorem fourth_radius_not_exact :
    (3316048946263331 / 2 ^ 51 : ℚ) ≠ 15 * demo_M_PI_4 / 8 := by
  norm_num [demo_M_PI_4]

end RoundingExamples

section RoundedSearchLemmas

variable {K : Type} [LinearOrderedField K]

/-- With no rounding the rounded body is the body. -/
theorem iterationBodyRounded_id (engine : Engine K) (u : FastJetUtil K)
    (pjList : List (PseudoJet K)) (a b : Bool) (t : K) (s : IterState K) :
    iterationBodyRounded id engine u pjList a b t s = iterationBody engine u pjList a b t s :=
  rfl

/-- With no rounding the rounded loop is the loop. -/
theorem iterationLoopRounded_id (engine : Engine K) (u : FastJetUtil K)
    (pjList : List (PseudoJet K)) (a b : Bool) (t : K) :
    ∀ (fuel : Nat) (s : IterState K),
      iterationLoopRounded id engine u pjList a b t fuel s =
        iterationLoop engine u pjList a b t fuel s := by
  intro fuel
  induction fuel with
  | zero => intro s; rfl
  | succ fuel ih =>
    intro s
    rw [iterationLoopRounded, iterationLoop, iterationBodyRounded_id]
    split
    · rcases iterationBody engine u pjList a b t s with ⟨s1, br⟩
      cases br
      · exact ih _
      · rfl
    · rfl

/-- With no rounding the rounded search is the search. -/
theorem doIterativeInclusiveClusteringRounded_id (M_PI_4 : K) (atof : String → K)
    (engine : Engine K) (u : FastJetUtil K) (pjList : List (PseudoJet K)) :
    doIterativeInclusiveClusteringRounded id M_PI_4 atof engine u pjList =
      doIterativeInclusiveClustering M_PI_4 atof engine u pjList := by
  unfold doIterativeInclusiveClusteringRounded doIterativeInclusiveClustering searchEndRounded
    searchEnd
  rw [iterationLoopRounded_id]
  rfl

/-- One pass through the rounded loop body: the DEBUG line it writes, the survivors it
leaves in `jetsReturn`, the engine run it makes, when it breaks, and how it moves `R` and
`RDiff`. -/
theorem searchBodyRounded_spec (rnd : K → K) (atof : String → K) (engine : Engine K)
    (u : FastJetUtil K) (pjList : List (PseudoJet K)) (s : IterState K) :
    (searchBodyRounded rnd atof engine u pjList s).1.debug =
        s.debug ++ [debugLineAt atof engine u pjList (s.iIter + 1) s.R] ∧
    (searchBodyRounded rnd atof engine u pjList s).1.jetsReturn =
        survivorsAt atof engine u pjList s.R ∧
    (searchBodyRounded rnd atof engine u pjList s).1.iIter = s.iIter ∧
    engineRunEvents (searchBodyRounded rnd atof engine u pjList s).1.trace =
        engineRunEvents s.trace ++ [engineRunAt atof u pjList s.R] ∧
    ((searchBodyRounded rnd atof engine u pjList s).2 = true ↔
        (survivorsAt atof engine u pjList s.R).length = u._requestedNumberOfJets) ∧
    ((searchBodyRounded rnd atof engine u pjList s).2 = true →
        (searchBodyRounded rnd atof engine u pjList s).1.R = s.R ∧
        (searchBodyRounded rnd atof engine u pjList s).1.RDiff = s.RDiff) ∧
    ((searchBodyRounded rnd atof engine u pjList s).2 = false →
        (searchBodyRounded rnd atof engine u pjList s).1.R =
          rnd (s.R + stepSign u._requestedNumberOfJets
            (survivorsAt atof engine u pjList s.R).length * s.RDiff) ∧
        (searchBodyRounded rnd atof engine u pjList s).1.RDiff = rnd (s.RDiff / 2)) := by
  have hjd := newIterationDefinition_snd atof u s
  obtain ⟨hR, hD, hI, hG, hT⟩ := newIterationDefinition_fst u (u._jetAlgoName == "SISConePlugin")
      (u._jetAlgoName == "SISConeSphericalPlugin") (overlapThreshold atof u) s
  unfold searchBodyRounded iterationBodyRounded
  generalize newIterationDefinition u (u._jetAlgoName == "SISConePlugin")
      (u._jetAlgoName == "SISConeSphericalPlugin") (overlapThreshold atof u) s = r at *
  obtain ⟨s0, jd⟩ := r
  simp only at hjd hR hD hI hG hT
  subst hjd
  dsimp only
  simp only [pushAboveThreshold_eq_filter]
  have ha : (engine pjList (definitionAtRadius atof u s.R)).inclusive_jets 0 =
      inclusiveJetsAt atof engine u pjList s.R := by
    simp [inclusiveJetsAt]
  have hs : List.filter (fun j => decide (u._minE < j.E))
      (inclusiveJetsAt atof engine u pjList s.R) =
      survivorsAt atof engine u pjList s.R := rfl
  simp only [ha, hs]
  by_cases hk : (survivorsAt atof engine u pjList s.R).length = u._requestedNumberOfJets
  · simp [hk, debugLineAt, hG, hI, hR, hD, hT, engineRunEvents_append, engineRunEvents_cons,
      engineRunEvents_nil, Event.isEngineRun, engineRunAt]
  · rcases Nat.lt_or_gt_of_ne hk with hlt | hgt
    · simp [hk, hlt, debugLineAt, hG, hI, hR, hD, hT, engineRunEvents_append, stepSign,
        engineRunEvents_deletePlugin, engineRunEvents_cons, engineRunEvents_nil,
        Event.isEngineRun, engineRunAt]
      congr 1
      ring
    · have hnlt : ¬ (survivorsAt atof engine u pjList s.R).length < u._requestedNumberOfJets :=
        Nat.not_lt.mpr (Nat.le_of_lt hgt)
      simp [hk, hgt, hnlt, debugLineAt, hG, hI, hR, hD, hT, engineRunEvents_append, stepSign,
        engineRunEvents_deletePlugin, engineRunEvents_cons, engineRunEvents_nil,
        Event.isEngineRun, engineRunAt]

theorem searchLoopRounded_succ (rnd : K → K) (atof : String → K) (engine : Engine K)
    (u : FastJetUtil K) (pjList : List (PseudoJet K)) (fuel : Nat) (s : IterState K) :
    searchLoopRounded rnd atof engine u pjList (fuel + 1) s =
      if s.iIter < ITERATIVE_INCLUSIVE_MAX_ITERATIONS then
        if (searchBodyRounded rnd atof engine u pjList s).2 = true then
          (searchBodyRounded rnd atof engine u pjList s).1
        else searchLoopRounded rnd atof engine u pjList fuel
          { (searchBodyRounded rnd atof engine u pjList s).1 with
            iIter := (searchBodyRounded rnd atof engine u pjList s).1.iIter + 1 }
      else s := by
  unfold searchLoopRounded searchBodyRounded
  rw [iterationLoopRounded]
  split
  · rcases hb : iterationBodyRounded rnd engine u pjList (u._jetAlgoName == "SISConePlugin")
      (u._jetAlgoName == "SISConeSphericalPlugin") (overlapThreshold atof u) s with ⟨s1, b⟩
    cases b <;> simp
  · rfl

end RoundedSearchLemmas

section RoundedFollowLemmas

variable {K : Type} [LinearOrderedField K]

/-- The rounded loop follows a trajectory `R`, `D`, `k` given by the rounded step rule up to
its first match. -/
theorem searchLoopRounded_follow (rnd : K → K) (atof : String → K) (engine : Engine K)
    (u : FastJetUtil K) (pjList : List (PseudoJet K)) (R D : Nat → K) (k : Nat → Nat)
    (i : Nat) (hi : i ≤ ITERATIVE_INCLUSIVE_MAX_ITERATIONS)
    (hk : ∀ j, 1 ≤ j → j ≤ i → k j = (survivorsAt atof engine u pjList (R j)).length)
    (hstep : ∀ j, 1 ≤ j → j < i →
      R (j + 1) = rnd (R j + stepSign u._requestedNumberOfJets (k j) * D j))
    (hhalf : ∀ j, 1 ≤ j → j < i → D (j + 1) = rnd (D j / 2))
    (hne : ∀ j, 1 ≤ j → j < i → k j ≠ u._requestedNumberOfJets)
    (hki : k i = u._requestedNumberOfJets) :
    ∀ (d j : Nat) (s : IterState K) (fuel : Nat), 1 ≤ j → j + d = i → s.iIter + 1 = j →
      s.R = R j → s.RDiff = D j → d < fuel →
      (searchLoopRounded rnd atof engine u pjList fuel s).jetsReturn =
          survivorsAt atof engine u pjList (R i) ∧
      (searchLoopRounded rnd atof engine u pjList fuel s).iIter + 1 = i ∧
      (searchLoopRounded rnd atof engine u pjList fuel s).R = R i ∧
      (searchLoopRounded rnd atof engine u pjList fuel s).RDiff = D i ∧
      (searchLoopRounded rnd atof engine u pjList fuel s).debug =
        s.debug ++ (List.range' j (d + 1)).map
          (fun m => debugLineAt atof engine u pjList m (R m)) ∧
      engineRunEvents (searchLoopRounded rnd atof engine u pjList fuel s).trace =
        engineRunEvents s.trace ++ (List.range' j (d + 1)).map
          (fun m => engineRunAt atof u pjList (R m)) := by
  intro d
  induction d with
  | zero =>
    intro j s fuel hj hjd hsj hR hD hfuel
    obtain ⟨fuel, rfl⟩ : ∃ f, fuel = f + 1 := ⟨fuel - 1, by omega⟩
    have hji : j = i := by omega
    subst hji
    obtain ⟨hdbg, hret, hit, htr, hbrk, hstay, -⟩ :=
      searchBodyRounded_spec rnd atof engine u pjList s
    have hb : (searchBodyRounded rnd atof engine u pjList s).2 = true := by
      rw [hbrk, hR, ← hk j hj (Nat.le_refl _)]; exact hki
    rw [searchLoopRounded_succ, if_pos (by omega), if_pos hb]
    refine ⟨by rw [hret, hR], by rw [hit]; exact hsj, by rw [(hstay hb).1, hR],
      by rw [(hstay hb).2, hD], ?_, ?_⟩
    · rw [hdbg, hsj, hR]
      simp
    · rw [htr, hR]
      simp
  | succ d ih =>
    intro j s fuel hj hjd hsj hR hD hfuel
    obtain ⟨fuel, rfl⟩ : ∃ f, fuel = f + 1 := ⟨fuel - 1, by omega⟩
    obtain ⟨hdbg, hret, hit, htr, hbrk, -, hmove⟩ :=
      searchBodyRounded_spec rnd atof engine u pjList s
    have hkj : (survivorsAt atof engine u pjList s.R).length = k j := by
      rw [hR]; exact (hk j hj (by omega)).symm
    have hb : ¬ (searchBodyRounded rnd atof engine u pjList s).2 = true := by
      rw [hbrk, hkj]; exact hne j hj (by omega)
    rw [searchLoopRounded_succ, if_pos (by omega), if_neg hb]
    obtain ⟨hR1, hD1⟩ := hmove (by simpa using hb)
    obtain ⟨s2, hs2⟩ : ∃ s2 : IterState K, s2 =
        { (searchBodyRounded rnd atof engine u pjList s).1 with
          iIter := (searchBodyRounded rnd atof engine u pjList s).1.iIter + 1 } := ⟨_, rfl⟩
    have h2i : s2.iIter + 1 = j + 1 := by rw [hs2]; simp [hit, hsj]
    have h2d : s2.debug = s.debug ++ [debugLineAt atof engine u pjList j (R j)] := by
      rw [hs2]; simp only; rw [hdbg, hsj, hR]
    have h2t : engineRunEvents s2.trace =
        engineRunEvents s.trace ++ [engineRunAt atof u pjList (R j)] := by
      rw [hs2]; simp only; rw [htr, hR]
    have h2R : s2.R = R (j + 1) := by
      rw [hs2]; simp only; rw [hR1, hkj, hR, hD, hstep j hj (by omega)]
    have h2D : s2.RDiff = D (j + 1) := by
      rw [hs2]; simp only; rw [hD1, hD, hhalf j hj (by omega)]
    rw [← hs2]
    clear hs2
    obtain ⟨r1, r2, r3, r4, r5, r6⟩ :=
      ih (j + 1) s2 fuel (by omega) (by omega) h2i h2R h2D (by omega)
    refine ⟨r1, r2, r3, r4, ?_, ?_⟩
    · rw [r5, h2d, List.range'_succ j (d + 1)]
      simp
    · rw [r6, h2t, List.range'_succ j (d + 1)]
      simp

/-- The rounded search along a trajectory `R`, `D`, `k` with first match at iteration `i`. -/
theorem searchRounded_first_match (rnd : K → K) (M_PI_4 : K) (atof : String → K)
    (engine : Engine K) (u : FastJetUtil K) (pjList : List (PseudoJet K)) (R D : Nat → K)
    (k : Nat → Nat) (i : Nat) (hi1 : 1 ≤ i) (hi20 : i ≤ 20)
    (hR1 : R 1 = M_PI_4) (hD1 : D 1 = rnd (M_PI_4 / 2))
    (hk : ∀ j, 1 ≤ j → j ≤ i → k j = (survivorsAt atof engine u pjList (R j)).length)
    (hstep : ∀ j, 1 ≤ j → j < i →
      R (j + 1) = rnd (R j + stepSign u._requestedNumberOfJets (k j) * D j))
    (hhalf : ∀ j, 1 ≤ j → j < i → D (j + 1) = rnd (D j / 2))
    (hne : ∀ j, 1 ≤ j → j < i → k j ≠ u._requestedNumberOfJets)
    (hki : k i = u._requestedNumberOfJets) :
    doIterativeInclusiveClusteringRounded rnd M_PI_4 atof engine u pjList =
      Except.ok (survivorsAt atof engine u pjList (R i)) ∧
    engineRunEvents (searchEndRounded rnd M_PI_4 atof engine u pjList).trace =
      (List.range' 1 i).map
        (fun j => Event.clusterSequence pjList (definitionAtRadius atof u (R j))) ∧
    (searchEndRounded rnd M_PI_4 atof engine u pjList).debug =
      (List.range' 1 i).map (fun j => DebugLine.mk (j - 1) (R j)
        (inclusiveJetsAt atof engine u pjList (R j)).length (k j)) ∧
    (searchEndRounded rnd M_PI_4 atof engine u pjList).R = R i := by
  obtain ⟨i0, rfl⟩ : ∃ i0, i = i0 + 1 := ⟨i - 1, by omega⟩
  obtain ⟨f1, f2, f3, -, f5, f6⟩ := searchLoopRounded_follow rnd atof engine u pjList R D k
    (i0 + 1) hi20 hk hstep hhalf hne hki i0 1 (searchStartRounded rnd M_PI_4)
    ITERATIVE_INCLUSIVE_MAX_ITERATIONS (Nat.le_refl _) (by omega) (by simp [searchStartRounded])
    (by rw [hR1]; simp [searchStartRounded]) (by rw [hD1]; simp [searchStartRounded])
    (by simp only [ITERATIVE_INCLUSIVE_MAX_ITERATIONS]; omega)
  have hend : searchLoopRounded rnd atof engine u pjList ITERATIVE_INCLUSIVE_MAX_ITERATIONS
      (searchStartRounded rnd M_PI_4) = searchEndRounded rnd M_PI_4 atof engine u pjList := rfl
  rw [hend] at f1 f2 f3 f5 f6
  refine ⟨?_, ?_, ?_, f3⟩
  · have hne' : (searchEndRounded rnd M_PI_4 atof engine u pjList).iIter ≠
        ITERATIVE_INCLUSIVE_MAX_ITERATIONS := by
      simp only [ITERATIVE_INCLUSIVE_MAX_ITERATIONS]; omega
    simp only [doIterativeInclusiveClusteringRounded, if_neg hne', f1]
  · rw [f6]
    simp only [searchStartRounded, engineRunEvents_nil, List.nil_append]
    rfl
  · rw [f5]
    simp only [searchStartRounded, List.nil_append]
    apply List.map_congr_left
    intro j hj
    rw [List.mem_range'_1] at hj
    simp only [debugLineAt]
    rw [hk j hj.1 (by omega)]

end RoundedFollowLemmas

section RoundedExampleLemmas

theorem scenarioUp_count (j : Nat) (h1 : 1 ≤ j) (h4 : j ≤ 4) :
    scenarioUpCount j =
      (survivorsAt demoAtof demoEngineUp scenarioC demoEvent (scenarioUpRadius j)).length := by
  interval_cases j <;>
    simp [scenarioUpCount, scenarioUpRadius, survivorsAt, inclusiveJetsAt, definitionAtRadius,
      demoEngineUp, demoRadius, demoJet, demo_M_PI_4, scenarioC, demoConfigured] <;>
    norm_num

theorem scenarioUp_step_first : scenarioUpStep 1 = roundDouble (demo_M_PI_4 / 2) := by
  have h := roundDouble_step 1 (by decide)
  rw [pow_one] at h
  rw [h, scenarioUpStep, pow_one]

theorem scenarioUp_step (j : Nat) (h1 : 1 ≤ j) (h4 : j < 4) :
    scenarioUpStep (j + 1) = roundDouble (scenarioUpStep j / 2) := by
  have h := roundDouble_step (j + 1) (by omega)
  have e : scenarioUpStep j / 2 = demo_M_PI_4 / 2 ^ (j + 1) := by
    rw [scenarioUpStep, pow_succ]
    field_simp
  rw [e, h, scenarioUpStep]

theorem scenarioUp_radius (j : Nat) (h1 : 1 ≤ j) (h4 : j < 4) :
    scenarioUpRadius (j + 1) =
      roundDouble (scenarioUpRadius j +
        stepSign scenarioC._requestedNumberOfJets (scenarioUpCount j) * scenarioUpStep j) := by
  have hn : scenarioC._requestedNumberOfJets = 2 := rfl
  interval_cases j
  · have e : scenarioUpRadius 1 + stepSign scenarioC._requestedNumberOfJets (scenarioUpCount 1) *
        scenarioUpStep 1 = demo_M_PI_4 + demo_M_PI_4 / 2 ^ 1 := by
      simp [scenarioUpRadius, scenarioUpCount, scenarioUpStep, stepSign, hn]
    rw [e, roundDouble_second_radius]
    simp [scenarioUpRadius]
  · have e : scenarioUpRadius 2 + stepSign scenarioC._requestedNumberOfJets (scenarioUpCount 2) *
        scenarioUpStep 2 = 3 * demo_M_PI_4 / 2 + demo_M_PI_4 / 2 ^ 2 := by
      simp [scenarioUpRadius, scenarioUpCount, scenarioUpStep, stepSign, hn]
    rw [e, roundDouble_third_radius]
    simp [scenarioUpRadius]
  · have e : scenarioUpRadius 3 + stepSign scenarioC._requestedNumberOfJets (scenarioUpCount 3) *
        scenarioUpStep 3 = 7 * demo_M_PI_4 / 4 + demo_M_PI_4 / 2 ^ 3 := by
      simp [scenarioUpRadius, scenarioUpCount, scenarioUpStep, stepSign, hn]
    rw [e, roundDouble_fourth_radius]
    simp [scenarioUpRadius]

theorem scenarioUp_first : scenarioUpCount 4 = scenarioC._requestedNumberOfJets ∧
    ∀ j, 1 ≤ j → j < 4 → scenarioUpCount j ≠ scenarioC._requestedNumberOfJets := by
  refine ⟨by simp [scenarioUpCount, scenarioC, demoConfigured], ?_⟩
  intro j h1 h4
  interval_cases j <;> simp [scenarioUpCount, scenarioC, demoConfigured]

end RoundedExampleLemmas

section RoundedTrajectoryClaims

variable {K : Type} [LinearOrderedField K]

/-- C3, as stated, fails in `double` arithmetic on scenario C with the engine
`demoEngineUp`: the survivor counts are 3, 3, 3 at iterations 1 to 3 and 2 at iteration 4,
so iteration 4 is the first match and every earlier step is an increase; the engine runs at
`M_PI_4`, `3 M_PI_4 / 2`, `7 M_PI_4 / 4` and then at `3316048946263331 / 2^51`, which is
the sum `7 M_PI_4 / 4 + M_PI_4 / 8` rounded to a `double`, and not the radius
`pi/4 + pi/8 + pi/16 + pi/32` of the claim. -/
theorem C3_exact_radius_counterexample :
    doIterativeInclusiveClusteringRounded roundDouble demo_M_PI_4 demoAtof demoEngineUp
        scenarioC demoEvent =
      Except.ok (survivorsAt demoAtof demoEngineUp scenarioC demoEvent
        (3316048946263331 / 2 ^ 51)) ∧
    (searchEndRounded roundDouble demo_M_PI_4 demoAtof demoEngineUp scenarioC
        demoEvent).debug.map (fun l => l.nJets) = [3, 3, 3, 2] ∧
    (searchEndRounded roundDouble demo_M_PI_4 demoAtof demoEngineUp scenarioC
        demoEvent).debug.map (fun l => l.R) =
      [demo_M_PI_4, 3 * demo_M_PI_4 / 2, 7 * demo_M_PI_4 / 4, 3316048946263331 / 2 ^ 51] ∧
    (3316048946263331 / 2 ^ 51 : ℚ) ≠
      demo_M_PI_4 + ∑ m in Finset.Ico 1 4,
        stepSign scenarioC._requestedNumberOfJets (scenarioUpCount m) *
          (4 * demo_M_PI_4 / 2 ^ (m + 2)) := by
  obtain ⟨h1, -, h3, -⟩ := searchRounded_first_match roundDouble demo_M_PI_4 demoAtof
    demoEngineUp scenarioC demoEvent scenarioUpRadius scenarioUpStep scenarioUpCount 4
    (by decide) (by decide) rfl scenarioUp_step_first scenarioUp_count scenarioUp_radius
    scenarioUp_step scenarioUp_first.2 scenarioUp_first.1
  refine ⟨?_, ?_, ?_, ?_⟩
  · rw [h1]
    simp [scenarioUpRadius]
  · rw [h3]
    simp [List.range', scenarioUpCount]
  · rw [h3]
    simp [List.range', scenarioUpRadius]
  · have hn : scenarioC._requestedNumberOfJets = 2 := rfl
    have hs : ∑ m in Finset.Ico 1 4,
        stepSign scenarioC._requestedNumberOfJets (scenarioUpCount m) *
          (4 * demo_M_PI_4 / 2 ^ (m + 2)) = 7 * demo_M_PI_4 / 8 := by
      simp [Finset.sum_Ico_eq_sum_range, Finset.sum_range_succ, stepSign, scenarioUpCount, hn]
      ring
    rw [hs]
    norm_num [demo_M_PI_4]

/-- C3, as amended: let `R j`, `D j` and `k j` be the radius, the step and the survivor
count of iteration `j` as the code computes them when every `double` operation rounds its
exact result by `rnd`: `R 1 = M_PI_4`, `D 1 = rnd (M_PI_4 / 2)`,
`R (j+1) = rnd (R j + s j * D j)` with `s j = -1` when `k j < n` and `s j = +1` when
`k j > n`, `D (j+1) = rnd (D j / 2)`, and `k j` the number of survivors at radius `R j`.  If
iteration `i` (between 1 and 20) is the first whose survivor count equals
`n = _requestedNumberOfJets`, then `doIterativeInclusiveClustering` returns the survivors
of iteration `i`, it runs the engine exactly `i` times, and iteration `j` runs the engine at
radius `R j` and logs `R j` and `k j`.  When none of these operations rounds, `R j` is
`M_PI_4 + sum over m < j of s m * pi / 2^(m+2)` with `pi = 4 * M_PI_4`. -/
theorem C3_first_match_and_rounded_trajectory (rnd : K → K) (M_PI_4 : K) (atof : String → K)
    (engine : Engine K) (u : FastJetUtil K) (pjList : List (PseudoJet K))
    (R D : Nat → K) (k : Nat → Nat) (i : Nat) (hi1 : 1 ≤ i) (hi20 : i ≤ 20)
    (hR1 : R 1 = M_PI_4) (hD1 : D 1 = rnd (M_PI_4 / 2))
    (hk : ∀ j, 1 ≤ j → j ≤ i → k j = (survivorsAt atof engine u pjList (R j)).length)
    (hR : ∀ j, 1 ≤ j → j < i →
      R (j + 1) = rnd (R j + stepSign u._requestedNumberOfJets (k j) * D j))
    (hD : ∀ j, 1 ≤ j → j < i → D (j + 1) = rnd (D j / 2))
    (hfirst : k i = u._requestedNumberOfJets ∧
      ∀ j, 1 ≤ j → j < i → k j ≠ u._requestedNumberOfJets) :
    doIterativeInclusiveClusteringRounded rnd M_PI_4 atof engine u pjList =
      Except.ok (survivorsAt atof engine u pjList (R i)) ∧
    engineRunEvents (searchEndRounded rnd M_PI_4 atof engine u pjList).trace =
      (List.range' 1 i).map
        (fun j => Event.clusterSequence pjList (definitionAtRadius atof u (R j))) ∧
    (searchEndRounded rnd M_PI_4 atof engine u pjList).debug =
      (List.range' 1 i).map (fun j => DebugLine.mk (j - 1) (R j)
        (inclusiveJetsAt atof engine u pjList (R j)).length (k j)) ∧
    ((∀ j, 1 ≤ j → j ≤ i → rnd (M_PI_4 / 2 ^ j) = M_PI_4 / 2 ^ j) →
      (∀ j, 1 ≤ j → j < i →
        rnd (R j + stepSign u._requestedNumberOfJets (k j) * (M_PI_4 / 2 ^ j)) =
          R j + stepSign u._requestedNumberOfJets (k j) * (M_PI_4 / 2 ^ j)) →
      ∀ j, 1 ≤ j → j ≤ i →
        D j = M_PI_4 / 2 ^ j ∧
        R j = M_PI_4 + ∑ m in Finset.Ico 1 j,
          stepSign u._requestedNumberOfJets (k m) * (4 * M_PI_4 / 2 ^ (m + 2))) := by
  obtain ⟨h1, h2, h3, -⟩ := searchRounded_first_match rnd M_PI_4 atof engine u pjList R D k i
    hi1 hi20 hR1 hD1 hk hR hD hfirst.2 hfirst.1
  refine ⟨h1, h2, h3, ?_⟩
  intro hhalf hexact j
  induction j with
  | zero => intro h; omega
  | succ j ih =>
    intro _ hji
    by_cases hj : j = 0
    · subst hj
      refine ⟨?_, by simp [hR1]⟩
      rw [hD1, pow_one]
      have := hhalf 1 (Nat.le_refl _) hi1
      rwa [pow_one] at this
    · obtain ⟨ihD, ihR⟩ := ih (by omega) (by omega)
      have hDj : D (j + 1) = M_PI_4 / 2 ^ (j + 1) := by
        rw [hD j (by omega) (by omega), ihD]
        have e : M_PI_4 / 2 ^ j / 2 = M_PI_4 / 2 ^ (j + 1) := by
          rw [pow_succ]; field_simp
        rw [e]
        exact hhalf (j + 1) (by omega) hji
      refine ⟨hDj, ?_⟩
      rw [hR j (by omega) (by omega), ihD, hexact j (by omega) (by omega), ihR,
        Finset.sum_Ico_succ_top (by omega), add_assoc]
      congr 2
      rw [pow_add]
      field_simp
      ring

end RoundedTrajectoryClaims

section RoundedTrajectoryWitnesses

/-- C3, on scenario C with the engine `demoEngineUp` in `double` arithmetic: the survivor
count is 3 at iterations 1 to 3 and 2 at iteration 4; the search returns the two survivors
of iteration 4 after four engine runs, the fourth at the rounded radius
`3316048946263331 / 2^51`. -/
theorem C3_first_match_and_rounded_trajectory_witness :
    doIterativeInclusiveClusteringRounded roundDouble demo_M_PI_4 demoAtof demoEngineUp
        scenarioC demoEvent =
      Except.ok (survivorsAt demoAtof demoEngineUp scenarioC demoEvent (scenarioUpRadius 4)) ∧
    engineRunEvents (searchEndRounded roundDouble demo_M_PI_4 demoAtof demoEngineUp scenarioC
        demoEvent).trace =
      (List.range' 1 4).map (fun j => Event.clusterSequence demoEvent
        (definitionAtRadius demoAtof scenarioC (scenarioUpRadius j))) ∧
    (searchEndRounded roundDouble demo_M_PI_4 demoAtof demoEngineUp scenarioC
        demoEvent).debug =
      (List.range' 1 4).map (fun j => DebugLine.mk (j - 1) (scenarioUpRadius j)
        (inclusiveJetsAt demoAtof demoEngineUp scenarioC demoEvent (scenarioUpRadius j)).length
        (scenarioUpCount j)) :=
  have h := C3_first_match_and_rounded_trajectory roundDouble demo_M_PI_4 demoAtof demoEngineUp
    scenarioC demoEvent scenarioUpRadius scenarioUpStep scenarioUpCount 4 (by decide)
    (by decide) rfl scenarioUp_step_first scenarioUp_count scenarioUp_radius scenarioUp_step
    scenarioUp_first
  ⟨h.1, h.2.1, h.2.2.1⟩

end RoundedTrajectoryWitnesses

end MarlinFastJet
